import Mathlib

/-!
# AI Study Buddy: quiz scoring, statistics and guest chat store

A shallow embedding of the server routes of the Study Buddy backend
(`server/routes/quiz.js`, `server/routes/chat.js`, `server/routes/user.js`,
`server/routes/files.js`) together with theorems about them.

Conventions of the embedding.

* JavaScript numbers are IEEE binary64 values.  Every number that occurs in the
  embedded code is non-negative, so `JSNum` has `NaN`, `+Infinity` and the
  non-negative finite values, the latter as fractions in lowest terms.
  Arithmetic rounds to the nearest binary64 value, ties to even
  (`roundToDouble`).  The exponent range of binary64 is not represented: the
  quantities computed here are quotients, products and sums of array lengths
  and percentages, far inside the normal range.
* `new Date()`, `Date.now()`, `Math.random()` and the time zone of the host
  (`Zone`, the offset from UTC at each instant) are inputs of the embedded
  functions.
* `Map` objects are association lists in insertion order (`JSMap`).
* Object literals used as lookup tables inherit the properties of
  `Object.prototype`; `lookupOwnOrInherited` makes that visible.
* A call of the persistent store may reject at any time (`DbFaults`).  In
  addition `FileAnalysis.create` checks the attributes that the model declares
  as required, which the object passed by the upload route does not carry.
-/

namespace StudyBuddy

/-! ## JavaScript numbers -/

/-- The non-negative part of the JavaScript number type. `fin num den` is the
rational `num / den`; the arithmetic below always produces it in lowest terms,
so an integer `k` is `fin k 1`. -/
inductive JSNum
  | nan
  | posInf
  | fin (num den : Nat)
  deriving DecidableEq, Repr

/-- A natural number as a JavaScript number (exact below `2 ^ 53`). -/
def JSNum.ofNat (k : Nat) : JSNum := .fin k 1

/-- Worker of `log2Floor`: the first argument bounds the number of halvings. -/
def log2Floor.go : Nat → Nat → Nat
  | 0, _ => 0
  | f + 1, k => if k < 2 then 0 else log2Floor.go f (k / 2) + 1

/-- Position of the highest set bit: `⌊log₂ n⌋` for `n > 0`, and `0` for `n = 0`. -/
def log2Floor (n : Nat) : Nat := log2Floor.go n n

/-- Number of doublings of the denominator in `roundToDouble`. -/
def scaleDown (p q : Nat) : Nat := log2Floor p - (log2Floor q + 52)

/-- Number of doublings of the numerator in `roundToDouble`: chosen, with
`scaleDown`, so that the scaled quotient lies in `[2 ^ 52, 2 ^ 53)`. -/
def scaleUp (p q : Nat) : Nat :=
  let a0 := (log2Floor q + 52) - log2Floor p
  if p * 2 ^ a0 < 2 ^ 52 * (q * 2 ^ scaleDown p q) then a0 + 1 else a0

/-- The integer nearest to `N / D`, ties to the even neighbour. -/
def roundQuotient (N D : Nat) : Nat :=
  let m0 := N / D
  let r := N % D
  if 2 * r < D then m0 else if D < 2 * r then m0 + 1
  else if m0 % 2 = 0 then m0 else m0 + 1

/-- The binary64 value nearest to the positive rational `p / q` (`q > 0`), ties
to even.  The numerator and the denominator are scaled by powers of two until
the quotient lies in `[2 ^ 52, 2 ^ 53)`, the quotient is rounded to an integer
`m` (a 53-bit significand), and `m` is scaled back and reduced to lowest terms. -/
def roundToDouble (p q : Nat) : JSNum :=
  if p = 0 then .fin 0 1 else
  let a := scaleUp p q
  let b := scaleDown p q
  let m := roundQuotient (p * 2 ^ a) (q * 2 ^ b)
  let g := Nat.gcd (m * 2 ^ b) (2 ^ a)
  .fin (m * 2 ^ b / g) (2 ^ a / g)

/-- JavaScript `x / y` on non-negative numbers. -/
def jsDiv : JSNum → JSNum → JSNum
  | .nan, _ => .nan
  | _, .nan => .nan
  | .posInf, .posInf => .nan
  | .posInf, .fin _ _ => .posInf
  | .fin _ _, .posInf => .fin 0 1
  | .fin a b, .fin c d =>
    if c = 0 then (if a = 0 then .nan else .posInf) else roundToDouble (a * d) (b * c)

/-- JavaScript `x * y` on non-negative numbers. -/
def jsMul : JSNum → JSNum → JSNum
  | .nan, _ => .nan
  | _, .nan => .nan
  | .posInf, .posInf => .posInf
  | .posInf, .fin c _ => if c = 0 then .nan else .posInf
  | .fin a _, .posInf => if a = 0 then .nan else .posInf
  | .fin a b, .fin c d => roundToDouble (a * c) (b * d)

/-- JavaScript `x + y` on non-negative numbers. -/
def jsAdd : JSNum → JSNum → JSNum
  | .nan, _ => .nan
  | _, .nan => .nan
  | .posInf, _ => .posInf
  | _, .posInf => .posInf
  | .fin a b, .fin c d => roundToDouble (a * d + c * b) (b * d)

/-- JavaScript `Math.round`: the nearest integer, halves rounded up
(`⌊x + 1/2⌋`, computed exactly). -/
def mathRound : JSNum → JSNum
  | .nan => .nan
  | .posInf => .posInf
  | .fin a b => .fin ((2 * a + b) / (2 * b)) 1

/-- The integer nearest to the exact rational `p / q`, halves rounded up: what
`round(p / q)` denotes in the specification. -/
def roundHalfUp (p q : Nat) : Nat := (2 * p + q) / (2 * q)

/-! ## Values, maps and responses -/

/-- The JavaScript values that can stand in a submitted `answers` array:
a missing entry, `null`, an integer or a string. -/
inductive JSVal
  | undefined
  | null
  | num (n : Int)
  | str (s : String)
  deriving DecidableEq, Repr

/-- A JavaScript `Map` with string keys, as its entries in insertion order. -/
abbrev JSMap (β : Type) := List (String × β)

/-- `map.get(key)`: `none` stands for `undefined`. -/
def JSMap.get {β : Type} (m : JSMap β) (key : String) : Option β :=
  match m with
  | [] => none
  | (k, v) :: rest => if k = key then some v else JSMap.get rest key

/-- `map.set(key, value)`: an existing key keeps its position, a new key goes last. -/
def JSMap.set {β : Type} (m : JSMap β) (key : String) (value : β) : JSMap β :=
  match m with
  | [] => [(key, value)]
  | (k, v) :: rest =>
    if k = key then (k, value) :: rest else (k, v) :: JSMap.set rest key value

/-- `map.delete(key)`. -/
def JSMap.delete {β : Type} (m : JSMap β) (key : String) : JSMap β :=
  match m with
  | [] => []
  | (k, v) :: rest =>
    if k = key then JSMap.delete rest key else (k, v) :: JSMap.delete rest key

/-- `Array.from(map.values())`. -/
def JSMap.values {β : Type} (m : JSMap β) : List β := m.map Prod.snd

/-- Outcome of a route handler: a `200` JSON body, an error status with its
`error` text, or an exception that leaves the handler (no response is sent). -/
inductive Response (α : Type)
  | ok (body : α)
  | error (status : Nat) (error : String)
  | uncaught (exception : String)
  deriving DecidableEq, Repr

/-! ## Quiz engine (`server/routes/quiz.js`) -/

/-- One quiz question: prompt, option texts, zero-based index of the correct
option, explanation. -/
structure Question where
  question : String
  options : List String
  correct : Nat
  explanation : String
  deriving DecidableEq, Repr

/-- The `quizMeta` record kept for a generated quiz. `isAIGenerated` is absent
(`none`) on AI-generated quizzes. -/
structure Quiz where
  id : String
  title : String
  topic : String
  difficulty : String
  questionType : String
  totalQuestions : Nat
  questions : List Question
  createdAt : Nat
  isAIGenerated : Option Bool
  deriving DecidableEq, Repr

/-- One entry of the per-question breakdown of a submission.  The two display
strings `userAnswerText` and `correctAnswerText` of the source record are not
carried. -/
structure QuestionResult where
  questionIndex : Nat
  question : String
  userAnswer : JSVal
  correctAnswer : Nat
  isCorrect : Bool
  explanation : String
  deriving DecidableEq, Repr

/-- The `score` object of a quiz result. -/
structure Score where
  correct : Nat
  total : Nat
  percentage : JSNum
  deriving DecidableEq, Repr

/-- The `quiz` summary embedded in a quiz result. -/
structure QuizInfo where
  title : String
  topic : String
  difficulty : String
  deriving DecidableEq, Repr

/-- The `quizResult` record built by the submit route. -/
structure QuizResult where
  quizId : String
  answers : List JSVal
  results : List QuestionResult
  score : Score
  timeSpent : Nat
  completedAt : Nat
  quiz : QuizInfo
  deriving DecidableEq, Repr

/-- `answers[index]`: an index past the end of the array reads `undefined`. -/
def answerAt (answers : List JSVal) (index : Nat) : JSVal :=
  answers.getD index JSVal.undefined

/-- `userAnswer === question.correct` for a numeric `correct`. -/
def strictEq (userAnswer : JSVal) (correct : Nat) : Bool :=
  decide (userAnswer = JSVal.num (correct : Int))

/-- The callback-with-counter of `quiz.questions.map((question, index) => ...)`:
walks the questions from `index` on, threading the `correctAnswers` counter. -/
def mapQuestions (answers : List JSVal) :
    List Question → Nat → Nat → List QuestionResult × Nat
  | [], _, correctAnswers => ([], correctAnswers)
  | question :: rest, index, correctAnswers =>
    let userAnswer := answerAt answers index
    let isCorrect := strictEq userAnswer question.correct
    let correctAnswers' := if isCorrect then correctAnswers + 1 else correctAnswers
    let entry : QuestionResult :=
      { questionIndex := index
        question := question.question
        userAnswer := userAnswer
        correctAnswer := question.correct
        isCorrect := isCorrect
        explanation := question.explanation }
    let (entries, total) := mapQuestions answers rest (index + 1) correctAnswers'
    (entry :: entries, total)

/-- The "Calculate results" block of the submit route: per-question breakdown,
`Math.round((correctAnswers / quiz.questions.length) * 100)`, and the
`quizResult` record. -/
def calculateResults (quizId : String) (quiz : Quiz) (answers : List JSVal)
    (timeSpent : Option Nat) (now : Nat) : QuizResult :=
  let (results, correctAnswers) := mapQuestions answers quiz.questions 0 0
  let score := mathRound
    (jsMul (jsDiv (JSNum.ofNat correctAnswers) (JSNum.ofNat quiz.questions.length))
      (JSNum.ofNat 100))
  { quizId := quizId
    answers := answers
    results := results
    score := { correct := correctAnswers, total := quiz.questions.length, percentage := score }
    timeSpent := timeSpent.getD 0
    completedAt := now
    quiz := { title := quiz.title, topic := quiz.topic, difficulty := quiz.difficulty } }

/-- The guest stores of `quiz.js`. -/
structure QuizStore where
  guestQuizzes : JSMap Quiz
  guestQuizResults : JSMap QuizResult
  deriving DecidableEq, Repr

/-! ### Persistent store -/

/-- The calls the routes make on the persistent store.  Any of them can reject. -/
inductive DbOp
  | conversationFindOne
  | conversationCreate
  | messageCreateUser
  | messageFindAll
  | messageCreateAssistant
  | conversationUpdate
  | conversationDestroy
  | messageDestroy
  | studyActivityCreate
  | quizFindOne
  | quizCreate
  | quizResultCreate
  | quizResultFindAll
  | conversationCount
  | conversationFindAll
  | studyActivityFindAll
  | fileAnalysisCreate
  | fileAnalysisFindOne
  | fileAnalysisFindAll
  | fileAnalysisCount
  | fileAnalysisDestroy
  deriving DecidableEq, Repr

/-- Failure of the persistent store during one request: `faults op = some msg`
means that the call `op`, when the handler reaches it, rejects with
`new Error(msg)`. -/
abbrev DbFaults := DbOp → Option String

/-- No call on the persistent store fails. -/
def noFaults : DbFaults := fun _ => none

/-- A row of the `quizzes` table. -/
structure QuizRow where
  userId : String
  quiz : Quiz
  deriving DecidableEq, Repr

/-- A row of the `quiz_results` table: `score` is the flat percentage. -/
structure QuizResultRow where
  id : String
  userId : String
  quizId : String
  answers : List JSVal
  score : JSNum
  totalQuestions : Nat
  timeSpent : Nat
  createdAt : Nat
  deriving DecidableEq, Repr

/-- A row of the `study_activities` table (the free-form `details` bag is not
carried). -/
structure StudyActivity where
  userId : String
  activityType : String
  points : JSNum
  createdAt : Nat
  deriving DecidableEq, Repr

/-- A row of the `conversations` table. -/
structure ConversationRow where
  id : String
  userId : String
  title : List Nat
  personality : String
  messageCount : Nat
  lastMessageAt : Nat
  deriving DecidableEq, Repr

/-- The two message roles. -/
inductive Role
  | user
  | assistant
  deriving DecidableEq, Repr

/-- A row of the `messages` table. -/
structure MessageRow where
  conversationId : String
  role : Role
  content : String
  createdAt : Nat
  deriving DecidableEq, Repr

/-- A row of the `file_analyses` table, with the attributes the upload route
passes to `FileAnalysis.create`. -/
structure FileRow where
  id : String
  userId : String
  fileName : String
  fileSize : Nat
  fileType : String
  filePath : String
  analysis : String
  summary : String
  extractedText : String
  createdAt : Nat
  deriving DecidableEq, Repr

/-- The persistent store: its tables, rows in insertion order. -/
structure Db where
  conversations : List ConversationRow
  messages : List MessageRow
  quizzes : List QuizRow
  quizResults : List QuizResultRow
  activities : List StudyActivity
  fileAnalyses : List FileRow
  deriving DecidableEq, Repr

/-- `Quiz.findOne({ where: { id: quizId, userId } })`. -/
def Db.findQuiz (db : Db) (quizId userId : String) : Option Quiz :=
  (db.quizzes.find? (fun row => decide (row.quiz.id = quizId ∧ row.userId = userId))).map
    (fun row => row.quiz)

/-- JavaScript `Math.max(x, y)` on non-negative numbers. -/
def jsMax : JSNum → JSNum → JSNum
  | .nan, _ => .nan
  | _, .nan => .nan
  | .posInf, _ => .posInf
  | _, .posInf => .posInf
  | .fin a b, .fin c d => if a * d < c * b then .fin c d else .fin a b

/-- `Math.max(5, Math.round(score / 10))`: the points logged for a completed quiz. -/
def completionPoints (score : JSNum) : JSNum :=
  jsMax (JSNum.ofNat 5) (mathRound (jsDiv score (JSNum.ofNat 10)))

/-- Body of a successful submit response: `{ resultId, ...quizResult }`. -/
structure SubmitBody where
  resultId : String
  result : QuizResult
  deriving DecidableEq, Repr

/-- The quiz the submit route scores: for an authenticated caller the owner-scoped
persistent lookup first, then the guest store. -/
def locateQuiz (user : Option String) (db : Db) (store : QuizStore) (quizId : String) :
    Option Quiz :=
  match user.bind (fun u => db.findQuiz quizId u) with
  | some quiz => some quiz
  | none => store.guestQuizzes.get quizId

/-- `POST /api/quiz/:quizId/submit`.  `user` is `req.user` (`none` for a guest),
`resultId` the generated identifier and `now` the clock. -/
def submit (user : Option String) (faults : DbFaults) (db : Db) (store : QuizStore)
    (quizId : String) (answers : List JSVal) (timeSpent : Option Nat)
    (resultId : String) (now : Nat) : Db × QuizStore × Response SubmitBody :=
  if user.isSome ∧ (faults .quizFindOne).isSome then
    (db, store, .error 500 "Failed to submit quiz")
  else
  match locateQuiz user db store quizId with
  | none => (db, store, .error 404 "Quiz not found")
  | some quiz =>
    let quizResult := calculateResults quizId quiz answers timeSpent now
    let score := quizResult.score.percentage
    let body : SubmitBody := { resultId := resultId, result := quizResult }
    let fallback : QuizStore :=
      { store with guestQuizResults := store.guestQuizResults.set resultId quizResult }
    match user with
    | none => (db, fallback, .ok body)
    | some u =>
      match faults .quizResultCreate with
      | some _ => (db, fallback, .ok body)
      | none =>
        let row : QuizResultRow :=
          { id := resultId, userId := u, quizId := quizId, answers := answers, score := score
            totalQuestions := quiz.questions.length, timeSpent := timeSpent.getD 0
            createdAt := now }
        let db1 := { db with quizResults := db.quizResults ++ [row] }
        match faults .studyActivityCreate with
        | some _ => (db1, fallback, .ok body)
        | none =>
          let activity : StudyActivity :=
            { userId := u, activityType := "quiz_completed"
              points := completionPoints score
              createdAt := now }
          ({ db1 with activities := db1.activities ++ [activity] }, store, .ok body)

/-! ### Quiz history -/

/-- A result as the history route sees it: a persistent row with a flat integer
score, or a guest record with a nested `score` object. -/
inductive StoredResult
  | flat (row : QuizResultRow)
  | nested (result : QuizResult)
  deriving DecidableEq, Repr

/-- `typeof result.score === 'object' ? result.score.percentage : result.score`. -/
def scoreValue : StoredResult → JSNum
  | .flat row => row.score
  | .nested result => result.score.percentage

/-- The `averageScore` expression of the history route. -/
def averageScore (allResults : List StoredResult) : JSNum :=
  if allResults.length > 0 then
    mathRound (jsDiv
      (allResults.foldl (fun sum result => jsAdd sum (scoreValue result)) (JSNum.ofNat 0))
      (JSNum.ofNat allResults.length))
  else JSNum.ofNat 0

/-- Insertion step of the stable descending sort: `x` goes before the first
element whose key does not exceed the key of `x`. -/
def insertDesc {α : Type} (key : α → Nat) (x : α) : List α → List α
  | [] => [x]
  | y :: ys => if key y ≤ key x then x :: y :: ys else y :: insertDesc key x ys

/-- `array.sort((a, b) => key(b) - key(a))`: stable, descending by `key`. -/
def sortDesc {α : Type} (key : α → Nat) (l : List α) : List α :=
  l.foldr (insertDesc key) []

/-- Body of the history response. -/
structure HistoryBody where
  results : List StoredResult
  totalQuizzes : Nat
  averageScore : JSNum
  deriving DecidableEq, Repr

/-- The list `allResults` of the history route: the caller's persistent rows,
newest first (empty when the query rejects), or every guest record, newest
first. -/
def historyResults (user : Option String) (faults : DbFaults) (db : Db) (store : QuizStore) :
    List StoredResult :=
  match user with
  | some u =>
    match faults .quizResultFindAll with
    | some _ => []
    | none =>
      (sortDesc (fun row => row.createdAt)
        (db.quizResults.filter (fun row => decide (row.userId = u)))).map StoredResult.flat
  | none =>
    (sortDesc (fun result => result.completedAt) store.guestQuizResults.values).map
      StoredResult.nested

/-- `GET /api/quiz/history`. -/
def history (user : Option String) (faults : DbFaults) (db : Db) (store : QuizStore) :
    Response HistoryBody :=
  let allResults := historyResults user faults db store
  .ok { results := allResults
        totalQuizzes := allResults.length
        averageScore := averageScore allResults }

/-- Specification side of the scoring: question `i` exists and `answers[i]` is
strictly equal to its `correct` index. -/
def correctAt (questions : List Question) (answers : List JSVal) (i : Nat) : Bool :=
  match questions[i]? with
  | some q => strictEq (answerAt answers i) q.correct
  | none => false

/-- A quiz of `n` copies of one question whose correct option is `0`. -/
def uniformQuiz (id : String) (n : Nat) : Quiz :=
  { id := id, title := "Practice", topic := "General", difficulty := "easy"
    questionType := "multiple-choice", totalQuestions := n
    questions := List.replicate n
      { question := "Q", options := ["a", "b", "c", "d"], correct := 0, explanation := "E" }
    createdAt := 0, isAIGenerated := none }

/-- An answers array with `c` right answers followed by `w` wrong ones, for `uniformQuiz`. -/
def answersWith (c w : Nat) : List JSVal :=
  List.replicate c (JSVal.num 0) ++ List.replicate w (JSVal.num 1)

/-- A guest store holding exactly the quiz `quiz`. -/
def storeWith (quiz : Quiz) : QuizStore :=
  { guestQuizzes := [(quiz.id, quiz)], guestQuizResults := [] }

/-- The empty persistent store. -/
def emptyDb : Db :=
  { conversations := [], messages := [], quizzes := [], quizResults := [], activities := []
    fileAnalyses := [] }

/-! ## Statistics (`server/routes/user.js`) -/

/-- `24 * 60 * 60 * 1000`: the milliseconds of 24 hours. -/
def msPerDay : Nat := 24 * 60 * 60 * 1000

/-- The time zone of the host: the offset of local time from UTC, in
milliseconds, at each instant (milliseconds since the epoch).  The offset
changes at a daylight-saving transition. -/
abbrev Zone := Int → Int

/-- The zone without offset. -/
def utc : Zone := fun _ => 0

/-- The offsets of `America/New_York` around 1 November 2026 (day 20758 of the
epoch): four hours behind UTC until 06:00 UTC of that day, five hours from then
on. -/
def newYorkAutumn2026 : Zone :=
  fun t => if t < 20758 * (msPerDay : Int) + 6 * 3600000 then -(4 * 3600000) else -(5 * 3600000)

/-- The calendar date (`toDateString()`) of the instant `t` (milliseconds since
the epoch) in the zone of the host, as a day number: the days elapsed on the
local clock since 1 January 1970. -/
def toDateString (zone : Zone) (t : Int) : Int := (t + zone t) / (msPerDay : Int)

/-- `hasActivity` of the streak loop on iteration `i`: some activity falls on
the calendar date of `today - i * 24h`. -/
def hasActivity (zone : Zone) (studyActivities : List StudyActivity) (today : Nat)
    (i : Nat) : Bool :=
  studyActivities.any (fun activity =>
    decide (toDateString zone (activity.createdAt : Int) =
      toDateString zone ((today : Int) - (i : Int) * (msPerDay : Int))))

/-- The loop `for (let i = 0; i < 30; i++) { ... }` of the stats route with
`remaining` iterations left; a `break` returns the current `studyStreak`. -/
def streakLoop (has : Nat → Bool) : Nat → Nat → Nat → Nat
  | 0, _, studyStreak => studyStreak
  | remaining + 1, i, studyStreak =>
    if has i then
      if i = 0 ∨ studyStreak > 0 then streakLoop has remaining (i + 1) (studyStreak + 1)
      else studyStreak
    else if i = 0 then studyStreak
    else streakLoop has remaining (i + 1) studyStreak

/-- The `studyStreak` of `GET /api/user/stats`. -/
def studyStreak (zone : Zone) (studyActivities : List StudyActivity) (today : Nat) : Nat :=
  streakLoop (hasActivity zone studyActivities today) 30 0 0

/-- Length of the run of consecutive days `i, i + 1, ...` that satisfy `has`,
looking at no more than `cap` days. -/
def runFrom (has : Nat → Bool) : Nat → Nat → Nat
  | 0, _ => 0
  | cap + 1, i => if has i then runFrom has cap (i + 1) + 1 else 0

/-- Whether some activity falls on the local calendar day `day`. -/
def activeOn (zone : Zone) (studyActivities : List StudyActivity) (day : Int) : Bool :=
  studyActivities.any (fun activity =>
    decide (toDateString zone (activity.createdAt : Int) = day))

/-- Specification side of the streak: the number of consecutive calendar days
with an activity, counted backward from the calendar day of `today` and
stopping at the first day without activity, looking back no more than `cap`
days. -/
def consecutiveDays (zone : Zone) (studyActivities : List StudyActivity) (today : Nat)
    (cap : Nat) : Nat :=
  runFrom (fun i => activeOn zone studyActivities (toDateString zone (today : Int) - (i : Int)))
    cap 0

/-- An activity logged at time `t`. -/
def activityAt (t : Nat) : StudyActivity :=
  { userId := "u", activityType := "chat_message", points := JSNum.ofNat 5, createdAt := t }

/-- One activity per day on each of the `days` days ending today. -/
def dailyActivities (today : Nat) (days : Nat) : List StudyActivity :=
  (List.range days).map (fun i => activityAt (today - i * msPerDay))

/-- Two guest results, the first with all of three answers right (100 %), the
second with two of three right (67 %). -/
def twoResultsStore : QuizStore :=
  { guestQuizzes := []
    guestQuizResults :=
      [("r1", calculateResults "q3" (uniformQuiz "q3" 3) (answersWith 3 0) none 1),
       ("r2", calculateResults "q3" (uniformQuiz "q3" 3) (answersWith 2 1) none 2)] }

/-! ## Chat (`server/routes/chat.js`)

Texts (messages, answers, identifiers) are Lean strings, that is sequences of
Unicode characters.  JavaScript measures and cuts a string in UTF-16 code units
(`length`, `substring`): a character beyond U+FFFF counts for two.  Where a chat
handler cuts a text (conversation title, message preview) the model works on
the code units (`utf16`) and the result is a list of code units, which need
not be a whole number of characters. -/

/-- A message of a guest conversation, and a message as `loadHistory` returns it. -/
structure ChatMessage where
  role : Role
  content : String
  timestamp : Nat
  deriving DecidableEq, Repr

/-- The process-wide `guestConversations` map. -/
abbrev GuestStore := JSMap (List ChatMessage)

/-- The `personalityPrompts` object literal. -/
def personalityPrompts : List (String × String) :=
  [("friendly",
    "You are a friendly and encouraging AI study buddy. Be warm, supportive, and use emojis appropriately. Always encourage the student and make learning fun."),
   ("professional",
    "You are a professional and formal AI tutor. Provide clear, structured explanations with proper academic language. Be thorough and precise in your responses."),
   ("casual",
    "You are a casual, Gen Z AI study buddy. Use modern slang, be relatable, and make learning feel like chatting with a friend. Keep it real and engaging!"),
   ("motivational",
    "You are a motivational AI coach. Be energetic, inspiring, and push the student to excel. Use motivational language and help build confidence."),
   ("patient",
    "You are a patient and calm AI tutor. Take time to explain concepts slowly and clearly. Be understanding if the student struggles and provide gentle guidance."),
   ("enthusiastic",
    "You are an enthusiastic and energetic AI teacher. Show excitement about every topic, use exclamation points, and make everything sound amazing and interesting!")]

/-- The `fallbackResponses` object literal of the message route. -/
def fallbackResponses : List (String × String) :=
  [("friendly",
    "I'm sorry, I'm having some technical difficulties right now, but I'm here to help! \u00f0\u0178\u02dc\u0160 Could you please try asking your question again in a moment?"),
   ("professional",
    "I apologize, but I'm currently experiencing technical issues. Please try your request again shortly, and I'll be happy to assist you with your studies."),
   ("casual",
    "Oops! Something went wrong on my end \u00f0\u0178\u02dc\u2026 Give me a sec and try again - I'll be right back to help you out!"),
   ("motivational",
    "Don't worry! Even the best systems need a moment to recharge! \u00f0\u0178\u2019\u00aa Try again in a moment and let's crush those study goals together!"),
   ("patient",
    "I understand this might be frustrating, but I'm experiencing some technical difficulties. Please be patient and try again in a moment. I'm here to help you learn."),
   ("enthusiastic",
    "Oh no! My circuits got a bit tangled! \u00f0\u0178\u00a4\u2013\u00e2\u0153\u00a8 But don't let that stop your learning momentum! Try again in just a moment!")]

/-- The property names every object literal inherits from `Object.prototype`. -/
def objectPrototypeKeys : List String :=
  ["constructor", "__defineGetter__", "__defineSetter__", "hasOwnProperty",
   "__lookupGetter__", "__lookupSetter__", "isPrototypeOf", "propertyIsEnumerable",
   "toString", "valueOf", "__proto__", "toLocaleString"]

/-- Result of the property read `table[key]` on an object literal. -/
inductive Lookup
  | own (text : String)
  | inherited (key : String)
  | undefined
  deriving DecidableEq, Repr

/-- `table[key]` for an object literal `table` with string values: an own
property, else a property inherited from `Object.prototype` (a function, or the
prototype object itself for `__proto__`), else `undefined`. -/
def lookupOwnOrInherited (table : List (String × String)) (key : String) : Lookup :=
  match table.lookup key with
  | some text => .own text
  | none => if key ∈ objectPrototypeKeys then .inherited key else .undefined

/-- String conversion of the value of an inherited property, as happens in
`value += "..."` and in a template literal. -/
def inheritedToString (key : String) : String :=
  if key = "__proto__" then "[object Object]"
  else if key = "constructor" then "function Object() \x7b [native code] \x7d"
  else "function " ++ key ++ "() \x7b [native code] \x7d"

/-- `String(table[key] || table.friendly)`: every own entry and every inherited
value is truthy, so the default applies to `undefined` only. -/
def lookupOrFriendly (table : List (String × String)) (key : String) : String :=
  match lookupOwnOrInherited table key with
  | .own text => text
  | .inherited k => inheritedToString k
  | .undefined => (table.lookup "friendly").getD ""

/-- The note appended to a fallback response. -/
def fallbackNote : String :=
  "\n\n*Note: This is a fallback response due to temporary AI service issues.*"

/-- The six personality tags. -/
def personalityTags : List String :=
  ["friendly", "professional", "casual", "motivational", "patient", "enthusiastic"]

/-- `s.substring(0, n)` for the analysis and the extracted text of an uploaded
file, cut in characters (the cut of a text that has characters beyond U+FFFF in
its first `n` code units is not represented; no statement below depends on
where these cuts fall). -/
def substring0 (s : String) (n : Nat) : String := String.mk (s.toList.take n)

/-- `array.slice(-n)`: the last `n` elements. -/
def sliceLast {α : Type} (n : Nat) (l : List α) : List α := l.drop (l.length - n)

/-- The UTF-16 code units of a character: one unit up to U+FFFF, a surrogate
pair beyond. -/
def charUnits (c : Char) : List Nat :=
  if c.toNat < 65536 then [c.toNat]
  else [55296 + (c.toNat - 65536) / 1024, 56320 + (c.toNat - 65536) % 1024]

/-- The UTF-16 code units of a text: what `length` counts and `substring` cuts. -/
def utf16 (s : String) : List Nat := (s.toList.map charUnits).flatten

/-- `text.substring(0, 50) + (text.length > 50 ? '...' : '')`, in code units. -/
def titleOf (text : String) : List Nat :=
  (utf16 text).take 50 ++ (if (utf16 text).length > 50 then utf16 "..." else [])

/-- Whether `sub` occurs in `s` as a contiguous run of characters. -/
def includesChars (sub : List Char) : List Char → Bool
  | [] => sub.isEmpty
  | c :: cs => sub.isPrefixOf (c :: cs) || includesChars sub cs

/-- `s.includes(sub)`. -/
def includes (s sub : String) : Bool := includesChars sub.toList s.toList

/-- One line of the conversation history of a prompt. -/
def historyLine (role : Role) (content : String) : String :=
  (if role = Role.user then "User" else "Assistant") ++ ": " ++ content

/-- `lines.join('\n')`. -/
def joinLines (lines : List String) : String := "\n".intercalate lines

/-- The `sendMessage` request body.  `personality = none` is an absent field;
`context` is `''` when absent. -/
structure ChatRequest where
  message : String
  conversationId : String
  personality : Option String
  context : String
  deriving DecidableEq, Repr

/-- Body of a successful chat response. -/
structure ChatBody where
  message : String
  conversationId : String
  timestamp : Nat
  deriving DecidableEq, Repr

/-- The generative text service: the prompt is answered with a text, or the
call rejects (or times out) with an error message. -/
abbrev Provider := String → Except String String

/-- The `fullPrompt` of the message route. -/
def fullPrompt (systemPrompt context conversationHistory message : String) : String :=
  systemPrompt ++ "\n\nAdditional context: " ++ context ++ "\n\nConversation history:\n" ++
    conversationHistory ++ "\n\nUser: " ++ message ++ "\n\nAssistant:"

/-- The `fullPrompt` of the voice route. -/
def voicePrompt (systemPrompt conversationHistory transcript : String) : String :=
  systemPrompt ++ "\n\nThis message was received via voice input.\n\nConversation history:\n" ++
    conversationHistory ++ "\n\nUser: " ++ transcript ++ "\n\nAssistant:"

/-- The outer `catch` of the chat routes: the status follows the error text. -/
def chatError (failure : String) (errorMessage : String) : Response ChatBody :=
  if includes errorMessage "API_KEY" then
    .error 401 "Gemini API key is invalid or missing. Please check your configuration."
  else if includes errorMessage "quota" || includes errorMessage "limit" then
    .error 429 "Gemini API quota exceeded. Please try again later."
  else .error 500 failure

/-- The provider call of the message route with its inner `try`/`catch`: on a
failure the canned response of the personality plus the fallback note. -/
def aiResponseOrFallback (provider : Provider) (prompt personality : String) : String :=
  match provider prompt with
  | .ok text => text
  | .error _ => lookupOrFriendly fallbackResponses personality ++ fallbackNote

/-- `Conversation.findOne({ where: { id, userId } })`. -/
def Db.findConversation (db : Db) (id userId : String) : Option ConversationRow :=
  db.conversations.find? (fun c => decide (c.id = id ∧ c.userId = userId))

/-- The messages of a conversation in creation order. -/
def Db.messagesOf (db : Db) (conversationId : String) : List MessageRow :=
  db.messages.filter (fun m => decide (m.conversationId = conversationId))

/-- `Conversation.create({ id, userId, personality, title })`: the primary key
`id` must be new, or the insert rejects. -/
def Db.createConversation (db : Db) (row : ConversationRow) : Except String Db :=
  if db.conversations.any (fun c => decide (c.id = row.id)) then .error "Validation error"
  else .ok { db with conversations := db.conversations ++ [row] }

/-- `conversation.update({ messageCount, lastMessageAt })`. -/
def Db.updateConversation (db : Db) (id : String) (messageCount lastMessageAt : Nat) : Db :=
  { db with conversations := db.conversations.map (fun c =>
      if c.id = id then { c with messageCount := messageCount, lastMessageAt := lastMessageAt }
      else c) }

/-- The history section of a prompt: the last ten messages, one line each. -/
def conversationHistory (recent : List (Role × String)) : String :=
  joinLines ((sliceLast 10 recent).map (fun m => historyLine m.1 m.2))

/-- The authenticated branch of the two chat routes up to the prompt history:
find or create the conversation, store the user message, read the recent
messages.  The first rejecting call aborts with its error message. -/
def openConversation (faults : DbFaults) (now : Nat) (db : Db) (userId conversationId : String)
    (personality text : String) : Db × Except String (ConversationRow × String) :=
  match faults .conversationFindOne with
  | some e => (db, .error e)
  | none =>
    let found : Except String (Db × ConversationRow) :=
      match db.findConversation conversationId userId with
      | some conversation => .ok (db, conversation)
      | none =>
        match faults .conversationCreate with
        | some e => .error e
        | none =>
          let row : ConversationRow :=
            { id := conversationId, userId := userId, title := titleOf text
              personality := personality, messageCount := 0, lastMessageAt := now }
          match db.createConversation row with
          | .error e => .error e
          | .ok db1 => .ok (db1, row)
    match found with
    | .error e => (db, .error e)
    | .ok (db1, conversation) =>
      match faults .messageCreateUser with
      | some e => (db1, .error e)
      | none =>
        let db2 : Db := { db1 with messages := db1.messages ++
          [{ conversationId := conversation.id, role := Role.user, content := text
             createdAt := now }] }
        match faults .messageFindAll with
        | some e => (db2, .error e)
        | none =>
          (db2, .ok (conversation,
            conversationHistory ((db2.messagesOf conversation.id).map
              (fun m => (m.role, m.content)))))

/-- The authenticated branch of the two chat routes after the provider call:
store the assistant message, update the conversation, log the activity. -/
def closeConversation (faults : DbFaults) (now : Nat) (db : Db) (userId : String)
    (conversation : ConversationRow) (aiResponse activityType : String) (points : Nat) :
    Db × Option String :=
  match faults .messageCreateAssistant with
  | some e => (db, some e)
  | none =>
    let db1 : Db := { db with messages := db.messages ++
      [{ conversationId := conversation.id, role := Role.assistant, content := aiResponse
         createdAt := now }] }
    match faults .conversationUpdate with
    | some e => (db1, some e)
    | none =>
      let db2 := db1.updateConversation conversation.id (conversation.messageCount + 2) now
      match faults .studyActivityCreate with
      | some e => (db2, some e)
      | none =>
        ({ db2 with activities := db2.activities ++
            [{ userId := userId, activityType := activityType
               points := JSNum.ofNat points, createdAt := now }] }, none)

/-- The guest branch before the provider call: push the user message onto the
stored list (or a new one) and store it; returns the prompt history too. -/
def guestPushUser (guests : GuestStore) (conversationId text : String) (now : Nat) :
    GuestStore × String :=
  let guestConv := (guests.get conversationId).getD [] ++
    [{ role := Role.user, content := text, timestamp := now }]
  (guests.set conversationId guestConv,
    conversationHistory (guestConv.map (fun m => (m.role, m.content))))

/-- The guest branch after the provider call: push the assistant message and
store the last 50 messages.  `none` when the conversation is not in the map
(`guestConv.push` on `undefined` throws). -/
def guestPushAssistant (guests : GuestStore) (conversationId aiResponse : String) (now : Nat) :
    Option GuestStore :=
  match guests.get conversationId with
  | none => none
  | some guestConv =>
    some (guests.set conversationId (sliceLast 50 (guestConv ++
      [{ role := Role.assistant, content := aiResponse, timestamp := now }])))

/-- `POST /api/chat/message`. -/
def sendMessage (user : Option String) (faults : DbFaults) (provider : Provider) (now : Nat)
    (db : Db) (guests : GuestStore) (req : ChatRequest) :
    Db × GuestStore × Response ChatBody :=
  let personality := req.personality.getD "friendly"
  let failure := "Failed to process message"
  if req.message = "" then (db, guests, .error 400 "Message is required") else
  let systemPrompt := lookupOrFriendly personalityPrompts personality
  match user with
  | some u =>
    match openConversation faults now db u req.conversationId personality req.message with
    | (db1, .error e) => (db1, guests, chatError failure e)
    | (db1, .ok (conversation, history)) =>
      let aiResponse := aiResponseOrFallback provider
        (fullPrompt systemPrompt req.context history req.message) personality
      match closeConversation faults now db1 u conversation aiResponse "chat_message" 5 with
      | (db2, some e) => (db2, guests, chatError failure e)
      | (db2, none) =>
        (db2, guests, .ok { message := aiResponse, conversationId := req.conversationId
                            timestamp := now })
  | none =>
    let (guests1, history) := guestPushUser guests req.conversationId req.message now
    let aiResponse := aiResponseOrFallback provider
      (fullPrompt systemPrompt req.context history req.message) personality
    match guestPushAssistant guests1 req.conversationId aiResponse now with
    | none => (db, guests1, chatError failure "Cannot read properties of undefined")
    | some guests2 =>
      (db, guests2, .ok { message := aiResponse, conversationId := req.conversationId
                          timestamp := now })

/-- The voice request body: `personality = none` is an absent field. -/
structure VoiceRequest where
  transcript : String
  conversationId : String
  personality : Option String
  deriving DecidableEq, Repr

/-- `POST /api/chat/voice`: as the message route, but the provider call has no
inner `try`/`catch`, so its failure reaches the outer `catch`. -/
def sendVoice (user : Option String) (faults : DbFaults) (provider : Provider) (now : Nat)
    (db : Db) (guests : GuestStore) (req : VoiceRequest) :
    Db × GuestStore × Response ChatBody :=
  let failure := "Failed to process voice input"
  if req.transcript = "" then (db, guests, .error 400 "Transcript is required") else
  let systemPrompt := lookupOrFriendly personalityPrompts (req.personality.getD "undefined")
  match user with
  | some u =>
    let stored := match req.personality with
      | none => "friendly"
      | some p => if p = "" then "friendly" else p
    match openConversation faults now db u req.conversationId stored req.transcript with
    | (db1, .error e) => (db1, guests, chatError failure e)
    | (db1, .ok (conversation, history)) =>
      match provider (voicePrompt systemPrompt history req.transcript) with
      | .error e => (db1, guests, chatError failure e)
      | .ok aiResponse =>
        match closeConversation faults now db1 u conversation aiResponse "voice_chat" 7 with
        | (db2, some e) => (db2, guests, chatError failure e)
        | (db2, none) =>
          (db2, guests, .ok { message := aiResponse, conversationId := req.conversationId
                              timestamp := now })
  | none =>
    let (guests1, history) := guestPushUser guests req.conversationId req.transcript now
    match provider (voicePrompt systemPrompt history req.transcript) with
    | .error e => (db, guests1, chatError failure e)
    | .ok aiResponse =>
      match guestPushAssistant guests1 req.conversationId aiResponse now with
      | none => (db, guests1, chatError failure "Cannot read properties of undefined")
      | some guests2 =>
        (db, guests2, .ok { message := aiResponse, conversationId := req.conversationId
                            timestamp := now })

/-- Body of the history response. -/
structure ChatHistoryBody where
  conversationId : String
  messages : List ChatMessage
  messageCount : Nat
  deriving DecidableEq, Repr

/-- `GET /api/chat/history/:conversationId`. -/
def loadHistory (user : Option String) (faults : DbFaults) (db : Db) (guests : GuestStore)
    (conversationId : String) : Response ChatHistoryBody :=
  match user with
  | some u =>
    match faults .conversationFindOne with
    | some _ => .error 500 "Failed to retrieve conversation history"
    | none =>
      let messages : List ChatMessage :=
        match db.findConversation conversationId u with
        | some conversation =>
          (db.messagesOf conversation.id).map (fun m =>
            { role := m.role, content := m.content, timestamp := m.createdAt })
        | none => []
      .ok { conversationId := conversationId, messages := messages
            messageCount := messages.length }
  | none =>
    let messages := (guests.get conversationId).getD []
    .ok { conversationId := conversationId, messages := messages
          messageCount := messages.length }

/-- Body of the clear response. -/
structure ClearBody where
  message : String
  conversationId : String
  deriving DecidableEq, Repr

/-- `DELETE /api/chat/history/:conversationId`. -/
def clearHistory (user : Option String) (faults : DbFaults) (db : Db) (guests : GuestStore)
    (conversationId : String) : Db × GuestStore × Response ClearBody :=
  let failure : Response ClearBody := .error 500 "Failed to clear conversation history"
  let done : Response ClearBody :=
    .ok { message := "Conversation history cleared", conversationId := conversationId }
  match user with
  | some u =>
    match faults .conversationFindOne with
    | some _ => (db, guests, failure)
    | none =>
      match db.findConversation conversationId u with
      | none => (db, guests, done)
      | some conversation =>
        match faults .messageDestroy with
        | some _ => (db, guests, failure)
        | none =>
          let db1 : Db :=
            { db with
              messages := List.filter (fun m => decide (m.conversationId ≠ conversationId))
                db.messages }
          match faults .conversationDestroy with
          | some _ => (db1, guests, failure)
          | none =>
            ({ db1 with
                conversations := List.filter (fun c => decide (c.id ≠ conversation.id))
                  db1.conversations },
              guests, done)
  | none => (db, guests.delete conversationId, done)

/-- The persistent store rejects the call `op` with the error text `msg`, and no
other call. -/
def failAt (op : DbOp) (msg : String) : DbFaults :=
  fun o => if o = op then some msg else none

/-- The persistent calls every authenticated `sendMessage` makes, in order
(`Conversation.create` is made in addition when the conversation is new). -/
def chatOps : List DbOp :=
  [.conversationFindOne, .messageCreateUser, .messageFindAll, .messageCreateAssistant,
   .conversationUpdate, .studyActivityCreate]

/-- A provider that is down: every call rejects with `API_TIMEOUT`. -/
def providerDown : Provider := fun _ => .error "API_TIMEOUT"

/-- A provider that answers every prompt with `text`. -/
def providerSays (text : String) : Provider := fun _ => .ok text

/-- A plain text request. -/
def helloRequest (personality : Option String) : ChatRequest :=
  { message := "Hello", conversationId := "c1", personality := personality, context := "" }

/-- A request whose message is 24 letters followed by 26 emoji (U+1F600): 50
characters, 76 UTF-16 code units. -/
def emojiRequest (personality : Option String) : ChatRequest :=
  { message := String.mk (List.replicate 24 'a' ++ List.replicate 26 (Char.ofNat 128512))
    conversationId := "c1", personality := personality, context := "" }

/-- The text the guest branch of `sendMessage` answers with: the provider's
answer to the prompt built from the stored conversation, or the fallback. -/
def guestReply (provider : Provider) (guests : GuestStore) (req : ChatRequest) : String :=
  aiResponseOrFallback provider
    (fullPrompt (lookupOrFriendly personalityPrompts (req.personality.getD "friendly"))
      req.context
      (conversationHistory
        (((guests.get req.conversationId).getD []).map
            (fun m : ChatMessage => (m.role, m.content)) ++ [(Role.user, req.message)]))
      req.message)
    (req.personality.getD "friendly")

/-- One guest `sendMessage` call with its environment: the request, the
behaviour of the provider during the call, and the clock. -/
structure Exchange where
  req : ChatRequest
  provider : Provider
  now : Nat

/-- Successive guest `sendMessage` calls: the final guest store and the
responses in order. -/
def guestExchanges (guests : GuestStore) : List Exchange → GuestStore × List (Response ChatBody)
  | [] => (guests, [])
  | e :: rest =>
    let r := sendMessage none noFaults e.provider e.now emptyDb guests e.req
    let out := guestExchanges r.2.1 rest
    (out.1, r.2.2 :: out.2)

/-- The two messages an exchange leaves in the history: the sent text, then the
text returned to the caller. -/
def exchangeMessages (e : Exchange) (r : Response ChatBody) : List ChatMessage :=
  match r with
  | .ok body =>
    [{ role := Role.user, content := e.req.message, timestamp := e.now },
     { role := Role.assistant, content := body.message, timestamp := e.now }]
  | _ => []

/-- `n` guest text exchanges with the conversation `c1`, the provider answering. -/
def helloExchanges (n : Nat) : List Exchange :=
  List.replicate n { req := helloRequest none, provider := providerSays "Hi!", now := 1 }

/-- A guest voice request to the conversation `c1`. -/
def voiceRequest : VoiceRequest :=
  { transcript := "Hello", conversationId := "c1", personality := none }

/-! ### Fallback quiz generator and quiz generation -/

/-- The `mathematics` bank of `fallbackQuestions`. -/
def fallbackQuestions.mathematics : List Question :=
  [{ question := "What is 15 + 27?"
     options := ["40", "42", "45", "48"]
     correct := 1
     explanation := "15 + 27 = 42" },
   { question := "What is 8 \u00d7 7?"
     options := ["54", "56", "58", "60"]
     correct := 1
     explanation := "8 \u00d7 7 = 56" },
   { question := "What is 144 \u00f7 12?"
     options := ["10", "12", "14", "16"]
     correct := 1
     explanation := "144 \u00f7 12 = 12" }]

/-- The `science` bank of `fallbackQuestions`. -/
def fallbackQuestions.science : List Question :=
  [{ question := "What is the chemical symbol for water?"
     options := ["H2O", "CO2", "O2", "H2"]
     correct := 0
     explanation := "Water is H2O - two hydrogen atoms bonded to one oxygen atom" },
   { question := "What planet is closest to the Sun?"
     options := ["Venus", "Mercury", "Earth", "Mars"]
     correct := 1
     explanation := "Mercury is the closest planet to the Sun" }]

/-- The `general` bank of `fallbackQuestions`. -/
def fallbackQuestions.general : List Question :=
  [{ question := "Which of the following is a prime number?"
     options := ["15", "21", "17", "25"]
     correct := 2
     explanation := "17 is a prime number as it's only divisible by 1 and itself" },
   { question := "What is the capital of France?"
     options := ["London", "Berlin", "Madrid", "Paris"]
     correct := 3
     explanation := "Paris is the capital city of France" }]

/-- `s.toLowerCase()`.  Only the letters `A`-`Z` are mapped; the keyword tests
below look for ASCII words that no other character can produce. -/
def toLowerCase (s : String) : String := String.mk (s.toList.map Char.toLower)

/-- `keywords.some(k => text.includes(k))`. -/
def includesAny (text : String) (keywords : List String) : Bool :=
  keywords.any (fun k => includes text k)

/-- The bank `generateFallbackQuiz` selects for a topic. -/
def selectQuestionSet (topic : String) : List Question :=
  let topicLower := toLowerCase topic
  if includesAny topicLower ["math", "arithmetic", "number"] then fallbackQuestions.mathematics
  else if includesAny topicLower ["science", "chemistry", "physics", "biology"] then
    fallbackQuestions.science
  else fallbackQuestions.general

/-- The random source: `random k` stands for the `k`-th value of `Math.random()`
and `Math.floor(Math.random() * n)` is `random k % n`, so that every index below
`n` can come out. -/
abbrev RandomSource := Nat → Nat

/-- The loop `for (let i = 0; i < Math.min(questionCount, availableQuestions.length); i++)`
that moves a random question from `availableQuestions` to `selectedQuestions`.
`k` counts the calls of `Math.random()`; the bound is read again on every
iteration, after the splice.  The first argument bounds the iterations by the
initial length of `availableQuestions`. -/
def pickLoop (random : RandomSource) (questionCount : Nat) :
    Nat → Nat → Nat → List Question → List Question → List Question × Nat
  | 0, _, k, selectedQuestions, _ => (selectedQuestions, k)
  | fuel + 1, i, k, selectedQuestions, availableQuestions =>
    if h : i < min questionCount availableQuestions.length then
      let randomIndex : Fin availableQuestions.length :=
        ⟨random k % availableQuestions.length, Nat.mod_lt _ (by omega)⟩
      pickLoop random questionCount fuel (i + 1) (k + 1)
        (selectedQuestions ++ [availableQuestions.get randomIndex])
        (availableQuestions.eraseIdx randomIndex)
    else (selectedQuestions, k)

/-- The loop `while (selectedQuestions.length < questionCount && questionSet.length > 0)`
that repeats random questions of the bank.  The first argument bounds the
iterations by `questionCount`. -/
def repeatLoop (random : RandomSource) (questionCount : Nat) (questionSet : List Question) :
    Nat → Nat → List Question → List Question
  | 0, _, selectedQuestions => selectedQuestions
  | fuel + 1, k, selectedQuestions =>
    if h : selectedQuestions.length < questionCount ∧ questionSet.length > 0 then
      repeatLoop random questionCount questionSet fuel (k + 1)
        (selectedQuestions ++
          [questionSet.get ⟨random k % questionSet.length, Nat.mod_lt _ h.2⟩])
    else selectedQuestions

/-- What `generateFallbackQuiz` returns. -/
structure QuizData where
  title : String
  topic : String
  difficulty : String
  questions : List Question
  deriving DecidableEq, Repr

/-- `generateFallbackQuiz(topic, difficulty, questionCount)`. -/
def generateFallbackQuiz (random : RandomSource) (topic difficulty : String)
    (questionCount : Nat) : QuizData :=
  let questionSet := selectQuestionSet topic
  let (selectedQuestions, k) :=
    pickLoop random questionCount questionSet.length 0 0 [] questionSet
  let selectedQuestions := repeatLoop random questionCount questionSet questionCount k
    selectedQuestions
  { title := "Practice Quiz: " ++ topic, topic := topic, difficulty := difficulty
    questions := selectedQuestions }

/-- The `generate` request body; `none` is an absent field. -/
structure GenerateRequest where
  topic : String
  difficulty : Option String
  questionCount : Option Nat
  questionType : Option String
  context : String
  deriving DecidableEq, Repr

/-- Body of a successful generate response. -/
structure GenerateBody where
  quizId : String
  quiz : Quiz
  message : String
  isAIGenerated : Option Bool
  deriving DecidableEq, Repr

/-- White space in the sense of `String.prototype.trim`. -/
def isJsWhitespace (c : Char) : Bool :=
  c.toNat ∈ [9, 10, 11, 12, 13, 32, 160, 5760, 8232, 8233, 8239, 8287, 12288, 65279] ||
    (8192 ≤ c.toNat && c.toNat ≤ 8202)

/-- `s.trim()`. -/
def trim (s : String) : String :=
  String.mk (((s.toList.dropWhile isJsWhitespace).reverse.dropWhile isJsWhitespace).reverse)

/-- Worker of `stripFences` on characters; the first argument bounds the number
of steps by the length of the text. -/
def stripFencesChars : Nat → List Char → List Char
  | 0, _ => []
  | _ + 1, [] => []
  | fuel + 1, c :: cs =>
    if "```json".toList.isPrefixOf (c :: cs) then stripFencesChars fuel ((c :: cs).drop 7)
    else if "```".toList.isPrefixOf (c :: cs) then stripFencesChars fuel ((c :: cs).drop 3)
    else c :: stripFencesChars fuel cs

/-- `aiResponse.replace(/```json|```/g, '')`: one left-to-right pass that drops
every match. -/
def stripFences (s : String) : String := String.mk (stripFencesChars s.length s.toList)

/-- `cleanResponse` of the generate routes. -/
def cleanResponse (aiResponse : String) : String := trim (stripFences aiResponse)

/-- The generation prompt of the quiz route. -/
def quizPrompt (topic difficulty questionType context : String) (questionCount : Nat) : String :=
  "Create a " ++
    difficulty ++
    " level " ++
    questionType ++
    " quiz about \"" ++
    topic ++
    "\" with " ++
    toString questionCount ++
    " questions.\n\n    " ++
    (if context = "" then "" else "Additional context: " ++ context) ++
    "\n\n    Format the response as a JSON object with this structure:\n    \x7b\n      \"title\": \"Quiz title\",\n      \"topic\": \"" ++
    topic ++
    "\",\n      \"difficulty\": \"" ++
    difficulty ++
    "\",\n      \"questions\": [\n        \x7b\n          \"question\": \"Question text\",\n          \"options\": [\"Option A\", \"Option B\", \"Option C\", \"Option D\"],\n          \"correct\": 0,\n          \"explanation\": \"Explanation of why this answer is correct\"\n        \x7d\n      ]\n    \x7d\n\n    Make sure:\n    - Questions are educational and accurate\n    - Options are plausible but only one is correct\n    - Explanations are clear and helpful\n    - Difficulty matches the requested level\n    - All questions are about the specified topic\n    - Respond with ONLY the JSON object, no additional text"

/-- The `catch` block of the generate route.  Its overload branch evaluates
`generateFallbackQuiz(topic, difficulty, questionCount)`, but `topic`,
`difficulty`, `questionCount` and `questionType` are `const` bindings of the
`try` block and are not in scope here: the branch throws a `ReferenceError` out
of the handler before a quiz is built or a response is sent. -/
def generateCatch (errorMessage : String) : Response GenerateBody :=
  if includes errorMessage "API_KEY" then
    .error 401 "Gemini API key is invalid or missing. Please check your configuration."
  else if includes errorMessage "quota" || includes errorMessage "limit" ||
      includes errorMessage "overloaded" then
    .uncaught "ReferenceError: topic is not defined"
  else .error 500 "Failed to generate quiz"

/-- `POST /api/quiz/generate`.  `parse` is `JSON.parse` on the cleaned provider
text (`none` when it throws), `quizId` the generated identifier. -/
def generate (user : Option String) (faults : DbFaults) (provider : Provider)
    (parse : String → Option QuizData) (quizId : String) (now : Nat)
    (db : Db) (store : QuizStore) (req : GenerateRequest) :
    Db × QuizStore × Response GenerateBody :=
  let difficulty := req.difficulty.getD "medium"
  let questionCount := req.questionCount.getD 5
  let questionType := req.questionType.getD "multiple-choice"
  if req.topic = "" then (db, store, .error 400 "Topic is required") else
  match provider (quizPrompt req.topic difficulty questionType req.context questionCount) with
  | .error e => (db, store, generateCatch e)
  | .ok aiResponse =>
    match parse (cleanResponse aiResponse) with
    | none => (db, store, generateCatch "Invalid AI response format")
    | some quizData =>
      let quizMeta : Quiz :=
        { id := quizId, title := quizData.title, topic := quizData.topic
          difficulty := quizData.difficulty, questionType := questionType
          totalQuestions := quizData.questions.length, questions := quizData.questions
          createdAt := now, isAIGenerated := none }
      let inMemory : QuizStore :=
        { store with guestQuizzes := store.guestQuizzes.set quizId quizMeta }
      let degraded : Response GenerateBody :=
        .ok { quizId := quizId, quiz := quizMeta
              message := "Quiz generated successfully (using fallback storage)"
              isAIGenerated := none }
      let done : Response GenerateBody :=
        .ok { quizId := quizId, quiz := quizMeta, message := "Quiz generated successfully"
              isAIGenerated := none }
      match user with
      | none => (db, inMemory, done)
      | some u =>
        match faults .quizCreate with
        | some _ => (db, inMemory, degraded)
        | none =>
          let db1 : Db := { db with quizzes := db.quizzes ++ [{ userId := u, quiz := quizMeta }] }
          match faults .studyActivityCreate with
          | some _ => (db1, inMemory, degraded)
          | none =>
            ({ db1 with activities := db1.activities ++
                [{ userId := u, activityType := "quiz_generated", points := JSNum.ofNat 10
                   createdAt := now }] }, store, done)

/-- A provider that rejects every call because it is overloaded. -/
def providerOverloaded : Provider := fun _ => .error "The model is overloaded"

/-- The request of Scenario A. -/
def mathematicsRequest : GenerateRequest :=
  { topic := "Mathematics", difficulty := some "easy", questionCount := some 2
    questionType := none, context := "" }

/-! ### File analyses held in memory -/

/-- An `analysisResult` record of the in-memory map `guestFileAnalyses`.
`userId` is present only on records written after a failed persistent write;
`isAIGenerated` only on fallback analyses. -/
structure FileRecord where
  id : String
  fileName : String
  fileSize : Nat
  mimeType : String
  uploadedAt : Nat
  analysis : String
  textContent : String
  filePath : String
  isAIGenerated : Option Bool
  userId : Option String
  deriving DecidableEq, Repr

/-- The process-wide `guestFileAnalyses` map. -/
abbrev FileStore := JSMap FileRecord

/-! ### User statistics -/

/-- An achievement badge. -/
structure Achievement where
  title : String
  description : String
  earnedAt : Nat
  deriving DecidableEq, Repr

/-- One entry of `weeklyProgress`. -/
structure DayProgress where
  day : String
  quizzes : Nat
  studyTime : Nat
  deriving DecidableEq, Repr

/-- The `stats` record of `GET /api/user/stats`. -/
structure Stats where
  totalConversations : Nat
  totalQuizzes : Nat
  totalFilesUploaded : Nat
  averageQuizScore : JSNum
  studyStreak : Nat
  totalStudyTime : Nat
  favoriteSubjects : List String
  weeklyProgress : List DayProgress
  recentAchievements : List Achievement
  totalPoints : JSNum
  isGuest : Bool
  deriving DecidableEq, Repr

/-- The fixed record returned to a guest. -/
def guestStats : Stats :=
  { totalConversations := 0, totalQuizzes := 0, totalFilesUploaded := 0
    averageQuizScore := JSNum.ofNat 0, studyStreak := 0, totalStudyTime := 0
    favoriteSubjects := [], weeklyProgress := [], recentAchievements := []
    totalPoints := JSNum.ofNat 0, isGuest := true }

/-- `x || 0` on numbers: `NaN` and `0` are falsy. -/
def orZero : JSNum → JSNum
  | .nan => JSNum.ofNat 0
  | x => x

/-- `x >= k` for a natural number `k`. -/
def jsGe : JSNum → Nat → Bool
  | .nan, _ => false
  | .posInf, _ => true
  | .fin a b, k => decide (k * b ≤ a)

/-- `totalQuizzes > 0 ? Math.round(quizResults.reduce((sum, quiz) => sum + quiz.score, 0) / totalQuizzes) : 0`. -/
def averageQuizScore (quizResults : List QuizResultRow) : JSNum :=
  if quizResults.length > 0 then
    mathRound (jsDiv
      (quizResults.foldl (fun sum quiz => jsAdd sum quiz.score) (JSNum.ofNat 0))
      (JSNum.ofNat quizResults.length))
  else JSNum.ofNat 0

/-- `studyActivities.reduce((sum, activity) => sum + (activity.points || 0), 0)`. -/
def totalPoints (studyActivities : List StudyActivity) : JSNum :=
  studyActivities.foldl (fun sum activity => jsAdd sum (orZero activity.points)) (JSNum.ofNat 0)

/-- The `days` array of the stats route. -/
def dayNames : List String := ["Sun", "Mon", "Tue", "Wed", "Thu", "Fri", "Sat"]

/-- `date.getDay()` of a day number: day 0 (1 January 1970) was a Thursday. -/
def getDay (dayNumber : Int) : Nat := ((dayNumber + 4) % 7).toNat

/-- The activities that fall on the calendar date of `today - i * 24h`. -/
def dayActivities (zone : Zone) (studyActivities : List StudyActivity) (today : Nat)
    (i : Nat) : List StudyActivity :=
  studyActivities.filter (fun activity =>
    decide (toDateString zone (activity.createdAt : Int) =
      toDateString zone ((today : Int) - (i : Int) * (msPerDay : Int))))

/-- The entry pushed by iteration `i` of `for (let i = 6; i >= 0; i--)`. -/
def dayProgress (zone : Zone) (studyActivities : List StudyActivity) (today : Nat)
    (i : Nat) : DayProgress :=
  let acts := dayActivities zone studyActivities today i
  { day := dayNames.getD
      (getDay (toDateString zone ((today : Int) - (i : Int) * (msPerDay : Int)))) ""
    quizzes := (acts.filter (fun a => decide (a.activityType = "quiz_completed"))).length
    studyTime := acts.length * 15 }

/-- The `weeklyProgress` array: iterations `i = 6, 5, ..., 0`. -/
def weeklyProgress (zone : Zone) (studyActivities : List StudyActivity) (today : Nat) :
    List DayProgress :=
  [6, 5, 4, 3, 2, 1, 0].map (dayProgress zone studyActivities today)

/-- The `recentAchievements` array. -/
def recentAchievements (totalQuizzes : Nat) (average : JSNum) (streak totalFiles now : Nat) :
    List Achievement :=
  (if totalQuizzes ≥ 5 then
      [{ title := "Quiz Explorer", description := "Completed 5 quizzes", earnedAt := now }]
    else []) ++
  (if jsGe average 80 then
      [{ title := "High Achiever", description := "80%+ average score", earnedAt := now }]
    else []) ++
  (if streak ≥ 3 then
      [{ title := "Study Streak", description := toString streak ++ " days in a row!"
         earnedAt := now }]
    else []) ++
  (if totalFiles ≥ 3 then
      [{ title := "File Analyzer", description := "Analyzed 3+ files", earnedAt := now }]
    else [])

/-- The file count of the stats route: persistent rows plus in-memory records
of the user; when the first query rejects, the direct count, or 0 when that
rejects too. -/
def countFiles (faults : DbFaults) (db : Db) (files : FileStore) (userId : String) : Nat :=
  let dbCount := (db.fileAnalyses.filter (fun row => decide (row.userId = userId))).length
  match faults .fileAnalysisFindAll with
  | none =>
    dbCount + (files.values.filter (fun analysis => decide (analysis.userId = some userId))).length
  | some _ =>
    match faults .fileAnalysisCount with
    | none => dbCount
    | some _ => 0

/-- `GET /api/user/stats` (`computeStats`).  `now` is the clock (`new Date()`),
`zone` the time zone of the host. -/
def computeStats (user : Option String) (faults : DbFaults) (db : Db) (files : FileStore)
    (zone : Zone) (now : Nat) : Response Stats :=
  match user with
  | none => .ok guestStats
  | some u =>
    if (faults .conversationCount).isSome ∨ (faults .quizResultFindAll).isSome ∨
        (faults .studyActivityFindAll).isSome then
      .error 500 "Failed to retrieve statistics"
    else
      let conversationsCount :=
        (db.conversations.filter (fun c => decide (c.userId = u))).length
      let quizResults := db.quizResults.filter (fun row => decide (row.userId = u))
      let studyActivities := sortDesc (fun a => a.createdAt)
        (db.activities.filter (fun a => decide (a.userId = u)))
      let totalFilesUploaded := countFiles faults db files u
      let totalQuizzes := quizResults.length
      let average := averageQuizScore quizResults
      let streak := studyStreak zone studyActivities now
      .ok { totalConversations := conversationsCount
            totalQuizzes := totalQuizzes
            totalFilesUploaded := totalFilesUploaded
            averageQuizScore := average
            studyStreak := streak
            totalStudyTime := studyActivities.length * 15
            favoriteSubjects := ["Mathematics", "Physics", "Biology"]
            weeklyProgress := weeklyProgress zone studyActivities now
            recentAchievements :=
              recentAchievements totalQuizzes average streak totalFilesUploaded now
            totalPoints := totalPoints studyActivities
            isGuest := false }

/-- A quiz result row of user `u` with the score `p`. -/
def resultRow (u : String) (p : Nat) : QuizResultRow :=
  { id := "r", userId := u, quizId := "q", answers := [], score := JSNum.ofNat p
    totalQuestions := 5, timeSpent := 0, createdAt := 0 }

/-- A persistent store that holds two quiz results of user `u1`, 79 % and 80 %. -/
def twoRowsDb : Db :=
  { emptyDb with quizResults := [resultRow "u1" 79, resultRow "u1" 80] }

/-- A persistent store whose only activity, of user `u1`, is 40 days old and
worth 5 points. -/
def oldActivityDb : Db :=
  { emptyDb with activities :=
      [{ userId := "u1", activityType := "chat_message", points := JSNum.ofNat 5
         createdAt := 10 * msPerDay }] }

/-- A persistent store whose user `u1` has one activity, 40 days old, and five
quiz results of 90 %. -/
def veteranDb : Db :=
  { oldActivityDb with quizResults := List.replicate 5 (resultRow "u1" 90) }

/-- A persistent store with two activities of `u1`: a completed quiz at 19:00 on
Sunday 1 November 2026 and a chat message at noon on Monday 26 October 2026,
New York time. -/
def longWeekDb : Db :=
  { emptyDb with activities :=
      [{ userId := "u1", activityType := "quiz_completed", points := JSNum.ofNat 10
         createdAt := 20759 * msPerDay },
       { userId := "u1", activityType := "chat_message", points := JSNum.ofNat 5
         createdAt := 20752 * msPerDay + 16 * 3600000 }] }

/-! ## File analysis (`server/routes/files.js`) -/

/-- The alternatives of the regular expression `allowedExtensions`. -/
def allowedExtensions : List String :=
  ["jpeg", "jpg", "png", "gif", "pdf", "txt", "doc", "docx", "md", "csv", "ppt", "pptx"]

/-- The alternatives of the regular expression `allowedMimeTypes` (all literal). -/
def allowedMimeTypes : List String :=
  ["image/",
   "application/pdf",
   "text/plain",
   "text/markdown",
   "text/csv",
   "application/msword",
   "application/vnd.openxmlformats-officedocument.wordprocessingml.document",
   "application/vnd.ms-powerpoint",
   "application/vnd.openxmlformats-officedocument.presentationml.presentation"]

/-- The extensions the upload filter is meant to admit. -/
def admittedExtensions : List String := allowedExtensions.map (fun e => "." ++ e)

/-- The last path component, trailing separators ignored. -/
def basenameChars (path : List Char) : List Char :=
  (((path.reverse.dropWhile (fun c => c = '/')).takeWhile (fun c => c ≠ '/'))).reverse

/-- `path.extname(p)`: from the last dot of the last path component to its end;
empty when there is no dot, when the only dot is the first character, or when
the component is `..`. -/
def extname (p : String) : String :=
  let base := basenameChars p.toList
  let afterDot := base.reverse.takeWhile (fun c => c ≠ '.')
  if afterDot.length = base.length then ""
  else if afterDot.length + 1 = base.length then ""
  else if base = ['.', '.'] then ""
  else String.mk (base.drop (base.length - (afterDot.length + 1)))

/-- `regex.test(s)` for a regular expression that is an alternation of literal
words, without anchors: some word occurs somewhere in `s`. -/
def testAlternatives (words : List String) (s : String) : Bool :=
  words.any (fun w => includes s w)

/-- The `fileFilter` of the upload middleware: `none` accepts the file, `some
msg` rejects it with `new Error(msg)`. -/
def fileFilter (originalname mimetype : String) : Option String :=
  let extnameOk := testAlternatives allowedExtensions (toLowerCase (extname originalname))
  let mimetypeOk := testAlternatives allowedMimeTypes mimetype
  if mimetypeOk ∧ extnameOk then none
  else some ("Invalid file type. Received: " ++ mimetype ++ ". Only images, PDFs, text documents, presentations, and spreadsheets are allowed.")

/-- The file handed over by the upload middleware (`req.file`). -/
structure UploadedFile where
  originalname : String
  size : Nat
  mimetype : String
  path : String
  deriving DecidableEq, Repr

/-- Body of a successful upload response. -/
structure UploadBody where
  analysisId : String
  fileName : String
  fileSize : Nat
  analysis : String
  uploadedAt : Nat
  message : String
  isAIGenerated : Option Bool
  deriving DecidableEq, Repr

/-- The `analysisPrompt` of the upload route. -/
def analysisPrompt (textContent : String) : String :=
  "Analyze the following educational content and provide a comprehensive summary:\n\n    Content: " ++
    substring0 textContent 3000 ++ " " ++
    (if textContent.length > 3000 then "...(truncated)" else "") ++
    "\n\n    Please provide:\n    1. A clear summary of the main concepts\n    2. Key points that students should focus on\n    3. Important definitions or formulas\n    4. Study recommendations\n    5. Suggested quiz topics\n\n    Format your response in a structured, educational manner that helps students learn effectively."

/-- The attributes that the `FileAnalysis` model (`models/FileAnalysis.js`)
declares with `allowNull: false` and without a default value. -/
def fileAnalysisRequired : List String :=
  ["userId", "fileName", "originalName", "filePath", "fileSize", "mimeType", "analysis"]

/-- The keys of the object literal that both branches of the upload route pass
to `FileAnalysis.create`. -/
def uploadRowAttributes : List String :=
  ["id", "userId", "fileName", "fileSize", "fileType", "filePath", "analysis", "summary",
   "extractedText"]

/-- `FileAnalysis.create(values)` where `attributes` are the keys of `values`.
The model is validated before anything is written: a required attribute that
`values` does not carry rejects with a `notNull Violation`.  After that the
primary key `id` must be new. -/
def Db.createFileAnalysis (db : Db) (attributes : List String) (row : FileRow) :
    Except String Db :=
  match fileAnalysisRequired.find? (fun a => !attributes.contains a) with
  | some a => .error ("notNull Violation: FileAnalysis." ++ a ++ " cannot be null")
  | none =>
    if db.fileAnalyses.any (fun r => decide (r.id = row.id)) then .error "Validation error"
    else .ok { db with fileAnalyses := db.fileAnalyses ++ [row] }

/-- `FileAnalysis.findOne({ where: { id, userId } })`. -/
def Db.findFileAnalysis (db : Db) (id userId : String) : Option FileRow :=
  db.fileAnalyses.find? (fun r => decide (r.id = id ∧ r.userId = userId))

/-- The storing step shared by the two branches of the upload route.  For an
authenticated caller the row and the `file_upload` activity (15 points) are
written inside one `try`; when either write rejects, the record goes to the
in-memory map tagged with the caller's id.  For a guest the record goes to the
map untagged.  The row carries the values of the object literal of the route,
whose keys are `uploadRowAttributes`. -/
def storeAnalysis (user : Option String) (faults : DbFaults) (now : Nat) (db : Db)
    (files : FileStore) (record : FileRecord) : Db × FileStore :=
  match user with
  | none => (db, files.set record.id record)
  | some u =>
    let tagged : FileStore := files.set record.id { record with userId := some u }
    let row : FileRow :=
      { id := record.id, userId := u, fileName := record.fileName
        fileSize := record.fileSize, fileType := record.mimeType
        filePath := record.filePath, analysis := record.analysis
        summary := substring0 record.analysis 500 ++
          (if record.analysis.length > 500 then "..." else "")
        extractedText := record.textContent, createdAt := now }
    match faults .fileAnalysisCreate with
    | some _ => (db, tagged)
    | none =>
      match db.createFileAnalysis uploadRowAttributes row with
      | .error _ => (db, tagged)
      | .ok db1 =>
        match faults .studyActivityCreate with
        | some _ => (db1, tagged)
        | none =>
          ({ db1 with activities := db1.activities ++
              [{ userId := u, activityType := "file_upload", points := JSNum.ofNat 15
                 createdAt := now }] }, files)

/-- `POST /api/files/upload` after the upload middleware.  The texts produced by
the helpers `extractTextFromFile` and `generateFallbackAnalysis` enter as
`textContent` (an error when the file cannot be read) and `fallbackAnalysis`;
`analysisId` is the generated identifier. -/
def upload (user : Option String) (faults : DbFaults) (provider : Provider)
    (textContent : Except String String) (fallbackAnalysis : String) (analysisId : String)
    (now : Nat) (db : Db) (files : FileStore) (file : Option UploadedFile) :
    Db × FileStore × Response UploadBody :=
  match file with
  | none => (db, files, .error 400 "No file uploaded")
  | some file =>
    let failure : Response UploadBody := .error 500 "Failed to upload and analyze file"
    match textContent with
    | .error _ => (db, files, failure)
    | .ok textContent =>
      let recordWith (analysis : String) (isAIGenerated : Option Bool) : FileRecord :=
        { id := analysisId, fileName := file.originalname, fileSize := file.size
          mimeType := file.mimetype, uploadedAt := now, analysis := analysis
          textContent := substring0 textContent 5000, filePath := file.path
          isAIGenerated := isAIGenerated, userId := none }
      match provider (analysisPrompt textContent) with
      | .ok analysis =>
        let (db1, files1) := storeAnalysis user faults now db files (recordWith analysis none)
        (db1, files1, .ok
          { analysisId := analysisId, fileName := file.originalname, fileSize := file.size
            analysis := analysis, uploadedAt := now
            message := "File uploaded and analyzed successfully", isAIGenerated := none })
      | .error e =>
        if includes e "API_KEY" then
          (db, files, .error 401
            "Gemini API key is invalid or missing. Please check your configuration.")
        else if includes e "quota" || includes e "limit" || includes e "overloaded" then
          let (db1, files1) := storeAnalysis user faults now db files
            (recordWith fallbackAnalysis (some false))
          (db1, files1, .ok
            { analysisId := analysisId, fileName := file.originalname, fileSize := file.size
              analysis := fallbackAnalysis, uploadedAt := now
              message := "File uploaded successfully. AI analysis temporarily unavailable, basic analysis provided."
              isAIGenerated := some false })
        else (db, files, failure)

/-- What `GET /api/files/analysis/:analysisId` sends: a persistent row or an
in-memory record. -/
inductive AnalysisView
  | row (r : FileRow)
  | record (r : FileRecord)
  deriving DecidableEq, Repr

/-- The file name of the retrieved analysis. -/
def AnalysisView.fileName : AnalysisView → String
  | .row r => r.fileName
  | .record r => r.fileName

/-- The byte size of the retrieved analysis. -/
def AnalysisView.fileSize : AnalysisView → Nat
  | .row r => r.fileSize
  | .record r => r.fileSize

/-- The MIME type of the retrieved analysis (`fileType` on a row). -/
def AnalysisView.mimeType : AnalysisView → String
  | .row r => r.fileType
  | .record r => r.mimeType

/-- `GET /api/files/analysis/:analysisId`. -/
def getAnalysis (user : Option String) (faults : DbFaults) (db : Db) (files : FileStore)
    (analysisId : String) : Response AnalysisView :=
  if user.isSome ∧ (faults .fileAnalysisFindOne).isSome then
    .error 500 "Failed to retrieve analysis"
  else
    match user.bind (fun u => db.findFileAnalysis analysisId u) with
    | some r => .ok (.row r)
    | none =>
      match files.get analysisId with
      | some r => .ok (.record r)
      | none => .error 404 "Analysis not found"

/-- Body of the delete response. -/
structure DeleteBody where
  message : String
  analysisId : Option String
  deriving DecidableEq, Repr

/-- `DELETE /api/files/:analysisId`.  `disk` is the set of stored artifacts, by
path. -/
def deleteAnalysis (user : Option String) (faults : DbFaults) (db : Db) (files : FileStore)
    (disk : List String) (analysisId : String) :
    Db × FileStore × List String × Response DeleteBody :=
  let failure : Response DeleteBody := .error 500 "Failed to delete file"
  let fromMemory : Db × FileStore × List String × Response DeleteBody :=
    match files.get analysisId with
    | none => (db, files, disk, .error 404 "Analysis not found")
    | some analysis =>
      (db, files.delete analysisId, disk.filter (fun p => decide (p ≠ analysis.filePath)),
        .ok { message := "File and analysis deleted successfully"
              analysisId := some analysisId })
  match user with
  | none => fromMemory
  | some u =>
    match faults .fileAnalysisFindOne with
    | some _ => (db, files, disk, failure)
    | none =>
      match db.findFileAnalysis analysisId u with
      | none => fromMemory
      | some analysis =>
        let disk1 := disk.filter (fun p => decide (p ≠ analysis.filePath))
        match faults .fileAnalysisDestroy with
        | some _ => (db, files, disk1, failure)
        | none =>
          ({ db with
             fileAnalyses := List.filter (fun r => decide (r.id ≠ analysis.id)) db.fileAnalyses },
            files, disk1,
            .ok { message := "File and analysis deleted successfully", analysisId := none })

/-- One entry of the file history. -/
structure FileHistoryItem where
  id : String
  fileName : String
  fileSize : Nat
  mimeType : String
  uploadedAt : Nat
  analysisPreview : String
  deriving DecidableEq, Repr

/-- Body of the file history response. -/
structure FileHistoryBody where
  files : List FileHistoryItem
  totalFiles : Nat
  deriving DecidableEq, Repr

/-- The history entry of an in-memory record. -/
def recordItem (item : FileRecord) : FileHistoryItem :=
  { id := item.id, fileName := item.fileName, fileSize := item.fileSize
    mimeType := item.mimeType, uploadedAt := item.uploadedAt
    analysisPreview := substring0 item.analysis 200 ++ "..." }

/-- The history entry of a persistent row. -/
def rowItem (item : FileRow) : FileHistoryItem :=
  { id := item.id, fileName := item.fileName, fileSize := item.fileSize
    mimeType := item.fileType, uploadedAt := item.createdAt
    analysisPreview := if item.summary = "" then "No preview available" else item.summary }

/-- `GET /api/files/history`. -/
def fileHistory (user : Option String) (faults : DbFaults) (db : Db) (files : FileStore) :
    Response FileHistoryBody :=
  let history : List FileHistoryItem :=
    match user with
    | some u =>
      let fromDb : List FileHistoryItem :=
        match faults .fileAnalysisFindAll with
        | some _ => []
        | none =>
          (sortDesc (fun r => r.createdAt)
            (db.fileAnalyses.filter (fun r => decide (r.userId = u)))).map rowItem
      let inMemoryFiles : List FileHistoryItem :=
        (files.values.filter (fun item => decide (item.userId = some u))).map recordItem
      sortDesc (fun item => item.uploadedAt) (fromDb ++ inMemoryFiles)
    | none =>
      (sortDesc (fun item => item.uploadedAt)
        (files.values.filter (fun item =>
          decide (item.userId = none ∨ item.userId = some "")))).map recordItem
  .ok { files := history, totalFiles := history.length }

/-- The upload used in the examples. -/
def notesFile : UploadedFile :=
  { originalname := "notes.txt", size := 120, mimetype := "text/plain"
    path := "uploads/file-1.txt" }

/-! ### Conversation list -/

/-- One entry of the conversation list. -/
structure ConversationSummary where
  id : String
  title : List Nat
  personality : String
  messageCount : Nat
  lastMessageAt : Nat
  lastMessage : List Nat
  lastMessageRole : Option Role
  deriving DecidableEq, Repr

/-- `content?.substring(0, 100) + (content?.length > 100 ? '...' : '') || 'No messages yet'`
where `content` is the content of the last message, `none` when there is no
last message.  The sum binds tighter than `||`: without a message the left
operand is `undefined + ''`, the non-empty string `"undefined"`. -/
def lastMessagePreview (content : Option String) : List Nat :=
  match content with
  | none => utf16 "undefined"
  | some c =>
    let preview := (utf16 c).take 100 ++ (if (utf16 c).length > 100 then utf16 "..." else [])
    if preview = [] then utf16 "No messages yet" else preview

/-- The guest branch of the mapping in `GET /api/chat/conversations`. -/
def guestSummary (now : Nat) (convId : String) (messages : List ChatMessage) :
    ConversationSummary :=
  let lastMessage := messages.getLast?
  let userMessages := messages.filter (fun m => decide (m.role = Role.user))
  let firstUserMessage :=
    match userMessages.head? with
    | some m => if m.content = "" then "New conversation" else m.content
    | none => "New conversation"
  { id := convId
    title := titleOf firstUserMessage
    personality := "friendly"
    messageCount := messages.length
    lastMessageAt := (lastMessage.map (fun m => m.timestamp)).getD now
    lastMessage := lastMessagePreview (lastMessage.map (fun m => m.content))
    lastMessageRole := lastMessage.map (fun m => m.role) }

/-- The authenticated branch of the mapping: the row with its most recent message. -/
def rowSummary (db : Db) (conv : ConversationRow) : ConversationSummary :=
  let lastMessage := (db.messagesOf conv.id).getLast?
  { id := conv.id
    title := conv.title
    personality := conv.personality
    messageCount := conv.messageCount
    lastMessageAt := conv.lastMessageAt
    lastMessage := lastMessagePreview (lastMessage.map (fun m => m.content))
    lastMessageRole := lastMessage.map (fun m => m.role) }

/-- Body of the conversation list response. -/
structure ConversationsBody where
  conversations : List ConversationSummary
  total : Nat
  deriving DecidableEq, Repr

/-- `GET /api/chat/conversations` (`listConversations`). -/
def listConversations (user : Option String) (faults : DbFaults) (now : Nat) (db : Db)
    (guests : GuestStore) : Response ConversationsBody :=
  match user with
  | some u =>
    match faults .conversationFindAll with
    | some _ => .error 500 "Failed to retrieve conversations"
    | none =>
      let conversations :=
        (sortDesc (fun c => c.lastMessageAt)
          (db.conversations.filter (fun c => decide (c.userId = u)))).map (rowSummary db)
      .ok { conversations := conversations, total := conversations.length }
  | none =>
    let conversations := sortDesc (fun c => c.lastMessageAt)
      (guests.map (fun e => guestSummary now e.1 e.2))
    .ok { conversations := conversations, total := conversations.length }

/-- A persistent store holding the row of the analysis `a1` of `u1`. -/
def overlapDb : Db :=
  { emptyDb with fileAnalyses :=
      [{ id := "a1", userId := "u1", fileName := "notes.txt", fileSize := 120
         fileType := "text/plain", filePath := "uploads/file-1.txt", analysis := "Summary"
         summary := "Summary", extractedText := "Some notes", createdAt := 5 }] }

/-- An in-memory store holding one analysis tagged with the owner `u1`. -/
def taggedFiles : FileStore :=
  [("a1", { id := "a1", fileName := "notes.txt", fileSize := 120, mimeType := "text/plain"
            uploadedAt := 5, analysis := "Summary", textContent := "Some notes"
            filePath := "uploads/file-1.txt", isAIGenerated := none, userId := some "u1" })]

/-- A parser that reads every provider text as a one-question quiz. -/
def parseSample : String → Option QuizData :=
  fun _ => some { title := "Sample", topic := "General", difficulty := "easy"
                  questions := (uniformQuiz "q" 1).questions }

/-- The states of the persistent store and of the in-memory file map that the
routes can produce: the server starts with an empty map and a table without
file analyses; `upload` and `deleteAnalysis` are the only writers of either;
every other route leaves the table of file analyses and the map as they are. -/
inductive FilesReachable : Db → FileStore → Prop
  | start (db : Db) : db.fileAnalyses = [] → FilesReachable db []
  | upload (user : Option String) (faults : DbFaults) (provider : Provider)
      (textContent : Except String String) (fallbackAnalysis analysisId : String) (now : Nat)
      (db : Db) (files : FileStore) (file : Option UploadedFile) :
      FilesReachable db files →
      FilesReachable
        (StudyBuddy.upload user faults provider textContent fallbackAnalysis analysisId now
          db files file).1
        (StudyBuddy.upload user faults provider textContent fallbackAnalysis analysisId now
          db files file).2.1
  | delete (user : Option String) (faults : DbFaults) (db : Db) (files : FileStore)
      (disk : List String) (analysisId : String) :
      FilesReachable db files →
      FilesReachable (deleteAnalysis user faults db files disk analysisId).1
        (deleteAnalysis user faults db files disk analysisId).2.1
  | other (db db1 : Db) (files : FileStore) :
      FilesReachable db files → db1.fileAnalyses = db.fileAnalyses → FilesReachable db1 files

/-- Keys are pairwise distinct and every record is filed under its own id. -/
def FileStore.Coherent (files : FileStore) : Prop :=
  (files.map Prod.fst).Nodup ∧ ∀ e ∈ files, e.2.id = e.1

/-- The overload branch of the `catch` block of the generate route as it is
written, with the bindings `topic`, `difficulty`, `questionCount` and
`questionType` of the `try` block supplied as arguments: what the branch does
once these names are in scope.  The activity is created without `points`, so
the default `0` of the `StudyActivity` model is stored. -/
def overloadBranch (user : Option String) (faults : DbFaults) (random : RandomSource)
    (quizId : String) (now : Nat) (db : Db) (store : QuizStore)
    (topic difficulty questionType : String) (questionCount : Nat) :
    Db × QuizStore × Response GenerateBody :=
  let fallbackQuiz := generateFallbackQuiz random topic difficulty questionCount
  let quizMeta : Quiz :=
    { id := quizId, title := fallbackQuiz.title, topic := fallbackQuiz.topic
      difficulty := fallbackQuiz.difficulty, questionType := questionType
      totalQuestions := fallbackQuiz.questions.length, questions := fallbackQuiz.questions
      createdAt := now, isAIGenerated := some false }
  let inMemory : QuizStore :=
    { store with guestQuizzes := store.guestQuizzes.set quizId quizMeta }
  let degraded : Response GenerateBody :=
    .ok { quizId := quizId, quiz := quizMeta
          message := "AI service temporarily unavailable. Generated practice quiz (using fallback storage)."
          isAIGenerated := some false }
  let done : Response GenerateBody :=
    .ok { quizId := quizId, quiz := quizMeta
          message := "AI service temporarily unavailable. Generated practice quiz."
          isAIGenerated := some false }
  match user with
  | none => (db, inMemory, done)
  | some u =>
    match faults .quizCreate with
    | some _ => (db, inMemory, degraded)
    | none =>
      let db1 : Db := { db with quizzes := db.quizzes ++ [{ userId := u, quiz := quizMeta }] }
      match faults .studyActivityCreate with
      | some _ => (db1, inMemory, degraded)
      | none =>
        ({ db1 with activities := db1.activities ++
            [{ userId := u, activityType := "quiz_generated", points := JSNum.ofNat 0
               createdAt := now }] }, store, done)

/-! # Theorems -/

/-! ## Scoring -/

theorem mapQuestions_fst_length (answers : List JSVal) (qs : List Question) (index c : Nat) :
    (mapQuestions answers qs index c).1.length = qs.length := by
  induction qs generalizing index c with
  | nil => simp [mapQuestions]
  | cons q rest ih => simp [mapQuestions, ih]

theorem mapQuestions_fst_getElem? (answers : List JSVal) (qs : List Question) (index c i : Nat) :
    (mapQuestions answers qs index c).1[i]? =
      qs[i]?.map (fun q =>
        { questionIndex := index + i
          question := q.question
          userAnswer := answerAt answers (index + i)
          correctAnswer := q.correct
          isCorrect := strictEq (answerAt answers (index + i)) q.correct
          explanation := q.explanation }) := by
  induction qs generalizing index c i with
  | nil => simp [mapQuestions]
  | cons q rest ih =>
    cases i with
    | zero => simp [mapQuestions]
    | succ j =>
      simp only [mapQuestions, List.getElem?_cons_succ]
      rw [ih]
      have : index + 1 + j = index + (j + 1) := by omega
      simp [this]

theorem mapQuestions_snd (answers : List JSVal) (qs : List Question) (index c : Nat) :
    (mapQuestions answers qs index c).2 =
      c + (List.range qs.length).countP
        (fun j => match qs[j]? with
          | some q => strictEq (answerAt answers (index + j)) q.correct
          | none => false) := by
  induction qs generalizing index c with
  | nil => simp [mapQuestions]
  | cons q rest ih =>
    simp only [mapQuestions, List.length_cons]
    rw [ih, List.range_succ_eq_map, List.countP_cons, List.countP_map]
    have hfun : ((fun j => match (q :: rest)[j]? with
          | some q => strictEq (answerAt answers (index + j)) q.correct
          | none => false) ∘ Nat.succ) =
        (fun j => match rest[j]? with
          | some q => strictEq (answerAt answers (index + 1 + j)) q.correct
          | none => false) := by
      funext j
      have : index + 1 + j = index + (j + 1) := by omega
      simp [this]
    rw [hfun]
    by_cases h : strictEq (answerAt answers index) q.correct = true
    · simp [h]; omega
    · simp [h]

theorem calculateResults_correct (quizId : String) (quiz : Quiz) (answers : List JSVal)
    (timeSpent : Option Nat) (now : Nat) :
    (calculateResults quizId quiz answers timeSpent now).score.correct =
      (List.range quiz.questions.length).countP (correctAt quiz.questions answers) := by
  have h := mapQuestions_snd answers quiz.questions 0 0
  simp only [calculateResults]
  rw [h]
  simp only [Nat.zero_add]
  rfl

theorem calculateResults_total (quizId : String) (quiz : Quiz) (answers : List JSVal)
    (timeSpent : Option Nat) (now : Nat) :
    (calculateResults quizId quiz answers timeSpent now).score.total = quiz.questions.length := by
  simp [calculateResults]

theorem calculateResults_results (quizId : String) (quiz : Quiz) (answers : List JSVal)
    (timeSpent : Option Nat) (now : Nat) :
    (calculateResults quizId quiz answers timeSpent now).results =
      (mapQuestions answers quiz.questions 0 0).1 := by
  simp [calculateResults]

/-- When the quiz is found, submit answers `200` with the scored record, whatever
happens to the persistent writes. -/
theorem submit_response_of_located (user : Option String) (faults : DbFaults) (db : Db)
    (store : QuizStore) (quizId : String) (quiz : Quiz) (answers : List JSVal)
    (timeSpent : Option Nat) (resultId : String) (now : Nat)
    (hread : user.isSome → faults .quizFindOne = none)
    (hstored : locateQuiz user db store quizId = some quiz) :
    (submit user faults db store quizId answers timeSpent resultId now).2.2 =
      .ok { resultId := resultId
            result := calculateResults quizId quiz answers timeSpent now } := by
  unfold submit
  have h1 : ¬ (user.isSome = true ∧ (faults .quizFindOne).isSome = true) := by
    rintro ⟨hu, hf⟩
    rw [hread hu] at hf
    simp at hf
  rw [if_neg h1, hstored]
  cases user with
  | none => rfl
  | some u =>
    dsimp only
    cases faults .quizResultCreate with
    | some e => rfl
    | none =>
      dsimp only
      cases faults .studyActivityCreate <;> rfl

theorem correctAt_eq_false_of_le (questions : List Question) (answers : List JSVal) (i : Nat)
    (h : answers.length ≤ i) : correctAt questions answers i = false := by
  unfold correctAt
  cases questions[i]? with
  | none => rfl
  | some q =>
    have : answerAt answers i = JSVal.undefined := by
      simp [answerAt, List.getD, List.getElem?_eq_none h]
    simp [this, strictEq]

theorem countP_range_of_false_beyond (p : Nat → Bool) (k n : Nat) (hkn : k ≤ n)
    (h : ∀ i, k ≤ i → p i = false) :
    (List.range n).countP p = (List.range k).countP p := by
  induction n with
  | zero =>
    have : k = 0 := by omega
    simp [this]
  | succ m ih =>
    by_cases hk : k = m + 1
    · rw [hk]
    · have hkm : k ≤ m := by omega
      rw [List.range_succ, List.countP_append, ih hkm]
      simp [h m hkm]

/-- C1, the code at the failing input: a stored quiz of 40 questions submitted
with 23 right answers is scored `total = 40`, `correct = 23` and
`percentage = 57`, while `round(100 * 23 / 40) = round(57.5) = 58`: the double
`23 / 40` times `100` is `57.49999999999999`. -/
theorem submit_percentage_23_of_40 :
    ∃ body,
      (submit none noFaults emptyDb (storeWith (uniformQuiz "q40" 40)) "q40"
        (answersWith 23 17) none "r1" 0).2.2 = .ok body ∧
      body.result.score.total = 40 ∧
      body.result.score.correct = 23 ∧
      body.result.score.percentage = JSNum.ofNat 57 ∧
      roundHalfUp (100 * 23) 40 = 58 := by
  refine ⟨_, rfl, ?_⟩
  decide

/-- C2: when the quiz is found and the answers array is shorter than the
question list, submit returns a `200` result; every question index at or beyond
the end of the answers array is reported with `isCorrect = false`, and
`score.correct` counts only matching indices below the length of the answers
array. -/
theorem submit_short_answers_ok (user : Option String) (faults : DbFaults) (db : Db)
    (store : QuizStore) (quizId : String) (quiz : Quiz) (answers : List JSVal)
    (timeSpent : Option Nat) (resultId : String) (now : Nat)
    (hread : user.isSome → faults .quizFindOne = none)
    (hstored : locateQuiz user db store quizId = some quiz)
    (hshort : answers.length < quiz.questions.length) :
    ∃ body,
      (submit user faults db store quizId answers timeSpent resultId now).2.2 = .ok body ∧
      body.result.results.length = quiz.questions.length ∧
      (∀ i, answers.length ≤ i → i < quiz.questions.length →
        ∃ r, body.result.results[i]? = some r ∧ r.questionIndex = i ∧
          r.userAnswer = JSVal.undefined ∧ r.isCorrect = false) ∧
      body.result.score.correct =
        (List.range answers.length).countP (correctAt quiz.questions answers) := by
  refine ⟨_, submit_response_of_located user faults db store quizId quiz answers timeSpent
    resultId now hread hstored, ?_, ?_, ?_⟩
  · simp [calculateResults_results, mapQuestions_fst_length]
  · intro i hi hlt
    have hund : answerAt answers i = JSVal.undefined := by
      simp [answerAt, List.getD, List.getElem?_eq_none hi]
    simp only [calculateResults_results, mapQuestions_fst_getElem?, Nat.zero_add]
    rw [List.getElem?_eq_getElem hlt]
    simp [hund, strictEq]
  · rw [calculateResults_correct]
    exact countP_range_of_false_beyond _ _ _ (Nat.le_of_lt hshort)
      (fun i hi => correctAt_eq_false_of_le quiz.questions answers i hi)

/-- Witness for C2: a guest submits one answer to a stored three-question quiz. -/
theorem submit_short_answers_ok_witness :
    ∃ body,
      (submit none noFaults emptyDb (storeWith (uniformQuiz "q3" 3)) "q3"
        [JSVal.num 0] none "r1" 0).2.2 = .ok body ∧
      body.result.results.length = (uniformQuiz "q3" 3).questions.length ∧
      (∀ i, [JSVal.num 0].length ≤ i → i < (uniformQuiz "q3" 3).questions.length →
        ∃ r, body.result.results[i]? = some r ∧ r.questionIndex = i ∧
          r.userAnswer = JSVal.undefined ∧ r.isCorrect = false) ∧
      body.result.score.correct =
        (List.range [JSVal.num 0].length).countP
          (correctAt (uniformQuiz "q3" 3).questions [JSVal.num 0]) :=
  submit_short_answers_ok none noFaults emptyDb (storeWith (uniformQuiz "q3" 3)) "q3"
    (uniformQuiz "q3" 3) [JSVal.num 0] none "r1" 0 (by simp) (by decide) (by decide)

/-- C3, the code at the failing input: submitting to a stored quiz with an empty
question list yields `score.percentage = NaN` (`0 / 0`), which is not an integer
in `[0, 100]`. -/
theorem submit_empty_quiz_percentage_nan :
    ∃ body,
      (submit none noFaults emptyDb (storeWith (uniformQuiz "q0" 0)) "q0"
        [] none "r1" 0).2.2 = .ok body ∧
      body.result.score.total = 0 ∧
      body.result.score.percentage = JSNum.nan ∧
      ∀ k : Nat, body.result.score.percentage ≠ JSNum.ofNat k := by
  refine ⟨_, rfl, by decide, by decide, ?_⟩
  intro k h
  have hnan : ({ resultId := "r1"
                 result := calculateResults "q0" (uniformQuiz "q0" 0) [] none 0 } :
      SubmitBody).result.score.percentage = JSNum.nan := by decide
  rw [hnan] at h
  cases h

/-! ## Study streak -/

theorem streakLoop_pos (has : Nat → Bool) (k i s : Nat) (hi : 0 < i) (hs : 0 < s) :
    streakLoop has k i s = s + (List.range' i k).countP has := by
  induction k generalizing i s with
  | zero => simp [streakLoop]
  | succ k ih =>
    unfold streakLoop
    by_cases h : has i = true
    · have h2 : i = 0 ∨ s > 0 := Or.inr hs
      rw [if_pos h, if_pos h2, ih (i + 1) (s + 1) (by omega) (by omega)]
      simp [List.range'_succ, List.countP_cons, h]; omega
    · have h0 : ¬ i = 0 := by omega
      rw [if_neg h, if_neg h0, ih (i + 1) s (by omega) hs]
      simp [List.range'_succ, List.countP_cons, h]

theorem streakLoop_zero (has : Nat → Bool) (k : Nat) :
    streakLoop has (k + 1) 0 0 = if has 0 then (List.range' 0 (k + 1)).countP has else 0 := by
  unfold streakLoop
  by_cases h : has 0 = true
  · simp only [h, if_true, true_or]
    rw [streakLoop_pos has k 1 1 (by omega) (by omega)]
    simp [List.range'_succ, List.countP_cons, h]; omega
  · simp [h]

theorem countP_eq_runFrom (has : Nat → Bool) (k i : Nat)
    (hdown : ∀ a b, i ≤ a → a < b → b < i + k → has b = true → has a = true) :
    (List.range' i k).countP has = runFrom has k i := by
  induction k generalizing i with
  | zero => simp [runFrom]
  | succ k ih =>
    unfold runFrom
    by_cases h : has i = true
    · rw [if_pos h, ← ih (i + 1) (fun a b ha hab hb hB => hdown a b (by omega) hab (by omega) hB)]
      simp [List.range'_succ, List.countP_cons, h]
    · rw [if_neg h]
      rw [List.countP_eq_zero]
      intro j hj
      rw [List.mem_range'_1] at hj
      by_cases hji : j = i
      · rw [hji]; exact h
      · intro hj'
        exact h (hdown i j (le_refl i) (by omega) hj.2 hj')

/-- What the streak loop computes on every input: when today has an activity,
the number of days with activity among the 30 calendar days ending today, and
`0` otherwise. -/
theorem studyStreak_eq_count (zone : Zone) (studyActivities : List StudyActivity)
    (today : Nat) :
    studyStreak zone studyActivities today =
      if hasActivity zone studyActivities today 0 then
        (List.range' 0 30).countP (hasActivity zone studyActivities today)
      else 0 :=
  streakLoop_zero (hasActivity zone studyActivities today) 29

theorem toDateString_sub_days (zone : Zone) (today i : Nat)
    (hsame : zone ((today : Int) - (i : Int) * (msPerDay : Int)) = zone (today : Int)) :
    toDateString zone ((today : Int) - (i : Int) * (msPerDay : Int)) =
      toDateString zone (today : Int) - (i : Int) := by
  unfold toDateString
  rw [hsame]
  have h : (msPerDay : Int) ≠ 0 := by decide
  have e : (today : Int) - (i : Int) * (msPerDay : Int) + zone (today : Int) =
      ((today : Int) + zone (today : Int)) + (-(i : Int)) * (msPerDay : Int) := by ring
  rw [e, Int.add_mul_ediv_right _ _ h]
  ring

theorem hasActivity_eq_activeOn (zone : Zone) (studyActivities : List StudyActivity)
    (today i : Nat)
    (hsame : zone ((today : Int) - (i : Int) * (msPerDay : Int)) = zone (today : Int)) :
    hasActivity zone studyActivities today i =
      activeOn zone studyActivities (toDateString zone (today : Int) - (i : Int)) := by
  unfold hasActivity activeOn
  rw [toDateString_sub_days zone today i hsame]

theorem countP_congr_range' (f g : Nat → Bool) (i k : Nat)
    (h : ∀ j, i ≤ j → j < i + k → f j = g j) :
    (List.range' i k).countP f = (List.range' i k).countP g := by
  apply List.countP_congr
  intro j hj
  rw [List.mem_range'_1] at hj
  rw [h j hj.1 hj.2]

/-- C4 as stated fails: with an activity on each of the 31 days ending today the
number of consecutive active days counted backward from today is 31, and
`studyStreak` is 30. -/
theorem studyStreak_capped_at_30 :
    consecutiveDays utc (dailyActivities (40 * msPerDay + 5) 31) (40 * msPerDay + 5) 365 = 31 ∧
    studyStreak utc (dailyActivities (40 * msPerDay + 5) 31) (40 * msPerDay + 5) = 30 := by
  decide

/-- The loop does not stop at a gap after day 0: activities today and two days
ago, none yesterday, give `studyStreak = 2` although the run of consecutive
days is 1. -/
theorem studyStreak_counts_beyond_gap :
    studyStreak utc [activityAt (40 * msPerDay), activityAt (38 * msPerDay)]
      (40 * msPerDay + 5) = 2 ∧
    consecutiveDays utc [activityAt (40 * msPerDay), activityAt (38 * msPerDay)]
      (40 * msPerDay + 5) 365 = 1 := by
  decide

/-- The loop steps back by 24 hours, not by calendar days: in New York at 23:30
on 1 November 2026, the day the clocks go back, the instant 24 hours earlier is
00:30 of the same day, so a single activity of today is counted twice and
`studyStreak` is 2 although only one day has an activity. -/
theorem studyStreak_counts_long_day_twice :
    toDateString newYorkAutumn2026 ((20759 * msPerDay + 16200000 : Nat) : Int) = 20758 ∧
    toDateString newYorkAutumn2026
      (((20759 * msPerDay + 16200000 : Nat) : Int) - ((1 : Nat) : Int) * (msPerDay : Int)) =
        20758 ∧
    studyStreak newYorkAutumn2026 [activityAt (20759 * msPerDay)]
      (20759 * msPerDay + 16200000) = 2 ∧
    consecutiveDays newYorkAutumn2026 [activityAt (20759 * msPerDay)]
      (20759 * msPerDay + 16200000) 365 = 1 := by
  decide

/-- C4 amended: when the offset of the host zone is the same at the 30 instants
`today - i * 24h` and, among the 30 calendar days ending today, no day with an
activity lies beyond a day without one (or today has no activity at all),
`studyStreak` is the number of consecutive calendar days with activity counted
backward from today, looking back 30 days at most; it is 0 whenever today has
no activity. -/
theorem studyStreak_eq_consecutiveDays (zone : Zone) (studyActivities : List StudyActivity)
    (today : Nat)
    (hsame : ∀ i : Nat, i < 30 →
      zone ((today : Int) - (i : Int) * (msPerDay : Int)) = zone (today : Int))
    (hgap : ∀ j : Nat, j < 30 → ∀ i : Nat, i < j →
      activeOn zone studyActivities (toDateString zone (today : Int)) = true →
      activeOn zone studyActivities (toDateString zone (today : Int) - (j : Int)) = true →
      activeOn zone studyActivities (toDateString zone (today : Int) - (i : Int)) = true) :
    studyStreak zone studyActivities today =
        consecutiveDays zone studyActivities today 30 ∧
      (activeOn zone studyActivities (toDateString zone (today : Int)) = false →
        studyStreak zone studyActivities today = 0) := by
  have h00 : hasActivity zone studyActivities today 0 =
      activeOn zone studyActivities (toDateString zone (today : Int)) := by
    unfold hasActivity activeOn
    simp
  have hcount : (List.range' 0 30).countP (hasActivity zone studyActivities today) =
      (List.range' 0 30).countP
        (fun i : Nat =>
          activeOn zone studyActivities (toDateString zone (today : Int) - (i : Int))) :=
    countP_congr_range' _ _ 0 30 (fun j _ hj =>
      hasActivity_eq_activeOn zone studyActivities today j (hsame j (by omega)))
  rw [studyStreak_eq_count, h00, hcount]
  by_cases h0 : activeOn zone studyActivities (toDateString zone (today : Int)) = true
  · rw [if_pos h0]
    refine ⟨?_, fun hf => by rw [h0] at hf; cases hf⟩
    exact countP_eq_runFrom _ 30 0 (fun a b _ hab hb hB =>
      hgap b (by omega) a hab h0 hB)
  · rw [if_neg h0]
    refine ⟨?_, fun _ => rfl⟩
    unfold consecutiveDays
    rw [runFrom]
    push_cast
    rw [sub_zero, if_neg h0]

/-- Witness for C4 amended: activities today, yesterday and the day before. -/
theorem studyStreak_eq_consecutiveDays_witness :
    studyStreak utc (dailyActivities (40 * msPerDay + 5) 3) (40 * msPerDay + 5) =
        consecutiveDays utc (dailyActivities (40 * msPerDay + 5) 3) (40 * msPerDay + 5) 30 ∧
      (activeOn utc (dailyActivities (40 * msPerDay + 5) 3)
          (toDateString utc ((40 * msPerDay + 5 : Nat) : Int)) = false →
        studyStreak utc (dailyActivities (40 * msPerDay + 5) 3) (40 * msPerDay + 5) = 0) :=
  studyStreak_eq_consecutiveDays utc (dailyActivities (40 * msPerDay + 5) 3) (40 * msPerDay + 5)
    (fun _ _ => rfl) (by decide)

/-! ## Binary64 rounding -/

theorem log2Floor_go_spec (f k : Nat) (hk : 0 < k) (hf : k ≤ f) :
    2 ^ log2Floor.go f k ≤ k ∧ k < 2 ^ (log2Floor.go f k + 1) := by
  induction f generalizing k with
  | zero => omega
  | succ f ih =>
    unfold log2Floor.go
    by_cases h : k < 2
    · rw [if_pos h]
      constructor
      · simpa using hk
      · simpa using h
    · rw [if_neg h]
      have h1 := ih (k / 2) (by omega) (by omega)
      rw [pow_succ, pow_succ]
      constructor <;> omega

theorem log2Floor_le (n : Nat) (hn : 0 < n) : 2 ^ log2Floor n ≤ n :=
  (log2Floor_go_spec n n hn (le_refl n)).1

theorem log2Floor_lt (n : Nat) (hn : 0 < n) : n < 2 ^ (log2Floor n + 1) :=
  (log2Floor_go_spec n n hn (le_refl n)).2

theorem log2Floor_lt_of_lt_pow (n e : Nat) (hn : 0 < n) (h : n < 2 ^ e) : log2Floor n < e := by
  have h1 := log2Floor_le n hn
  have h2 : 2 ^ log2Floor n < 2 ^ e := lt_of_le_of_lt h1 h
  exact (Nat.pow_lt_pow_iff_right (by norm_num)).mp h2

/-- After scaling, the quotient is at least `2 ^ 52`. -/
theorem scale_lower (p q : Nat) (hp : 0 < p) (hq : 0 < q) :
    2 ^ 52 * (q * 2 ^ scaleDown p q) ≤ p * 2 ^ scaleUp p q := by
  unfold scaleUp
  simp only
  by_cases hlt : p * 2 ^ (log2Floor q + 52 - log2Floor p) < 2 ^ 52 * (q * 2 ^ scaleDown p q)
  · rw [if_pos hlt]
    have hp1 := log2Floor_le p hp
    have hq2 := log2Floor_lt q hq
    unfold scaleDown
    by_cases hc : log2Floor q + 52 ≤ log2Floor p
    · -- numerator not scaled
      have e1 : log2Floor q + 52 - log2Floor p = 0 := by omega
      rw [e1]
      have : 2 ^ 52 * (q * 2 ^ (log2Floor p - (log2Floor q + 52))) ≤
          2 ^ 52 * (2 ^ (log2Floor q + 1) * 2 ^ (log2Floor p - (log2Floor q + 52))) := by
        apply Nat.mul_le_mul_left
        apply Nat.mul_le_mul_right
        exact le_of_lt hq2
      have e2 : 2 ^ 52 * (2 ^ (log2Floor q + 1) * 2 ^ (log2Floor p - (log2Floor q + 52))) =
          2 ^ (log2Floor p + 1) := by
        rw [← pow_add, ← pow_add]
        congr 1
        omega
      rw [e2] at this
      calc 2 ^ 52 * (q * 2 ^ (log2Floor p - (log2Floor q + 52))) ≤ 2 ^ (log2Floor p + 1) := this
        _ = 2 ^ log2Floor p * 2 ^ (0 + 1) := by rw [← pow_add]
        _ ≤ p * 2 ^ (0 + 1) := Nat.mul_le_mul_right _ hp1
    · have e1 : log2Floor p - (log2Floor q + 52) = 0 := by omega
      rw [e1]
      have : 2 ^ 52 * (q * 2 ^ 0) ≤ 2 ^ 52 * (2 ^ (log2Floor q + 1) * 2 ^ 0) := by
        apply Nat.mul_le_mul_left
        apply Nat.mul_le_mul_right
        exact le_of_lt hq2
      have e2 : 2 ^ 52 * (2 ^ (log2Floor q + 1) * 2 ^ 0) =
          2 ^ log2Floor p * 2 ^ (log2Floor q + 52 - log2Floor p + 1) := by
        rw [← pow_add, ← pow_add, ← pow_add]
        congr 1
        omega
      rw [e2] at this
      exact le_trans this (Nat.mul_le_mul_right _ hp1)
  · rw [if_neg hlt]
    exact Nat.le_of_not_lt hlt

theorem roundQuotient_near (N D : Nat) (hD : 0 < D) :
    2 * (roundQuotient N D * D) ≤ 2 * N + D ∧ 2 * N ≤ 2 * (roundQuotient N D * D) + D := by
  have hdm : D * (N / D) + N % D = N := Nat.div_add_mod N D
  have hr : N % D < D := Nat.mod_lt N hD
  unfold roundQuotient
  simp only
  generalize N / D = m0 at *
  generalize N % D = r at *
  have e1 : (m0 + 1) * D = m0 * D + D := by ring
  have e2 : D * m0 = m0 * D := by ring
  split_ifs <;> (first | (rw [e1]; constructor <;> omega) | (constructor <;> omega))


theorem mathRound_fin_div_gcd (X A g k : Nat) (hg : 0 < g) (hX : g ∣ X) (hA : g ∣ A)
    (hlo : k * (2 * A) ≤ 2 * X + A) (hhi : 2 * X + A < (k + 1) * (2 * A)) :
    mathRound (.fin (X / g) (A / g)) = .fin k 1 := by
  obtain ⟨x, rfl⟩ := hX
  obtain ⟨y, rfl⟩ := hA
  simp only [mathRound, Nat.mul_div_cancel_left _ hg]
  congr 1
  apply Nat.div_eq_of_lt_le
  · have : g * (k * (2 * y)) ≤ g * (2 * x + y) := by
      calc g * (k * (2 * y)) = k * (2 * (g * y)) := by ring
        _ ≤ 2 * (g * x) + g * y := hlo
        _ = g * (2 * x + y) := by ring
    exact Nat.le_of_mul_le_mul_left this hg
  · have : g * (2 * x + y) < g * ((k + 1) * (2 * y)) := by
      calc g * (2 * x + y) = 2 * (g * x) + g * y := by ring
        _ < (k + 1) * (2 * (g * y)) := hhi
        _ = g * ((k + 1) * (2 * y)) := by ring
    exact Nat.lt_of_mul_lt_mul_left this

/-- `Math.round` of the double nearest to `s / n` is the exact quotient rounded
half up, as long as `s < 2 ^ 52`. -/
theorem mathRound_roundToDouble (s n : Nat) (hs : s < 2 ^ 52) (hn : 0 < n) :
    mathRound (roundToDouble s n) = .fin (roundHalfUp s n) 1 := by
  unfold roundToDouble
  by_cases h0 : s = 0
  · subst h0
    simp only [if_true, mathRound, roundHalfUp]
    congr 1
    rw [Nat.div_eq_of_lt (by omega), Nat.div_eq_of_lt (by omega)]
  rw [if_neg h0]
  simp only
  have hs0 : 0 < s := Nat.pos_of_ne_zero h0
  have h1 := scale_lower s n hs0 hn
  have hnear := roundQuotient_near (s * 2 ^ scaleUp s n) (n * 2 ^ scaleDown s n)
    (Nat.mul_pos hn (pow_pos (by norm_num) _))
  generalize roundQuotient (s * 2 ^ scaleUp s n) (n * 2 ^ scaleDown s n) = m at hnear ⊢
  generalize scaleUp s n = a at h1 hnear ⊢
  generalize scaleDown s n = b at h1 hnear ⊢
  have hA : 0 < 2 ^ a := pow_pos (by norm_num) _
  have hB : 0 < 2 ^ b := pow_pos (by norm_num) _
  -- the scaled denominator is below the numerator scale
  have h2 : n * 2 ^ b < 2 ^ a := by
    have : 2 ^ 52 * (n * 2 ^ b) < 2 ^ 52 * 2 ^ a :=
      lt_of_le_of_lt h1 (Nat.mul_lt_mul_of_pos_right hs hA)
    exact Nat.lt_of_mul_lt_mul_left this
  have hba : b < a := by
    have : 2 ^ b < 2 ^ a := by
      calc 2 ^ b = 1 * 2 ^ b := (Nat.one_mul _).symm
        _ ≤ n * 2 ^ b := Nat.mul_le_mul_right _ hn
        _ < 2 ^ a := h2
    exact (Nat.pow_lt_pow_iff_right (by norm_num)).mp this
  obtain ⟨e, rfl⟩ : ∃ e, a = b + 1 + e := ⟨a - b - 1, by omega⟩
  have hAe : 2 ^ (b + 1 + e) = 2 * 2 ^ b * 2 ^ e := by
    rw [pow_add, pow_succ]; ring
  rw [hAe] at h1 h2 hnear ⊢
  have hE : 0 < 2 ^ e := pow_pos (by norm_num) _
  generalize 2 ^ b = B at *
  generalize 2 ^ e = E at *
  have hk1 : roundHalfUp s n * (2 * n) ≤ 2 * s + n := Nat.div_mul_le_self _ _
  have hk2 : 2 * s + n < (roundHalfUp s n + 1) * (2 * n) := by
    have := Nat.lt_mul_div_succ (2 * s + n) (show 0 < 2 * n by omega)
    unfold roundHalfUp
    calc 2 * s + n < 2 * n * ((2 * s + n) / (2 * n) + 1) := this
      _ = ((2 * s + n) / (2 * n) + 1) * (2 * n) := by ring
  generalize roundHalfUp s n = k at *
  obtain ⟨hn1, hn2⟩ := hnear
  apply mathRound_fin_div_gcd
  · exact Nat.gcd_pos_of_pos_right _ (Nat.mul_pos (Nat.mul_pos (by norm_num) hB) hE)
  · exact Nat.gcd_dvd_left _ _
  · exact Nat.gcd_dvd_right _ _
  · -- lower bound: uses that the scale is even
    have hnB : 0 < n * B := Nat.mul_pos hn hB
    have hx : n * B * (4 * (k * E)) ≤ n * B * (2 * m + 1 + 2 * E) := by
      have := Nat.mul_le_mul_right (2 * B * E) hk1
      nlinarith
    have hx' := Nat.le_of_mul_le_mul_left hx hnB
    have hx'' : 2 * (k * E) ≤ m + E := by omega
    nlinarith
  · by_contra hcon
    push_neg at hcon
    have := Nat.mul_le_mul_left n hcon
    have hk3 : (2 * s + n + 1) * (2 * B * E) ≤ (k + 1) * (2 * n) * (2 * B * E) :=
      Nat.mul_le_mul_right _ hk2
    nlinarith

theorem roundQuotient_one (N : Nat) : roundQuotient N 1 = N := by
  simp [roundQuotient, Nat.mod_one]

/-- Integers below `2 ^ 53` are binary64 values. -/
theorem roundToDouble_nat (p : Nat) (hp : p < 2 ^ 53) : roundToDouble p 1 = .fin p 1 := by
  unfold roundToDouble
  by_cases h0 : p = 0
  · simp [h0]
  rw [if_neg h0]
  have hlog : log2Floor p < 53 := log2Floor_lt_of_lt_pow p 53 (Nat.pos_of_ne_zero h0) hp
  have h1 : log2Floor 1 = 0 := by decide
  have hb : scaleDown p 1 = 0 := by
    unfold scaleDown
    rw [h1]
    omega
  simp only [hb, pow_zero, Nat.mul_one, roundQuotient_one]
  have hpos : 0 < 2 ^ scaleUp p 1 := pow_pos (by norm_num) _
  rw [Nat.gcd_mul_left_left, Nat.mul_div_cancel _ hpos, Nat.div_self hpos]

theorem jsAdd_ofNat (a c : Nat) (h : a + c < 2 ^ 53) :
    jsAdd (JSNum.ofNat a) (JSNum.ofNat c) = JSNum.ofNat (a + c) := by
  simp only [JSNum.ofNat, jsAdd, Nat.mul_one]
  exact roundToDouble_nat (a + c) h

theorem foldl_jsAdd_ofNat (scores : List Nat) (acc : Nat)
    (h : acc + scores.sum < 2 ^ 53) :
    scores.foldl (fun sum s => jsAdd sum (JSNum.ofNat s)) (JSNum.ofNat acc) =
      JSNum.ofNat (acc + scores.sum) := by
  induction scores generalizing acc with
  | nil => simp
  | cons s rest ih =>
    simp only [List.foldl_cons, List.sum_cons] at h ⊢
    rw [jsAdd_ofNat acc s (by omega), ih (acc + s) (by omega)]
    congr 1
    omega

/-! ## Quiz history -/

theorem sum_le_of_forall_le (scores : List Nat) (bound : Nat) (h : ∀ s ∈ scores, s ≤ bound) :
    scores.sum ≤ bound * scores.length := by
  induction scores with
  | nil => simp
  | cons s rest ih =>
    have h1 := h s (List.mem_cons_self _ _)
    have h2 := ih (fun x hx => h x (List.mem_cons_of_mem _ hx))
    simp only [List.sum_cons, List.length_cons]
    rw [Nat.mul_succ]
    omega

/-- The average of the history route on integer scores: the exact mean rounded
to the nearest integer, halves up. -/
theorem averageScore_eq_roundHalfUp (allResults : List StoredResult) (scores : List Nat)
    (hscores : allResults.map scoreValue = scores.map JSNum.ofNat)
    (hbound : ∀ s ∈ scores, s ≤ 100) (hlen : scores.length < 2 ^ 32) :
    averageScore allResults = JSNum.ofNat (roundHalfUp scores.sum scores.length) := by
  have hlength : allResults.length = scores.length := by
    have := congrArg List.length hscores
    simpa using this
  have hsum : scores.sum < 2 ^ 52 := by
    have := sum_le_of_forall_le scores 100 hbound
    have h2 : 100 * scores.length < 100 * 2 ^ 32 := by omega
    have h3 : 100 * 2 ^ 32 < 2 ^ 52 := by norm_num
    omega
  unfold averageScore
  by_cases hpos : allResults.length > 0
  · rw [if_pos hpos]
    have hfold : allResults.foldl (fun sum result => jsAdd sum (scoreValue result))
        (JSNum.ofNat 0) =
        (allResults.map scoreValue).foldl (fun sum x => jsAdd sum x) (JSNum.ofNat 0) := by
      rw [List.foldl_map]
    rw [hfold, hscores, List.foldl_map,
      foldl_jsAdd_ofNat scores 0 (by have : (2:Nat) ^ 52 < 2 ^ 53 := by norm_num
                                     omega)]
    simp only [Nat.zero_add, hlength]
    have hne : scores.length ≠ 0 := by omega
    simp only [JSNum.ofNat, jsDiv, hne, if_false, Nat.mul_one, Nat.one_mul]
    exact mathRound_roundToDouble scores.sum scores.length hsum (by omega)
  · rw [if_neg hpos]
    have h0 : scores.length = 0 := by omega
    have hnil : scores = [] := List.length_eq_zero.mp h0
    subst hnil
    simp [roundHalfUp]

/-- C5 as stated fails: with two guest results of 100 % and 67 % the history
route reports `averageScore = 84`, while the arithmetic mean is `167 / 2`. -/
theorem history_averageScore_not_mean :
    (historyResults none noFaults emptyDb twoResultsStore).map scoreValue =
      [JSNum.ofNat 67, JSNum.ofNat 100] ∧
    (∃ body, history none noFaults emptyDb twoResultsStore = .ok body ∧
      body.totalQuizzes = 2 ∧ body.averageScore = JSNum.ofNat 84) ∧
    ((67 : ℚ) + 100) / 2 ≠ 84 := by
  refine ⟨by decide, ⟨_, rfl, by decide, by decide⟩, by norm_num⟩

/-- C5 amended: when the percentage scores of the results are integers between 0
and 100 (and there are fewer than `2 ^ 32` results, as in every JavaScript
array), `averageScore` is the arithmetic mean of the scores rounded to the
nearest integer, halves up, and is 0 when there are no results; `totalQuizzes`
is the number of results returned. -/
theorem history_averageScore_rounded_mean (user : Option String) (faults : DbFaults) (db : Db)
    (store : QuizStore) (scores : List Nat)
    (hscores : (historyResults user faults db store).map scoreValue = scores.map JSNum.ofNat)
    (hbound : ∀ s ∈ scores, s ≤ 100) (hlen : scores.length < 2 ^ 32) :
    ∃ body, history user faults db store = .ok body ∧
      body.results = historyResults user faults db store ∧
      body.totalQuizzes = body.results.length ∧
      body.averageScore = JSNum.ofNat (roundHalfUp scores.sum scores.length) ∧
      (scores = [] → body.averageScore = JSNum.ofNat 0) := by
  refine ⟨_, rfl, rfl, rfl, ?_, ?_⟩
  · exact averageScore_eq_roundHalfUp _ scores hscores hbound hlen
  · intro hnil
    have := averageScore_eq_roundHalfUp _ scores hscores hbound hlen
    subst hnil
    simpa [roundHalfUp] using this

/-- Witness for C5 amended: the store with the two results of 67 % and 100 %. -/
theorem history_averageScore_rounded_mean_witness :
    ∃ body, history none noFaults emptyDb twoResultsStore = .ok body ∧
      body.results = historyResults none noFaults emptyDb twoResultsStore ∧
      body.totalQuizzes = body.results.length ∧
      body.averageScore = JSNum.ofNat (roundHalfUp [67, 100].sum [67, 100].length) ∧
      (([67, 100] : List Nat) = [] → body.averageScore = JSNum.ofNat 0) :=
  history_averageScore_rounded_mean none noFaults emptyDb twoResultsStore [67, 100]
    (by decide) (by decide) (by decide)

/-! ## Guest store -/

theorem JSMap.get_set_self {β : Type} (m : JSMap β) (key : String) (value : β) :
    (m.set key value).get key = some value := by
  induction m with
  | nil => simp [JSMap.set, JSMap.get]
  | cons e rest ih =>
    obtain ⟨k, v⟩ := e
    by_cases h : k = key
    · simp [JSMap.set, JSMap.get, h]
    · simp [JSMap.set, JSMap.get, h, ih]

theorem JSMap.get_set_other {β : Type} (m : JSMap β) (key other : String) (value : β)
    (h : other ≠ key) : (m.set key value).get other = m.get other := by
  induction m with
  | nil => simp [JSMap.set, JSMap.get, Ne.symm h]
  | cons e rest ih =>
    obtain ⟨k, v⟩ := e
    by_cases hk : k = key
    · subst hk
      simp [JSMap.set, JSMap.get, Ne.symm h]
    · by_cases ho : k = other
      · subst ho
        simp [JSMap.set, JSMap.get, hk]
      · simp [JSMap.set, JSMap.get, hk, ho, ih]

theorem JSMap.get_delete_self {β : Type} (m : JSMap β) (key : String) :
    (m.delete key).get key = none := by
  induction m with
  | nil => simp [JSMap.delete, JSMap.get]
  | cons e rest ih =>
    obtain ⟨k, v⟩ := e
    by_cases h : k = key
    · simp [JSMap.delete, h, ih]
    · simp [JSMap.delete, h, JSMap.get, ih]

theorem JSMap.get_delete_other {β : Type} (m : JSMap β) (key other : String)
    (h : other ≠ key) : (m.delete key).get other = m.get other := by
  induction m with
  | nil => simp [JSMap.delete, JSMap.get]
  | cons e rest ih =>
    obtain ⟨k, v⟩ := e
    by_cases hk : k = key
    · subst hk
      simp [JSMap.delete, JSMap.get, Ne.symm h, ih]
    · by_cases ho : k = other
      · subst ho
        simp [JSMap.delete, hk, JSMap.get]
      · simp [JSMap.delete, hk, JSMap.get, ho, ih]

theorem JSMap.delete_delete {β : Type} (m : JSMap β) (key : String) :
    (m.delete key).delete key = m.delete key := by
  induction m with
  | nil => simp [JSMap.delete]
  | cons e rest ih =>
    obtain ⟨k, v⟩ := e
    by_cases hk : k = key
    · simp [JSMap.delete, hk, ih]
    · simp [JSMap.delete, hk, ih]

theorem sliceLast_of_length_le {α : Type} (n : Nat) (l : List α) (h : l.length ≤ n) :
    sliceLast n l = l := by
  simp [sliceLast, Nat.sub_eq_zero_of_le h]

theorem length_sliceLast_le {α : Type} (n : Nat) (l : List α) :
    (sliceLast n l).length ≤ n := by
  simp [sliceLast]
  omega

/-- C10: clearing a guest conversation always succeeds; clearing twice leaves
the same store as clearing once; afterwards the history of that conversation is
empty with `messageCount = 0`; every other conversation keeps its messages. -/
theorem clearHistory_guest_idempotent (faults : DbFaults) (db : Db) (guests : GuestStore)
    (conversationId : String) :
    (clearHistory none faults db guests conversationId).2.2 =
        .ok { message := "Conversation history cleared", conversationId := conversationId } ∧
      (clearHistory none faults db
          (clearHistory none faults db guests conversationId).2.1 conversationId) =
        clearHistory none faults db guests conversationId ∧
      loadHistory none faults db (clearHistory none faults db guests conversationId).2.1
          conversationId =
        .ok { conversationId := conversationId, messages := [], messageCount := 0 } ∧
      ∀ other, other ≠ conversationId →
        (clearHistory none faults db guests conversationId).2.1.get other = guests.get other := by
  refine ⟨rfl, ?_, ?_, ?_⟩
  · simp [clearHistory, JSMap.delete_delete]
  · simp [clearHistory, loadHistory, JSMap.get_delete_self]
  · intro other h
    exact JSMap.get_delete_other guests conversationId other h

/-! ## Chat -/

theorem JSMap.set_set {β : Type} (m : JSMap β) (key : String) (v w : β) :
    (m.set key v).set key w = m.set key w := by
  induction m with
  | nil => simp [JSMap.set]
  | cons e rest ih =>
    obtain ⟨k, x⟩ := e
    by_cases hk : k = key
    · simp [JSMap.set, hk]
    · simp [JSMap.set, hk, ih]

theorem chatError_is_error (failure e : String) :
    ∃ status error, chatError failure e = .error status error ∧
      (status = 401 ∨ status = 429 ∨ status = 500) := by
  unfold chatError
  split_ifs
  · exact ⟨_, _, rfl, Or.inl rfl⟩
  · exact ⟨_, _, rfl, Or.inr (Or.inl rfl)⟩
  · exact ⟨_, _, rfl, Or.inr (Or.inr rfl)⟩

theorem openConversation_ok_faults (faults : DbFaults) (now : Nat) (db : Db)
    (userId conversationId personality text : String) (db1 : Db)
    (r : ConversationRow × String)
    (h : openConversation faults now db userId conversationId personality text = (db1, .ok r)) :
    faults .conversationFindOne = none ∧ faults .messageCreateUser = none ∧
      faults .messageFindAll = none := by
  rcases h1 : faults .conversationFindOne with _ | e1 <;>
  rcases h2 : faults .messageCreateUser with _ | e2 <;>
  rcases h3 : faults .messageFindAll with _ | e3 <;>
  simp only [openConversation, h1, h2, h3] at h <;>
  first
  | exact ⟨rfl, rfl, rfl⟩
  | (exfalso; revert h; simp; done)
  | (exfalso; revert h; split <;> simp)

theorem closeConversation_none_faults (faults : DbFaults) (now : Nat) (db : Db)
    (userId : String) (conversation : ConversationRow) (aiResponse activityType : String)
    (points : Nat) (db1 : Db)
    (h : closeConversation faults now db userId conversation aiResponse activityType points =
      (db1, none)) :
    faults .messageCreateAssistant = none ∧ faults .conversationUpdate = none ∧
      faults .studyActivityCreate = none := by
  unfold closeConversation at h
  split at h
  · simp at h
  · split at h
    · simp at h
    · split at h
      · simp at h
      · simp_all


theorem sendMessage_auth_cases (u : String) (faults : DbFaults) (provider : Provider)
    (now : Nat) (db : Db) (guests : GuestStore) (req : ChatRequest) (hmsg : req.message ≠ "") :
    (∃ status error,
        (sendMessage (some u) faults provider now db guests req).2.2 = .error status error ∧
        (status = 401 ∨ status = 429 ∨ status = 500)) ∨
      (∃ body, (sendMessage (some u) faults provider now db guests req).2.2 = .ok body ∧
        ∀ op ∈ chatOps, faults op = none) := by
  unfold sendMessage
  simp only [if_neg hmsg]
  rcases hopen : openConversation faults now db u req.conversationId
      (req.personality.getD "friendly") req.message with ⟨db1, r⟩
  rcases r with e | ⟨conversation, history⟩
  · left
    exact chatError_is_error _ e
  · simp only
    rcases hclose : closeConversation faults now db1 u conversation
        (aiResponseOrFallback provider
          (fullPrompt (lookupOrFriendly personalityPrompts (req.personality.getD "friendly"))
            req.context history req.message) (req.personality.getD "friendly"))
        "chat_message" 5 with ⟨db2, r2⟩
    rcases r2 with _ | e
    · right
      refine ⟨_, rfl, ?_⟩
      obtain ⟨h1, h2, h3⟩ := openConversation_ok_faults _ _ _ _ _ _ _ _ _ hopen
      obtain ⟨h4, h5, h6⟩ := closeConversation_none_faults _ _ _ _ _ _ _ _ _ hclose
      intro op hop
      simp only [chatOps, List.mem_cons, List.mem_singleton, List.not_mem_nil, or_false] at hop
      rcases hop with rfl | rfl | rfl | rfl | rfl | rfl <;> assumption
    · left
      exact chatError_is_error _ e

/-- C6, the code at the failing input: for an authenticated caller whose user
message cannot be stored, `sendMessage` answers `500 Failed to process message`,
although the provider answered; the submit route, whose result insert rejects
in the same way, answers `200`. -/
theorem sendMessage_persistence_failure_500 :
    (sendMessage (some "u1") (failAt .messageCreateUser "connection lost")
      (providerSays "Hi!") 5 emptyDb [] (helloRequest none)).2.2 =
      .error 500 "Failed to process message" ∧
    ∃ body, (submit (some "u1") (failAt .quizResultCreate "connection lost") emptyDb
      (storeWith (uniformQuiz "q3" 3)) "q3" (answersWith 2 1) none "r1" 0).2.2 = .ok body := by
  exact ⟨by decide, _, rfl⟩

/-- What the message route does with a rejecting persistent call: for an
authenticated `sendMessage` with a non-empty message, if one of the
persistent-store calls of the request rejects, the request returns an error
response with status 401, 429 or 500 and no assistant message; when no
persistent call rejects and the conversation exists or its identifier is free,
the request succeeds, whether or not the provider fails. -/
theorem sendMessage_persistence_failure_surfaces (u : String) (faults : DbFaults)
    (provider : Provider) (now : Nat) (db : Db) (guests : GuestStore) (req : ChatRequest)
    (hmsg : req.message ≠ "") :
    ((∃ op ∈ chatOps, (faults op).isSome) →
      ∃ status error,
        (sendMessage (some u) faults provider now db guests req).2.2 = .error status error ∧
        (status = 401 ∨ status = 429 ∨ status = 500)) ∧
    ((∀ op, faults op = none) →
      ((db.findConversation req.conversationId u).isSome ∨
        db.conversations.all (fun c => decide (c.id ≠ req.conversationId))) →
      ∃ body, (sendMessage (some u) faults provider now db guests req).2.2 = .ok body ∧
        ∃ prompt, body.message =
          aiResponseOrFallback provider prompt (req.personality.getD "friendly")) := by
  constructor
  · rintro ⟨op, hop, hfail⟩
    rcases sendMessage_auth_cases u faults provider now db guests req hmsg with h | ⟨_, _, hnone⟩
    · exact h
    · rw [hnone op hop] at hfail
      simp at hfail
  · intro hnone hfree
    have hcreate : ∀ row : ConversationRow, row.id = req.conversationId →
        db.findConversation req.conversationId u = none →
        db.createConversation row =
          .ok { db with conversations := db.conversations ++ [row] } := by
      intro row hrow hnf
      rcases hfree with hf | hf
      · rw [hnf] at hf
        simp at hf
      · unfold Db.createConversation
        rw [if_neg]
        rw [hrow]
        intro hany
        rw [List.any_eq_true] at hany
        obtain ⟨c, hc, hcid⟩ := hany
        have := (List.all_eq_true.mp hf) c hc
        simp at this hcid
        exact this hcid
    unfold sendMessage
    simp only [if_neg hmsg, openConversation, closeConversation, hnone]
    rcases hfind : db.findConversation req.conversationId u with _ | conversation
    · have hc := hcreate { id := req.conversationId, userId := u, title := titleOf req.message
                           personality := req.personality.getD "friendly", messageCount := 0
                           lastMessageAt := now } rfl hfind
      simp only [hc]
      exact ⟨_, rfl, _, rfl⟩
    · exact ⟨_, rfl, _, rfl⟩


/-- An instance of the preceding statement: the user message cannot be stored. -/
theorem sendMessage_persistence_failure_surfaces_witness :
    ∃ status error,
      (sendMessage (some "u1") (failAt .messageCreateUser "connection lost")
        (providerSays "Hi!") 5 emptyDb [] (helloRequest none)).2.2 = .error status error ∧
      (status = 401 ∨ status = 429 ∨ status = 500) :=
  (sendMessage_persistence_failure_surfaces "u1" (failAt .messageCreateUser "connection lost")
    (providerSays "Hi!") 5 emptyDb [] (helloRequest none) (by decide)).1
    ⟨.messageCreateUser, by decide, by decide⟩

theorem sendMessage_guest (faults : DbFaults) (provider : Provider) (now : Nat) (db : Db)
    (guests : GuestStore) (req : ChatRequest) (hmsg : req.message ≠ "") :
    sendMessage none faults provider now db guests req =
      (db,
        guests.set req.conversationId (sliceLast 50
          ((guests.get req.conversationId).getD [] ++
            [{ role := Role.user, content := req.message, timestamp := now },
             { role := Role.assistant, content := guestReply provider guests req
               timestamp := now }])),
        .ok { message := guestReply provider guests req
              conversationId := req.conversationId, timestamp := now }) := by
  unfold sendMessage
  simp only [if_neg hmsg, guestPushUser, guestPushAssistant, JSMap.get_set_self,
    JSMap.set_set, guestReply, List.map_append, List.map_cons, List.map_nil,
    List.append_assoc, List.singleton_append]

/-- C7, the code at the failing input: a guest sends `personality: "toString"`
while the provider is down.  `fallbackResponses["toString"]` is the inherited
`Object.prototype.toString`, which is truthy, so the returned (and stored) text
is the source text of that function followed by the note, not the `friendly`
fallback followed by the note. -/
theorem sendMessage_fallback_inherited_key :
    sendMessage none noFaults providerDown 7 emptyDb [] (helloRequest (some "toString")) =
      (emptyDb,
        [("c1", [{ role := Role.user, content := "Hello", timestamp := 7 },
                 { role := Role.assistant
                   content := "function toString() \x7b [native code] \x7d" ++ fallbackNote
                   timestamp := 7 }])],
        .ok { message := "function toString() \x7b [native code] \x7d" ++ fallbackNote
              conversationId := "c1", timestamp := 7 }) ∧
    "function toString() \x7b [native code] \x7d" ++ fallbackNote ≠
      (fallbackResponses.lookup "friendly").getD "" ++ fallbackNote := by
  decide

/-- For a personality that is not a property name of `Object.prototype`, a
guest request during a provider failure succeeds, returns the canned fallback
of that personality (the `friendly` one when it is not one of the six) followed
by the note, and appends the same text as the assistant message. -/
theorem sendMessage_guest_fallback (faults : DbFaults) (provider : Provider) (now : Nat)
    (db : Db) (guests : GuestStore) (req : ChatRequest) (hmsg : req.message ≠ "")
    (hdown : ∀ prompt, ∃ e, provider prompt = .error e)
    (hkey : req.personality.getD "friendly" ∉ objectPrototypeKeys) :
    sendMessage none faults provider now db guests req =
      (db,
        guests.set req.conversationId (sliceLast 50
          ((guests.get req.conversationId).getD [] ++
            [{ role := Role.user, content := req.message, timestamp := now },
             { role := Role.assistant
               content :=
                 ((fallbackResponses.lookup (req.personality.getD "friendly")).getD
                   ((fallbackResponses.lookup "friendly").getD "")) ++ fallbackNote
               timestamp := now }])),
        .ok { message :=
                ((fallbackResponses.lookup (req.personality.getD "friendly")).getD
                  ((fallbackResponses.lookup "friendly").getD "")) ++ fallbackNote
              conversationId := req.conversationId, timestamp := now }) := by
  have hreply : guestReply provider guests req =
      ((fallbackResponses.lookup (req.personality.getD "friendly")).getD
        ((fallbackResponses.lookup "friendly").getD "")) ++ fallbackNote := by
    unfold guestReply aiResponseOrFallback
    obtain ⟨e, he⟩ := hdown (fullPrompt
      (lookupOrFriendly personalityPrompts (req.personality.getD "friendly")) req.context
      (conversationHistory
        (((guests.get req.conversationId).getD []).map
            (fun m : ChatMessage => (m.role, m.content)) ++ [(Role.user, req.message)]))
      req.message)
    rw [he]
    simp only [lookupOrFriendly, lookupOwnOrInherited]
    cases hl : fallbackResponses.lookup (req.personality.getD "friendly") with
    | none => simp [hkey]
    | some text => simp
  rw [sendMessage_guest faults provider now db guests req hmsg, hreply]

theorem guestExchanges_history (cid : String) (exs : List Exchange) (guests : GuestStore)
    (hcid : ∀ e ∈ exs, e.req.conversationId = cid) (hmsg : ∀ e ∈ exs, e.req.message ≠ "")
    (hn : ((guests.get cid).getD []).length + 2 * exs.length ≤ 50) :
    (∀ r ∈ (guestExchanges guests exs).2, ∃ body, r = .ok body) ∧
      (guestExchanges guests exs).2.length = exs.length ∧
      ((guestExchanges guests exs).1.get cid).getD [] =
        (guests.get cid).getD [] ++
          (List.zipWith exchangeMessages exs (guestExchanges guests exs).2).flatten := by
  induction exs generalizing guests with
  | nil => simp [guestExchanges]
  | cons e rest ih =>
    have hc : e.req.conversationId = cid := hcid e (List.mem_cons_self _ _)
    have hm : e.req.message ≠ "" := hmsg e (List.mem_cons_self _ _)
    have hstep := sendMessage_guest noFaults e.provider e.now emptyDb guests e.req hm
    simp only [List.length_cons] at hn
    have hslice : sliceLast 50 ((guests.get cid).getD [] ++
        [{ role := Role.user, content := e.req.message, timestamp := e.now },
         { role := Role.assistant, content := guestReply e.provider guests e.req
           timestamp := e.now }]) = (guests.get cid).getD [] ++
        [{ role := Role.user, content := e.req.message, timestamp := e.now },
         { role := Role.assistant, content := guestReply e.provider guests e.req
           timestamp := e.now }] := by
      apply sliceLast_of_length_le
      simp
      omega
    rw [hc, hslice] at hstep
    have ih' := ih (guests.set cid ((guests.get cid).getD [] ++
        [{ role := Role.user, content := e.req.message, timestamp := e.now },
         { role := Role.assistant, content := guestReply e.provider guests e.req
           timestamp := e.now }]))
      (fun x hx => hcid x (List.mem_cons_of_mem _ hx))
      (fun x hx => hmsg x (List.mem_cons_of_mem _ hx))
      (by rw [JSMap.get_set_self]; simp; omega)
    obtain ⟨h1, h2, h3⟩ := ih'
    simp only [guestExchanges, hstep]
    refine ⟨?_, ?_, ?_⟩
    · intro r hr
      rcases List.mem_cons.mp hr with h | h
      · exact ⟨_, h⟩
      · exact h1 r h
    · simp [h2]
    · rw [h3, JSMap.get_set_self]
      simp [exchangeMessages, hc]


theorem length_flatten_exchangeMessages (exs : List Exchange) (rs : List (Response ChatBody))
    (hlen : rs.length = exs.length) (hok : ∀ r ∈ rs, ∃ body, r = .ok body) :
    (List.zipWith exchangeMessages exs rs).flatten.length = 2 * exs.length := by
  induction exs generalizing rs with
  | nil => simp
  | cons e rest ih =>
    cases rs with
    | nil => simp at hlen
    | cons r rs' =>
      obtain ⟨body, rfl⟩ := hok r (List.mem_cons_self _ _)
      have := ih rs' (by simpa using hlen) (fun x hx => hok x (List.mem_cons_of_mem _ hx))
      simp [exchangeMessages, this]
      omega

/-- C9: after `n ≤ 25` successive guest `sendMessage` exchanges (non-empty
messages, provider answering or failing) with a conversation id that was not in
the guest store, every exchange has returned a successful response and
`loadHistory` returns `2n` messages in creation order: for each exchange the
user message with the sent text, then the assistant message with the text
returned to the caller; `messageCount = 2n`.  For `n = 0` this is the empty list
with `messageCount = 0`, for `n = 1` one user and one assistant message. -/
theorem guest_history_after_exchanges (cid : String) (exs : List Exchange)
    (guests : GuestStore) (hnew : guests.get cid = none)
    (hcid : ∀ e ∈ exs, e.req.conversationId = cid) (hmsg : ∀ e ∈ exs, e.req.message ≠ "")
    (hn : exs.length ≤ 25) :
    (∀ r ∈ (guestExchanges guests exs).2, ∃ body, r = .ok body) ∧
      (guestExchanges guests exs).2.length = exs.length ∧
      loadHistory none noFaults emptyDb (guestExchanges guests exs).1 cid =
        .ok { conversationId := cid
              messages := (List.zipWith exchangeMessages exs (guestExchanges guests exs).2).flatten
              messageCount := 2 * exs.length } := by
  obtain ⟨h1, h2, h3⟩ := guestExchanges_history cid exs guests hcid hmsg
    (by rw [hnew]; simp; omega)
  refine ⟨h1, h2, ?_⟩
  rw [hnew] at h3
  simp only [Option.getD_none, List.nil_append] at h3
  simp only [loadHistory, h3, length_flatten_exchangeMessages exs _ h2 h1]

/-- Witness for C9: one exchange with a new conversation. -/
theorem guest_history_after_exchanges_witness :
    (∀ r ∈ (guestExchanges [] (helloExchanges 1)).2, ∃ body, r = .ok body) ∧
      (guestExchanges [] (helloExchanges 1)).2.length = (helloExchanges 1).length ∧
      loadHistory none noFaults emptyDb (guestExchanges [] (helloExchanges 1)).1 "c1" =
        .ok { conversationId := "c1"
              messages := (List.zipWith exchangeMessages (helloExchanges 1)
                (guestExchanges [] (helloExchanges 1)).2).flatten
              messageCount := 2 * (helloExchanges 1).length } :=
  guest_history_after_exchanges "c1" (helloExchanges 1) [] rfl
    (by simp [helloExchanges, helloRequest]) (by simp [helloExchanges, helloRequest])
    (by simp [helloExchanges])

/-- After a guest `sendMessage` the addressed conversation holds at most 50
messages. -/
theorem sendMessage_guest_cap (faults : DbFaults) (provider : Provider) (now : Nat) (db : Db)
    (guests : GuestStore) (req : ChatRequest) (hmsg : req.message ≠ "") :
    (((sendMessage none faults provider now db guests req).2.1.get req.conversationId).getD
      []).length ≤ 50 := by
  rw [sendMessage_guest faults provider now db guests req hmsg]
  simp only [JSMap.get_set_self, Option.getD_some]
  exact length_sliceLast_le 50 _

/-- C11, the code at the failing input: after 25 completed guest text exchanges
the conversation holds 50 messages; a guest voice request during a provider
failure then answers `500` and leaves 51 messages in the conversation, because
the voice route appends the user message before the provider call and has no
fallback and no trimming on that path. -/
theorem guest_voice_failure_exceeds_cap :
    (((guestExchanges [] (helloExchanges 25)).1.get "c1").getD []).length = 50 ∧
    (sendVoice none noFaults providerDown 9 emptyDb (guestExchanges [] (helloExchanges 25)).1
      voiceRequest).2.2 = .error 500 "Failed to process voice input" ∧
    (((sendVoice none noFaults providerDown 9 emptyDb (guestExchanges [] (helloExchanges 25)).1
      voiceRequest).2.1.get "c1").getD []).length = 51 := by
  decide

/-! ## Fallback quiz generator -/

theorem selectQuestionSet_cases (topic : String) :
    selectQuestionSet topic = fallbackQuestions.mathematics ∨
      selectQuestionSet topic = fallbackQuestions.science ∨
      selectQuestionSet topic = fallbackQuestions.general := by
  unfold selectQuestionSet
  simp only
  split_ifs <;> simp

theorem selectQuestionSet_length_pos (topic : String) :
    0 < (selectQuestionSet topic).length := by
  rcases selectQuestionSet_cases topic with h | h | h <;> rw [h] <;> decide

theorem mem_of_mem_eraseIdx {α : Type} (l : List α) (i : Nat) (x : α)
    (h : x ∈ l.eraseIdx i) : x ∈ l :=
  (List.eraseIdx_sublist l i).subset h

theorem pickLoop_spec (random : RandomSource) (questionCount : Nat) (bank : List Question)
    (fuel i k : Nat) (selected available : List Question)
    (hsel : ∀ q ∈ selected, q ∈ bank) (hav : ∀ q ∈ available, q ∈ bank)
    (hi : selected.length = i) (hle : selected.length ≤ questionCount) :
    (∀ q ∈ (pickLoop random questionCount fuel i k selected available).1, q ∈ bank) ∧
      (pickLoop random questionCount fuel i k selected available).1.length ≤ questionCount := by
  induction fuel generalizing i k selected available with
  | zero => exact ⟨hsel, hle⟩
  | succ fuel ih =>
    unfold pickLoop
    by_cases h : i < min questionCount available.length
    · rw [dif_pos h]
      apply ih
      · intro q hq
        rcases List.mem_append.mp hq with hq | hq
        · exact hsel q hq
        · rw [List.mem_singleton] at hq
          rw [hq]
          exact hav _ (List.get_mem _ _ _)
      · intro q hq
        exact hav q (mem_of_mem_eraseIdx _ _ _ hq)
      · simp [hi]
      · simp only [List.length_append, List.length_singleton]
        omega
    · rw [dif_neg h]
      exact ⟨hsel, hle⟩

theorem repeatLoop_spec (random : RandomSource) (questionCount : Nat) (bank : List Question)
    (hbank : 0 < bank.length) (fuel k : Nat) (selected : List Question)
    (hsel : ∀ q ∈ selected, q ∈ bank) (hle : selected.length ≤ questionCount)
    (hfuel : questionCount ≤ selected.length + fuel) :
    (∀ q ∈ repeatLoop random questionCount bank fuel k selected, q ∈ bank) ∧
      (repeatLoop random questionCount bank fuel k selected).length = questionCount := by
  induction fuel generalizing k selected with
  | zero =>
    unfold repeatLoop
    exact ⟨hsel, by omega⟩
  | succ fuel ih =>
    unfold repeatLoop
    by_cases h : selected.length < questionCount ∧ bank.length > 0
    · rw [dif_pos h]
      apply ih
      · intro q hq
        rcases List.mem_append.mp hq with hq | hq
        · exact hsel q hq
        · rw [List.mem_singleton] at hq
          rw [hq]
          exact List.get_mem _ _ _
      · simp only [List.length_append, List.length_singleton]
        omega
      · simp only [List.length_append, List.length_singleton]
        omega
    · rw [dif_neg h]
      refine ⟨hsel, ?_⟩
      have : ¬ selected.length < questionCount := fun hlt => h ⟨hlt, hbank⟩
      omega

/-- `generateFallbackQuiz` returns exactly `questionCount` questions, all of them
from the bank selected for the topic. -/
theorem generateFallbackQuiz_questions (random : RandomSource) (topic difficulty : String)
    (questionCount : Nat) :
    (generateFallbackQuiz random topic difficulty questionCount).questions.length =
        questionCount ∧
      ∀ q ∈ (generateFallbackQuiz random topic difficulty questionCount).questions,
        q ∈ selectQuestionSet topic := by
  unfold generateFallbackQuiz
  simp only
  have hp := pickLoop_spec random questionCount (selectQuestionSet topic)
    (selectQuestionSet topic).length 0 0 [] (selectQuestionSet topic)
    (by simp) (fun q hq => hq) rfl (by simp)
  have hr := repeatLoop_spec random questionCount (selectQuestionSet topic)
    (selectQuestionSet_length_pos topic) questionCount
    (pickLoop random questionCount (selectQuestionSet topic).length 0 0 []
      (selectQuestionSet topic)).2
    (pickLoop random questionCount (selectQuestionSet topic).length 0 0 []
      (selectQuestionSet topic)).1 hp.1 hp.2 (by omega)
  exact ⟨hr.2, hr.1⟩

/-- C8, the code at the failing input: for topic "Mathematics", difficulty
"easy" and `questionCount` 2 the fallback generator itself returns 2 questions of
the mathematics bank for every random source, but the overload branch of the
generate route never builds a quiz from it: the branch reads `topic`,
`difficulty`, `questionCount` and `questionType`, which are scoped to the `try`
block, and the handler ends with an uncaught `ReferenceError` (no response, no
stored quiz). -/
theorem generate_overload_throws :
    selectQuestionSet "Mathematics" = fallbackQuestions.mathematics ∧
    (∀ random,
      (generateFallbackQuiz random "Mathematics" "easy" 2).questions.length = 2 ∧
      ∀ q ∈ (generateFallbackQuiz random "Mathematics" "easy" 2).questions,
        q ∈ fallbackQuestions.mathematics) ∧
    (∀ user faults parse quizId now db store,
      generate user faults providerOverloaded parse quizId now db store mathematicsRequest =
        (db, store, .uncaught "ReferenceError: topic is not defined")) := by
  have hsel : selectQuestionSet "Mathematics" = fallbackQuestions.mathematics := by decide
  refine ⟨hsel, ?_, ?_⟩
  · intro random
    have := generateFallbackQuiz_questions random "Mathematics" "easy" 2
    rw [hsel] at this
    exact this
  · intro user faults parse quizId now db store
    have hc : generateCatch "The model is overloaded" =
        .uncaught "ReferenceError: topic is not defined" := by decide
    simp [generate, mathematicsRequest, providerOverloaded, hc]

/-! ## User statistics -/

theorem insertDesc_perm {α : Type} (key : α → Nat) (x : α) (l : List α) :
    (insertDesc key x l).Perm (x :: l) := by
  induction l with
  | nil => simp [insertDesc]
  | cons y ys ih =>
    unfold insertDesc
    split_ifs
    · exact List.Perm.refl _
    · exact (List.Perm.cons y ih).trans (List.Perm.swap x y ys)

theorem sortDesc_perm {α : Type} (key : α → Nat) (l : List α) : (sortDesc key l).Perm l := by
  induction l with
  | nil => simp [sortDesc]
  | cons x xs ih =>
    have : sortDesc key (x :: xs) = insertDesc key x (sortDesc key xs) := rfl
    rw [this]
    exact (insertDesc_perm key x _).trans (List.Perm.cons x ih)

theorem hasActivity_perm (zone : Zone) (l₁ l₂ : List StudyActivity) (today i : Nat)
    (h : l₁.Perm l₂) : hasActivity zone l₁ today i = hasActivity zone l₂ today i := by
  unfold hasActivity
  rw [Bool.eq_iff_iff, List.any_eq_true, List.any_eq_true]
  constructor
  · rintro ⟨a, ha, hp⟩
    exact ⟨a, h.mem_iff.mp ha, hp⟩
  · rintro ⟨a, ha, hp⟩
    exact ⟨a, h.mem_iff.mpr ha, hp⟩

theorem averageQuizScore_eq_averageScore (rows : List QuizResultRow) :
    averageQuizScore rows = averageScore (rows.map StoredResult.flat) := by
  unfold averageQuizScore averageScore
  simp only [List.length_map, List.foldl_map, scoreValue]

theorem mem_titles_recentAchievements (totalQuizzes : Nat) (average : JSNum)
    (streak totalFiles now : Nat) :
    ("Quiz Explorer" ∈ (recentAchievements totalQuizzes average streak totalFiles now).map
        (fun a => a.title) ↔ totalQuizzes ≥ 5) ∧
    ("High Achiever" ∈ (recentAchievements totalQuizzes average streak totalFiles now).map
        (fun a => a.title) ↔ jsGe average 80 = true) ∧
    ("Study Streak" ∈ (recentAchievements totalQuizzes average streak totalFiles now).map
        (fun a => a.title) ↔ streak ≥ 3) ∧
    ("File Analyzer" ∈ (recentAchievements totalQuizzes average streak totalFiles now).map
        (fun a => a.title) ↔ totalFiles ≥ 3) ∧
    ∀ t ∈ (recentAchievements totalQuizzes average streak totalFiles now).map
        (fun a => a.title),
      t ∈ ["Quiz Explorer", "High Achiever", "Study Streak", "File Analyzer"] := by
  unfold recentAchievements
  by_cases h1 : totalQuizzes ≥ 5 <;> by_cases h2 : jsGe average 80 = true <;>
    by_cases h3 : streak ≥ 3 <;> by_cases h4 : totalFiles ≥ 3 <;>
    simp [h1, h2, h3, h4]


theorem computeStats_ok (u : String) (faults : DbFaults) (db : Db) (files : FileStore)
    (zone : Zone) (now : Nat) (stats : Stats)
    (hok : computeStats (some u) faults db files zone now = .ok stats) :
    stats =
      { totalConversations := (db.conversations.filter (fun c => decide (c.userId = u))).length
        totalQuizzes := (db.quizResults.filter (fun row => decide (row.userId = u))).length
        totalFilesUploaded := countFiles faults db files u
        averageQuizScore :=
          averageQuizScore (db.quizResults.filter (fun row => decide (row.userId = u)))
        studyStreak := studyStreak zone (sortDesc (fun a => a.createdAt)
          (db.activities.filter (fun a => decide (a.userId = u)))) now
        totalStudyTime := (sortDesc (fun a => a.createdAt)
          (db.activities.filter (fun a => decide (a.userId = u)))).length * 15
        favoriteSubjects := ["Mathematics", "Physics", "Biology"]
        weeklyProgress := weeklyProgress zone (sortDesc (fun a => a.createdAt)
          (db.activities.filter (fun a => decide (a.userId = u)))) now
        recentAchievements := recentAchievements
          (db.quizResults.filter (fun row => decide (row.userId = u))).length
          (averageQuizScore (db.quizResults.filter (fun row => decide (row.userId = u))))
          (studyStreak zone (sortDesc (fun a => a.createdAt)
            (db.activities.filter (fun a => decide (a.userId = u)))) now)
          (countFiles faults db files u) now
        totalPoints := totalPoints (sortDesc (fun a => a.createdAt)
          (db.activities.filter (fun a => decide (a.userId = u))))
        isGuest := false } := by
  unfold computeStats at hok
  simp only at hok
  split_ifs at hok
  injection hok with h
  exact h.symm

/-- C14 as stated fails: with quiz results of 79 % and 80 % the mean is 79.5,
below 80, and the stats carry the badge `High Achiever`. -/
theorem computeStats_high_achiever_below_80 :
    (∃ stats, computeStats (some "u1") noFaults twoRowsDb [] utc (40 * msPerDay) = .ok stats ∧
      "High Achiever" ∈ stats.recentAchievements.map (fun a => a.title)) ∧
    ((79 : ℚ) + 80) / 2 < 80 := by
  refine ⟨⟨_, rfl, by decide⟩, by norm_num⟩

/-- C14 amended: for every authenticated stats computation over quiz results
with integer scores between 0 and 100, `recentAchievements` contains
`Quiz Explorer` exactly when the user has at least 5 quiz results,
`High Achiever` exactly when the mean of the scores rounded to the nearest
integer (halves up) is at least 80, `Study Streak` exactly when
`studyStreak >= 3`, `File Analyzer` exactly when the file count is at least 3,
and no other badge. -/
theorem computeStats_achievements (u : String) (faults : DbFaults) (db : Db)
    (files : FileStore) (zone : Zone) (now : Nat) (stats : Stats) (scores : List Nat)
    (hok : computeStats (some u) faults db files zone now = .ok stats)
    (hscores : (db.quizResults.filter (fun row => decide (row.userId = u))).map
      (fun row => row.score) = scores.map JSNum.ofNat)
    (hbound : ∀ s ∈ scores, s ≤ 100) (hlen : scores.length < 2 ^ 32) :
    ("Quiz Explorer" ∈ stats.recentAchievements.map (fun a => a.title) ↔ scores.length ≥ 5) ∧
    ("High Achiever" ∈ stats.recentAchievements.map (fun a => a.title) ↔
      80 ≤ roundHalfUp scores.sum scores.length) ∧
    ("Study Streak" ∈ stats.recentAchievements.map (fun a => a.title) ↔
      stats.studyStreak ≥ 3) ∧
    ("File Analyzer" ∈ stats.recentAchievements.map (fun a => a.title) ↔
      stats.totalFilesUploaded ≥ 3) ∧
    ∀ t ∈ stats.recentAchievements.map (fun a => a.title),
      t ∈ ["Quiz Explorer", "High Achiever", "Study Streak", "File Analyzer"] := by
  have hstats := computeStats_ok u faults db files zone now stats hok
  have hlength : (db.quizResults.filter (fun row => decide (row.userId = u))).length =
      scores.length := by
    have := congrArg List.length hscores
    simpa using this
  have havg : averageQuizScore (db.quizResults.filter (fun row => decide (row.userId = u))) =
      JSNum.ofNat (roundHalfUp scores.sum scores.length) := by
    rw [averageQuizScore_eq_averageScore]
    apply averageScore_eq_roundHalfUp _ scores _ hbound hlen
    rw [List.map_map]
    exact hscores
  have hm := mem_titles_recentAchievements
    (db.quizResults.filter (fun row => decide (row.userId = u))).length
    (averageQuizScore (db.quizResults.filter (fun row => decide (row.userId = u))))
    (studyStreak zone (sortDesc (fun a => a.createdAt)
      (db.activities.filter (fun a => decide (a.userId = u)))) now)
    (countFiles faults db files u) now
  rw [hstats]
  simp only
  obtain ⟨h1, h2, h3, h4, h5⟩ := hm
  refine ⟨?_, ?_, h3, h4, h5⟩
  · rw [h1, hlength]
  · rw [h2, havg]
    simp [jsGe, JSNum.ofNat]

/-- Witness for C14 amended: the user with results of 79 % and 80 %. -/
theorem computeStats_achievements_witness :
    ∃ stats, computeStats (some "u1") noFaults twoRowsDb [] utc (40 * msPerDay) = .ok stats ∧
      ("High Achiever" ∈ stats.recentAchievements.map (fun a => a.title) ↔
        80 ≤ roundHalfUp [79, 80].sum [79, 80].length) :=
  ⟨_, rfl, (computeStats_achievements "u1" noFaults twoRowsDb [] utc (40 * msPerDay) _ [79, 80]
    rfl (by decide) (by decide) (by decide)).2.1⟩

/-- C16: with no identity `computeStats` returns the fixed guest record (all
counters 0, no subjects, progress or achievements, `isGuest = true`) whatever
the persistent store, its failures, the in-memory store and the clock are; the
route has no other output, so both stores are left as they were. -/
theorem computeStats_guest (faults : DbFaults) (db : Db) (files : FileStore)
    (zone : Zone) (now : Nat) :
    computeStats none faults db files zone now = .ok guestStats ∧
      guestStats =
        { totalConversations := 0, totalQuizzes := 0, totalFilesUploaded := 0
          averageQuizScore := JSNum.ofNat 0, studyStreak := 0, totalStudyTime := 0
          favoriteSubjects := [], weeklyProgress := [], recentAchievements := []
          totalPoints := JSNum.ofNat 0, isGuest := true } :=
  ⟨rfl, rfl⟩


theorem totalPoints_foldl_ofNat (studyActivities : List StudyActivity)
    (points : StudyActivity → Nat) (acc : Nat)
    (hpoints : ∀ a ∈ studyActivities, a.points = JSNum.ofNat (points a))
    (hsum : acc + (studyActivities.map points).sum < 2 ^ 53) :
    studyActivities.foldl (fun sum activity => jsAdd sum (orZero activity.points))
        (JSNum.ofNat acc) =
      JSNum.ofNat (acc + (studyActivities.map points).sum) := by
  induction studyActivities generalizing acc with
  | nil => simp
  | cons a rest ih =>
    simp only [List.foldl_cons, List.map_cons, List.sum_cons] at hsum ⊢
    rw [hpoints a (List.mem_cons_self _ _)]
    have hz : orZero (JSNum.ofNat (points a)) = JSNum.ofNat (points a) := rfl
    rw [hz, jsAdd_ofNat acc (points a) (by omega),
      ih (acc + points a) (fun x hx => hpoints x (List.mem_cons_of_mem _ hx)) (by omega)]
    congr 1
    omega

/-- On activities whose points are natural numbers, `totalPoints` is their sum. -/
theorem totalPoints_eq_sum (studyActivities : List StudyActivity)
    (points : StudyActivity → Nat)
    (hpoints : ∀ a ∈ studyActivities, a.points = JSNum.ofNat (points a))
    (hsum : (studyActivities.map points).sum < 2 ^ 53) :
    totalPoints studyActivities = JSNum.ofNat (studyActivities.map points).sum := by
  have h := totalPoints_foldl_ofNat studyActivities points 0 hpoints (by omega)
  unfold totalPoints
  rw [h, Nat.zero_add]

theorem activeOn_perm (zone : Zone) (l₁ l₂ : List StudyActivity) (day : Int)
    (h : l₁.Perm l₂) : activeOn zone l₁ day = activeOn zone l₂ day := by
  unfold activeOn
  rw [Bool.eq_iff_iff, List.any_eq_true, List.any_eq_true]
  constructor
  · rintro ⟨a, ha, hp⟩
    exact ⟨a, h.mem_iff.mp ha, hp⟩
  · rintro ⟨a, ha, hp⟩
    exact ⟨a, h.mem_iff.mpr ha, hp⟩

/-- No entry of the last 30 days falls on the calendar day of today: when every
activity is at least 30 days old and the zone offset is within a day of UTC, no
activity lies on today's date. -/
theorem activeOn_false_of_old (zone : Zone) (studyActivities : List StudyActivity) (now : Nat)
    (hzone : ∀ t, -(msPerDay : Int) ≤ zone t ∧ zone t ≤ (msPerDay : Int))
    (hold : ∀ a ∈ studyActivities, a.createdAt + 30 * msPerDay ≤ now) :
    activeOn zone studyActivities (toDateString zone (now : Int)) = false := by
  unfold activeOn
  rw [List.any_eq_false]
  intro a ha
  have h1 := hold a ha
  have h2 := hzone (a.createdAt : Int)
  have h3 := hzone (now : Int)
  simp only [decide_eq_true_eq]
  unfold toDateString
  unfold msPerDay at *
  push_cast at *
  omega

/-- C15 as stated fails: the only activity of `u1` is 40 days old and worth 5
points, so no activity falls in the last 30 days, and `totalPoints` is 5; with
five quiz results of 90 % besides, the same user has `studyStreak = 0` and the
badges `Quiz Explorer` and `High Achiever`. -/
theorem computeStats_totalPoints_counts_old_activities :
    (∀ a ∈ oldActivityDb.activities, a.createdAt + 30 * msPerDay ≤ 50 * msPerDay) ∧
    (∃ stats, computeStats (some "u1") noFaults oldActivityDb [] utc (50 * msPerDay) =
        .ok stats ∧
      stats.studyStreak = 0 ∧ stats.totalPoints = JSNum.ofNat 5) ∧
    veteranDb.activities = oldActivityDb.activities ∧
    (∃ stats, computeStats (some "u1") noFaults veteranDb [] utc (50 * msPerDay) = .ok stats ∧
      stats.studyStreak = 0 ∧
      stats.recentAchievements.map (fun a => a.title) = ["Quiz Explorer", "High Achiever"]) := by
  refine ⟨by decide, ⟨_, rfl, by decide, by decide⟩, rfl, ⟨_, rfl, by decide, by decide⟩⟩

/-- C15 amended: for every authenticated user without an activity on the
calendar day of today, `computeStats` returns `studyStreak = 0`; `totalPoints`
is the sum of the points of all activities of the user, whatever their age
(points being natural numbers with a sum below `2 ^ 53`); and
`recentAchievements` is empty exactly when the user has fewer than 5 quiz
results, a rounded average score below 80 and fewer than 3 files. -/
theorem computeStats_quiet_user (u : String) (faults : DbFaults) (db : Db)
    (files : FileStore) (zone : Zone) (now : Nat) (stats : Stats)
    (points : StudyActivity → Nat)
    (hok : computeStats (some u) faults db files zone now = .ok stats)
    (hquiet : activeOn zone (db.activities.filter (fun a => decide (a.userId = u)))
      (toDateString zone (now : Int)) = false)
    (hpoints : ∀ a ∈ db.activities.filter (fun a => decide (a.userId = u)),
      a.points = JSNum.ofNat (points a))
    (hsum : ((db.activities.filter (fun a => decide (a.userId = u))).map points).sum
      < 2 ^ 53) :
    stats.studyStreak = 0 ∧
      stats.totalPoints =
        JSNum.ofNat ((db.activities.filter (fun a => decide (a.userId = u))).map points).sum ∧
      (stats.recentAchievements = [] ↔
        ((db.quizResults.filter (fun row => decide (row.userId = u))).length < 5 ∧
          jsGe stats.averageQuizScore 80 = false ∧
          countFiles faults db files u < 3)) := by
  have hstats := computeStats_ok u faults db files zone now stats hok
  have hperm := sortDesc_perm (fun a : StudyActivity => a.createdAt)
    (db.activities.filter (fun a => decide (a.userId = u)))
  have hstreak : studyStreak zone (sortDesc (fun a => a.createdAt)
      (db.activities.filter (fun a => decide (a.userId = u)))) now = 0 := by
    have h00 : hasActivity zone (sortDesc (fun a => a.createdAt)
        (db.activities.filter (fun a => decide (a.userId = u)))) now 0 = false := by
      rw [hasActivity_perm zone _ _ now 0 hperm]
      unfold hasActivity
      unfold activeOn at hquiet
      simpa using hquiet
    rw [studyStreak_eq_count, h00]
    simp
  have hpts : totalPoints (sortDesc (fun a => a.createdAt)
      (db.activities.filter (fun a => decide (a.userId = u)))) =
      JSNum.ofNat ((db.activities.filter (fun a => decide (a.userId = u))).map points).sum := by
    have hs := (hperm.map points).sum_eq
    rw [totalPoints_eq_sum _ points (fun a ha => hpoints a (hperm.mem_iff.mp ha))
      (by rw [hs]; exact hsum), hs]
  rw [hstats]
  simp only
  refine ⟨hstreak, hpts, ?_⟩
  rw [hstreak]
  unfold recentAchievements
  by_cases h1 : (db.quizResults.filter (fun row => decide (row.userId = u))).length ≥ 5 <;>
    by_cases h2 : jsGe (averageQuizScore
      (db.quizResults.filter (fun row => decide (row.userId = u)))) 80 = true <;>
    by_cases h3 : countFiles faults db files u ≥ 3 <;>
    first
    | (simp [h1, h2, h3]; done)
    | (simp [h1, h2, h3]; omega)

/-- Witness for C15 amended: the user whose only activity is 40 days old. -/
theorem computeStats_quiet_user_witness :
    ∃ stats, computeStats (some "u1") noFaults oldActivityDb [] utc (50 * msPerDay) =
        .ok stats ∧
      stats.studyStreak = 0 ∧
      stats.totalPoints =
        JSNum.ofNat ((oldActivityDb.activities.filter
          (fun a => decide (a.userId = "u1"))).map (fun _ => 5)).sum ∧
      (stats.recentAchievements = [] ↔
        ((oldActivityDb.quizResults.filter (fun row => decide (row.userId = "u1"))).length < 5 ∧
          jsGe stats.averageQuizScore 80 = false ∧
          countFiles noFaults oldActivityDb [] "u1" < 3)) :=
  ⟨_, rfl, computeStats_quiet_user "u1" noFaults oldActivityDb [] utc (50 * msPerDay) _
    (fun _ => 5) rfl (by decide) (by decide) (by decide)⟩

theorem dayProgress_spec (zone : Zone) (sorted all : List StudyActivity) (today i : Nat)
    (hsame : zone ((today : Int) - (i : Int) * (msPerDay : Int)) = zone (today : Int))
    (hperm : sorted.Perm all) :
    (dayProgress zone sorted today i).quizzes =
        (all.filter (fun a => decide
          (toDateString zone (a.createdAt : Int) =
              toDateString zone (today : Int) - (i : Int) ∧
            a.activityType = "quiz_completed"))).length ∧
      (dayProgress zone sorted today i).studyTime =
        15 * (all.filter (fun a => decide
          (toDateString zone (a.createdAt : Int) =
            toDateString zone (today : Int) - (i : Int)))).length ∧
      (dayProgress zone sorted today i).quizzes * 15 ≤
        (dayProgress zone sorted today i).studyTime := by
  unfold dayProgress dayActivities
  simp only [toDateString_sub_days zone today i hsame, List.filter_filter]
  refine ⟨?_, ?_, ?_⟩
  · have hp := (hperm.filter (fun a => decide
          (toDateString zone (a.createdAt : Int) =
              toDateString zone (today : Int) - (i : Int) ∧
            a.activityType = "quiz_completed"))).length_eq
    rw [← hp]
    congr 1
    apply List.filter_congr
    intro a _
    simp [and_comm]
  · have hp := (hperm.filter (fun a => decide
          (toDateString zone (a.createdAt : Int) =
            toDateString zone (today : Int) - (i : Int)))).length_eq
    rw [← hp]
    ring
  · apply Nat.mul_le_mul_right
    apply List.Sublist.length_le
    apply List.monotone_filter_right
    intro a h
    simp only [Bool.and_eq_true] at h
    exact h.2

/-- Away from a change of the zone offset (the offset is the same at the seven
instants `now - i * 24h`), `weeklyProgress` has one entry per calendar day from
6 days ago to today: entry `k` counts the activities of the user on the day
`6 - k` days before today, `quizzes` those of type `quiz_completed`, `studyTime`
15 minutes for each. -/
theorem computeStats_weeklyProgress (u : String) (faults : DbFaults) (db : Db)
    (files : FileStore) (zone : Zone) (now : Nat) (stats : Stats)
    (hok : computeStats (some u) faults db files zone now = .ok stats)
    (hsame : ∀ i : Nat, i < 7 →
      zone ((now : Int) - (i : Int) * (msPerDay : Int)) = zone (now : Int)) :
    stats.weeklyProgress.length = 7 ∧
      ∀ k, k < 7 → ∃ entry, stats.weeklyProgress[k]? = some entry ∧
        entry.quizzes =
          ((db.activities.filter (fun a => decide (a.userId = u))).filter (fun a => decide
            (toDateString zone (a.createdAt : Int) =
                toDateString zone (now : Int) - ((6 - k : Nat) : Int) ∧
              a.activityType = "quiz_completed"))).length ∧
        entry.studyTime =
          15 * ((db.activities.filter (fun a => decide (a.userId = u))).filter (fun a => decide
            (toDateString zone (a.createdAt : Int) =
              toDateString zone (now : Int) - ((6 - k : Nat) : Int)))).length ∧
        entry.quizzes * 15 ≤ entry.studyTime := by
  have hstats := computeStats_ok u faults db files zone now stats hok
  rw [hstats]
  simp only
  refine ⟨by simp [weeklyProgress], ?_⟩
  intro k hk
  have hperm := sortDesc_perm (fun a : StudyActivity => a.createdAt)
    (db.activities.filter (fun a => decide (a.userId = u)))
  refine ⟨dayProgress zone (sortDesc (fun a => a.createdAt)
    (db.activities.filter (fun a => decide (a.userId = u)))) now (6 - k), ?_,
    dayProgress_spec zone _ _ now (6 - k) (hsame (6 - k) (by omega)) hperm⟩
  interval_cases k <;> rfl

/-- C26, the code at the failing input: the stats of `u1` computed in New York
at 23:30 on Sunday 1 November 2026, the day the clocks go back.  The seven
instants `now - i * 24h` fall on Tuesday 27 October to Sunday 1 November, the
last two on the same Sunday: `weeklyProgress` has two entries for Sunday, each
counting the quiz completed that day, and no entry for Monday 26 October, the
day six days before today, whose activity is counted nowhere. -/
theorem weeklyProgress_repeats_long_day :
    (∃ stats, computeStats (some "u1") noFaults longWeekDb [] newYorkAutumn2026
        (20759 * msPerDay + 16200000) = .ok stats ∧
      stats.weeklyProgress =
        [{ day := "Tue", quizzes := 0, studyTime := 0 },
         { day := "Wed", quizzes := 0, studyTime := 0 },
         { day := "Thu", quizzes := 0, studyTime := 0 },
         { day := "Fri", quizzes := 0, studyTime := 0 },
         { day := "Sat", quizzes := 0, studyTime := 0 },
         { day := "Sun", quizzes := 1, studyTime := 15 },
         { day := "Sun", quizzes := 1, studyTime := 15 }]) ∧
    longWeekDb.activities.map (fun a => toDateString newYorkAutumn2026 (a.createdAt : Int)) =
      [toDateString newYorkAutumn2026 ((20759 * msPerDay + 16200000 : Nat) : Int),
       toDateString newYorkAutumn2026 ((20759 * msPerDay + 16200000 : Nat) : Int) - 6] ∧
    (List.range 7).map (fun i : Nat => toDateString newYorkAutumn2026
        (((20759 * msPerDay + 16200000 : Nat) : Int) - (i : Int) * (msPerDay : Int))) =
      [20758, 20758, 20757, 20756, 20755, 20754, 20753] := by
  refine ⟨⟨_, rfl, by decide⟩, by decide, by decide⟩

/-! ## File routes -/

theorem createFileAnalysis_upload_rejects (db : Db) (row : FileRow) :
    db.createFileAnalysis uploadRowAttributes row =
      .error "notNull Violation: FileAnalysis.originalName cannot be null" := by
  rfl

theorem storeAnalysis_eq (user : Option String) (faults : DbFaults) (now : Nat) (db : Db)
    (files : FileStore) (record : FileRecord) :
    storeAnalysis user faults now db files record =
      (db, files.set record.id
        (match user with
         | none => record
         | some u => { record with userId := some u })) := by
  cases user with
  | none => rfl
  | some u =>
    unfold storeAnalysis
    simp only [createFileAnalysis_upload_rejects]
    cases faults .fileAnalysisCreate <;> rfl

theorem JSMap.mem_set {β : Type} (m : JSMap β) (key : String) (value : β) (e : String × β)
    (h : e ∈ m.set key value) : e = (key, value) ∨ e ∈ m := by
  induction m with
  | nil => simpa [JSMap.set] using h
  | cons x rest ih =>
    obtain ⟨k, v⟩ := x
    unfold JSMap.set at h
    split_ifs at h with hk
    · rcases List.mem_cons.mp h with h1 | h1
      · left; rw [h1, hk]
      · right; exact List.mem_cons_of_mem _ h1
    · rcases List.mem_cons.mp h with h1 | h1
      · right; rw [h1]; exact List.mem_cons_self _ _
      · rcases ih h1 with h2 | h2
        · left; exact h2
        · right; exact List.mem_cons_of_mem _ h2

theorem JSMap.keys_set {β : Type} (m : JSMap β) (key : String) (value : β) :
    (m.set key value).map Prod.fst =
      if key ∈ m.map Prod.fst then m.map Prod.fst else m.map Prod.fst ++ [key] := by
  induction m with
  | nil => simp [JSMap.set]
  | cons x rest ih =>
    obtain ⟨k, v⟩ := x
    unfold JSMap.set
    by_cases hk : k = key
    · simp [hk]
    · rw [if_neg hk]
      simp only [List.map_cons, ih, List.mem_cons]
      have hk2 : ¬ key = k := fun h => hk h.symm
      by_cases hm : key ∈ rest.map Prod.fst
      · simp [hm]
      · simp [hm, hk2]

theorem JSMap.delete_sublist {β : Type} (m : JSMap β) (key : String) :
    List.Sublist (m.delete key) m := by
  induction m with
  | nil => exact List.Sublist.refl _
  | cons x rest ih =>
    obtain ⟨k, v⟩ := x
    unfold JSMap.delete
    split_ifs
    · exact List.Sublist.cons _ ih
    · exact List.Sublist.cons₂ _ ih

theorem coherent_set (files : FileStore) (record : FileRecord) (h : FileStore.Coherent files) :
    FileStore.Coherent (JSMap.set files record.id record) := by
  obtain ⟨h1, h2⟩ := h
  refine ⟨?_, ?_⟩
  · rw [JSMap.keys_set]
    split_ifs with hm
    · exact h1
    · exact List.Nodup.append h1 (List.nodup_singleton _) (by simpa using hm)
  · intro e he
    rcases JSMap.mem_set _ _ _ _ he with h3 | h3
    · rw [h3]
    · exact h2 e h3

theorem coherent_delete (files : FileStore) (key : String) (h : FileStore.Coherent files) :
    FileStore.Coherent (JSMap.delete files key) := by
  obtain ⟨h1, h2⟩ := h
  have hs := JSMap.delete_sublist files key
  exact ⟨(hs.map Prod.fst).nodup h1, fun e he => h2 e (hs.subset he)⟩

theorem upload_stores (user : Option String) (faults : DbFaults) (provider : Provider)
    (textContent : Except String String) (fallbackAnalysis analysisId : String) (now : Nat)
    (db : Db) (files : FileStore) (file : Option UploadedFile) :
    (upload user faults provider textContent fallbackAnalysis analysisId now db files file).1
        = db ∧
      (((∀ body, (upload user faults provider textContent fallbackAnalysis analysisId now db
            files file).2.2 ≠ .ok body) ∧
          (upload user faults provider textContent fallbackAnalysis analysisId now db files
            file).2.1 = files) ∨
        ∃ record : FileRecord, record.id = analysisId ∧ record.userId = user ∧
          (∀ f, file = some f → record.fileName = f.originalname ∧
            record.fileSize = f.size ∧ record.mimeType = f.mimetype) ∧
          (∃ body, (upload user faults provider textContent fallbackAnalysis analysisId now db
            files file).2.2 = .ok body) ∧
          (upload user faults provider textContent fallbackAnalysis analysisId now db files
            file).2.1 = JSMap.set files analysisId record) := by
  unfold upload
  cases file with
  | none => exact ⟨rfl, Or.inl ⟨(fun _ h => by cases h), rfl⟩⟩
  | some f =>
    cases textContent with
    | error e => exact ⟨rfl, Or.inl ⟨(fun _ h => by cases h), rfl⟩⟩
    | ok text =>
      simp only [storeAnalysis_eq]
      cases provider (analysisPrompt text) with
      | ok analysis =>
        refine ⟨rfl, Or.inr ⟨_, ?_, ?_, ?_, ⟨_, rfl⟩, rfl⟩⟩
        · cases user <;> rfl
        · cases user <;> rfl
        · intro g hg
          cases hg
          cases user <;> exact ⟨rfl, rfl, rfl⟩
      | error e =>
        simp only
        split_ifs
        · exact ⟨rfl, Or.inl ⟨(fun _ h => by cases h), rfl⟩⟩
        · refine ⟨rfl, Or.inr ⟨_, ?_, ?_, ?_, ⟨_, rfl⟩, rfl⟩⟩
          · cases user <;> rfl
          · cases user <;> rfl
          · intro g hg
            cases hg
            cases user <;> exact ⟨rfl, rfl, rfl⟩
        · exact ⟨rfl, Or.inl ⟨(fun _ h => by cases h), rfl⟩⟩

theorem deleteAnalysis_stores (user : Option String) (faults : DbFaults) (db : Db)
    (files : FileStore) (disk : List String) (analysisId : String) :
    (db.fileAnalyses = [] →
        (deleteAnalysis user faults db files disk analysisId).1.fileAnalyses = []) ∧
      ((deleteAnalysis user faults db files disk analysisId).2.1 = files ∨
        (deleteAnalysis user faults db files disk analysisId).2.1 =
          JSMap.delete files analysisId) := by
  unfold deleteAnalysis
  cases user with
  | none =>
    cases JSMap.get files analysisId <;>
      first | exact ⟨fun h => h, Or.inl rfl⟩ | exact ⟨fun h => h, Or.inr rfl⟩
  | some u =>
    simp only
    cases faults .fileAnalysisFindOne with
    | some e => exact ⟨fun h => h, Or.inl rfl⟩
    | none =>
      simp only
      cases db.findFileAnalysis analysisId u with
      | none =>
        cases JSMap.get files analysisId <;>
          first | exact ⟨fun h => h, Or.inl rfl⟩ | exact ⟨fun h => h, Or.inr rfl⟩
      | some r =>
        simp only
        cases faults .fileAnalysisDestroy with
        | some e => exact ⟨fun h => h, Or.inl rfl⟩
        | none =>
          refine ⟨fun h => ?_, Or.inl rfl⟩
          simp only [h, List.filter_nil]

theorem reachable_invariant (db : Db) (files : FileStore) (h : FilesReachable db files) :
    db.fileAnalyses = [] ∧ FileStore.Coherent files := by
  induction h with
  | start db h0 => exact ⟨h0, List.nodup_nil, fun e he => by cases he⟩
  | upload user faults provider textContent fallbackAnalysis analysisId now db files file _ ih =>
    obtain ⟨h1, h2⟩ := upload_stores user faults provider textContent fallbackAnalysis
      analysisId now db files file
    refine ⟨by rw [h1]; exact ih.1, ?_⟩
    rcases h2 with ⟨_, h2⟩ | ⟨record, hid, _, _, _, h2⟩
    · rw [h2]; exact ih.2
    · rw [h2, ← hid]; exact coherent_set files record ih.2
  | delete user faults db files disk analysisId _ ih =>
    obtain ⟨h1, h2⟩ := deleteAnalysis_stores user faults db files disk analysisId
    refine ⟨h1 ih.1, ?_⟩
    rcases h2 with h2 | h2
    · rw [h2]; exact ih.2
    · rw [h2]; exact coherent_delete files analysisId ih.2
  | other db db1 files _ heq ih => exact ⟨by rw [heq]; exact ih.1, ih.2⟩

theorem insertDesc_sorted {α : Type} (key : α → Nat) (x : α) (l : List α)
    (h : l.Pairwise (fun a b => key b ≤ key a)) :
    (insertDesc key x l).Pairwise (fun a b => key b ≤ key a) := by
  induction l with
  | nil => simp [insertDesc]
  | cons y ys ih =>
    rw [List.pairwise_cons] at h
    unfold insertDesc
    split_ifs with hk
    · refine List.Pairwise.cons ?_ (List.Pairwise.cons h.1 h.2)
      intro z hz
      rcases List.mem_cons.mp hz with hz | hz
      · rw [hz]; exact hk
      · exact le_trans (h.1 z hz) hk
    · refine List.Pairwise.cons ?_ (ih h.2)
      intro z hz
      rcases List.mem_cons.mp ((insertDesc_perm key x ys).mem_iff.mp hz) with hz | hz
      · rw [hz]; omega
      · exact h.1 z hz

theorem sortDesc_sorted {α : Type} (key : α → Nat) (l : List α) :
    (sortDesc key l).Pairwise (fun a b => key b ≤ key a) := by
  induction l with
  | nil => simp [sortDesc]
  | cons x xs ih => exact insertDesc_sorted key x _ ih

theorem JSMap.get_eq_some_iff {β : Type} (m : JSMap β) (key : String) (value : β)
    (h : (m.map Prod.fst).Nodup) : m.get key = some value ↔ (key, value) ∈ m := by
  induction m with
  | nil => simp [JSMap.get]
  | cons x rest ih =>
    obtain ⟨k, v⟩ := x
    simp only [List.map_cons, List.nodup_cons] at h
    unfold JSMap.get
    by_cases hk : k = key
    · rw [if_pos hk]
      subst hk
      constructor
      · intro hv
        simp only [Option.some.injEq] at hv
        rw [hv]; exact List.mem_cons_self _ _
      · intro hm
        rcases List.mem_cons.mp hm with hm | hm
        · simp only [Prod.mk.injEq] at hm
          rw [hm.2]
        · exact absurd (List.mem_map_of_mem Prod.fst hm) h.1
    · rw [if_neg hk, ih h.2]
      constructor
      · exact fun hm => List.mem_cons_of_mem _ hm
      · intro hm
        rcases List.mem_cons.mp hm with hm | hm
        · simp only [Prod.mk.injEq] at hm
          exact absurd hm.1.symm hk
        · exact hm

theorem fileHistory_of_no_rows (u : String) (faults : DbFaults) (db : Db) (files : FileStore)
    (h : db.fileAnalyses = []) :
    fileHistory (some u) faults db files =
      .ok { files := sortDesc (fun item => item.uploadedAt)
              ((files.values.filter (fun item => decide (item.userId = some u))).map recordItem)
            totalFiles := (sortDesc (fun item => item.uploadedAt)
              ((files.values.filter
                (fun item => decide (item.userId = some u))).map recordItem)).length } := by
  unfold fileHistory
  simp only [h, List.filter_nil]
  cases faults .fileAnalysisFindAll <;> simp [sortDesc]

theorem owned_ids (u : String) (files : FileStore) (h : FileStore.Coherent files) :
    ((files.values.filter (fun item => decide (item.userId = some u))).map recordItem).map
        (fun item => item.id) =
      (files.filter (fun e => decide (e.2.userId = some u))).map Prod.fst := by
  obtain ⟨_, h2⟩ := h
  clear * - h2
  induction files with
  | nil => rfl
  | cons x rest ih =>
    have hx := h2 x (List.mem_cons_self _ _)
    have ih1 := ih (fun e he => h2 e (List.mem_cons_of_mem _ he))
    simp only [JSMap.values, List.map_cons, List.filter_cons] at ih1 ⊢
    by_cases hu : x.2.userId = some u
    · simp only [hu, decide_True, if_true, List.map_cons, recordItem, hx]
      rw [← ih1]
    · simp only [hu, decide_False]
      exact ih1

/-- In every state of the two stores that the routes produce with the model of
`FileAnalysis` as declared (the table stays empty), the file history of an
authenticated identity succeeds and lists each analysis identifier at most
once, lists exactly the analyses that identity owns, is sorted by upload time
descending, and `totalFiles` is the length of the list. -/
theorem fileHistory_reconciled (u : String) (faults : DbFaults) (db : Db) (files : FileStore)
    (h : FilesReachable db files) :
    ∃ body, fileHistory (some u) faults db files = .ok body ∧
      (body.files.map (fun item => item.id)).Nodup ∧
      (∀ id, id ∈ body.files.map (fun item => item.id) ↔
        ((∃ r ∈ db.fileAnalyses, r.id = id ∧ r.userId = u) ∨
          (∃ r, files.get id = some r ∧ r.userId = some u))) ∧
      body.files.Pairwise (fun a b => b.uploadedAt ≤ a.uploadedAt) ∧
      body.totalFiles = body.files.length := by
  obtain ⟨hrows, hcoh⟩ := reachable_invariant db files h
  refine ⟨_, fileHistory_of_no_rows u faults db files hrows, ?_, ?_, sortDesc_sorted _ _, rfl⟩
  · refine ((sortDesc_perm _ _).map _).nodup_iff.mpr ?_
    rw [owned_ids u files hcoh]
    exact ((List.filter_sublist _).map Prod.fst).nodup hcoh.1
  · intro id
    rw [((sortDesc_perm _ _).map _).mem_iff, owned_ids u files hcoh, hrows]
    simp only [List.not_mem_nil, false_and, exists_false, false_or, List.mem_map,
      List.mem_filter, decide_eq_true_eq]
    constructor
    · rintro ⟨⟨k, r⟩, ⟨hm, hu⟩, hk⟩
      simp only at hk hu
      subst hk
      exact ⟨r, (JSMap.get_eq_some_iff files k r hcoh.1).mpr hm, hu⟩
    · rintro ⟨r, hg, hu⟩
      exact ⟨(id, r), ⟨(JSMap.get_eq_some_iff files id r hcoh.1).mp hg, hu⟩, rfl⟩

/-- An instance of the preceding statement: the stores after one upload. -/
theorem fileHistory_reconciled_witness :
    ∃ body, fileHistory (some "u1") noFaults emptyDb taggedFiles = .ok body ∧
      (body.files.map (fun item => item.id)).Nodup ∧
      (∀ id, id ∈ body.files.map (fun item => item.id) ↔
        ((∃ r ∈ emptyDb.fileAnalyses, r.id = id ∧ r.userId = "u1") ∨
          (∃ r, taggedFiles.get id = some r ∧ r.userId = some "u1"))) ∧
      body.files.Pairwise (fun a b => b.uploadedAt ≤ a.uploadedAt) ∧
      body.totalFiles = body.files.length :=
  fileHistory_reconciled "u1" noFaults emptyDb taggedFiles
    (FilesReachable.upload (some "u1") noFaults (providerSays "Summary") (.ok "Some notes")
      "Basic analysis" "a1" 5 emptyDb [] (some notesFile) (FilesReachable.start emptyDb rfl))

/-- C12, the code at the failing input: the analysis `a1` of `u1` is held by
both stores, as a row and as a record tagged `u1`.  The history concatenates
the two lists without reconciling them: `a1` is listed twice and `totalFiles`
is 2, although `u1` owns one analysis. -/
theorem fileHistory_lists_analysis_twice :
    (overlapDb.fileAnalyses.map (fun r => (r.id, r.userId)) = [("a1", "u1")]) ∧
    (taggedFiles.map (fun e => (e.1, e.2.id, e.2.userId)) = [("a1", "a1", some "u1")]) ∧
    ∃ body, fileHistory (some "u1") noFaults overlapDb taggedFiles = .ok body ∧
      body.files.map (fun item => item.id) = ["a1", "a1"] ∧
      body.totalFiles = 2 ∧
      (body.files.map (fun item => item.id)).dedup.length = 1 := by
  refine ⟨by decide, by decide, _, rfl, by decide, by decide, by decide⟩

theorem find?_fresh_none (rows : List FileRow) (id u : String)
    (hfresh : ∀ r ∈ rows, r.id ≠ id) :
    rows.find? (fun r => decide (r.id = id ∧ r.userId = u)) = none := by
  rw [List.find?_eq_none]
  intro r hr
  simp [hfresh r hr]

theorem getAnalysis_record (user : Option String) (faults : DbFaults) (db : Db)
    (files : FileStore) (analysisId : String) (record : FileRecord)
    (hread : user.isSome → faults .fileAnalysisFindOne = none)
    (hfresh : ∀ r ∈ db.fileAnalyses, r.id ≠ analysisId)
    (hget : files.get analysisId = some record) :
    getAnalysis user faults db files analysisId = .ok (.record record) := by
  unfold getAnalysis
  have h1 : ¬ (user.isSome = true ∧ (faults .fileAnalysisFindOne).isSome = true) := by
    rintro ⟨hu, hf⟩
    rw [hread hu] at hf
    simp at hf
  rw [if_neg h1]
  have h2 : user.bind (fun u => db.findFileAnalysis analysisId u) = none := by
    cases user with
    | none => rfl
    | some u => exact find?_fresh_none db.fileAnalyses analysisId u hfresh
  rw [h2, hget]

/-- C13, the code at the failing input: an upload whose row insert fails puts
the record into the in-memory map with the owner `u1`; a submit whose result
insert fails and a generate whose quiz insert fails both answer `200` and
leave in the in-memory maps exactly what the same request of a guest leaves
there: the records carry no owner. -/
theorem degraded_quiz_records_carry_no_owner :
    ((upload (some "u1") (failAt .fileAnalysisCreate "down") (providerSays "Summary")
        (.ok "Some notes") "Basic analysis" "a1" 5 emptyDb [] (some notesFile)).2.1.get
        "a1").map (fun r => r.userId) = some (some "u1") ∧
    (∃ body, (submit (some "u1") (failAt .quizResultCreate "down") emptyDb
        (storeWith (uniformQuiz "q3" 3)) "q3" (answersWith 2 1) none "r1" 0).2.2 = .ok body) ∧
    (submit (some "u1") (failAt .quizResultCreate "down") emptyDb
        (storeWith (uniformQuiz "q3" 3)) "q3" (answersWith 2 1) none "r1" 0).2.1 =
      (submit none noFaults emptyDb
        (storeWith (uniformQuiz "q3" 3)) "q3" (answersWith 2 1) none "r1" 0).2.1 ∧
    (∃ body, (generate (some "u1") (failAt .quizCreate "down") (providerSays "json")
        parseSample "g1" 5 emptyDb (storeWith (uniformQuiz "q3" 3))
        mathematicsRequest).2.2 = .ok body) ∧
    (generate (some "u1") (failAt .quizCreate "down") (providerSays "json")
        parseSample "g1" 5 emptyDb (storeWith (uniformQuiz "q3" 3)) mathematicsRequest).2.1 =
      (generate none noFaults (providerSays "json")
        parseSample "g1" 5 emptyDb (storeWith (uniformQuiz "q3" 3)) mathematicsRequest).2.1 := by
  refine ⟨by decide, ⟨_, rfl⟩, by decide, ⟨_, rfl⟩, by decide⟩

/-- C20: when an upload (guest or authenticated, AI or fallback analysis)
answers `200`, the returned `analysisId` is the generated identifier; if no
persistent row has that identifier and the lookup query of an authenticated
caller is answered, retrieving the analysis by the returned identifier with the
same identity succeeds and yields a record with the file name, byte size and
MIME type of the uploaded file. -/
theorem upload_round_trip (user : Option String) (faults readFaults : DbFaults)
    (provider : Provider) (textContent : Except String String)
    (fallbackAnalysis analysisId : String) (now : Nat) (db : Db) (files : FileStore)
    (file : UploadedFile) (body : UploadBody)
    (hok : (upload user faults provider textContent fallbackAnalysis analysisId now db files
      (some file)).2.2 = .ok body)
    (hfresh : ∀ r ∈ db.fileAnalyses, r.id ≠ analysisId)
    (hread : user.isSome → readFaults .fileAnalysisFindOne = none) :
    body.analysisId = analysisId ∧
    ∃ view,
      getAnalysis user readFaults
        (upload user faults provider textContent fallbackAnalysis analysisId now db files
          (some file)).1
        (upload user faults provider textContent fallbackAnalysis analysisId now db files
          (some file)).2.1 body.analysisId = .ok view ∧
      view.fileName = file.originalname ∧ view.fileSize = file.size ∧
      view.mimeType = file.mimetype := by
  have hid : body.analysisId = analysisId := by
    revert hok
    unfold upload
    cases textContent with
    | error e => intro h; cases h
    | ok text =>
      simp only [storeAnalysis_eq]
      cases provider (analysisPrompt text) with
      | ok analysis =>
        intro h
        simp only [Response.ok.injEq] at h
        rw [← h]
      | error e =>
        simp only
        split_ifs
        · intro h; cases h
        · intro h
          simp only [Response.ok.injEq] at h
          rw [← h]
        · intro h; cases h
  refine ⟨hid, ?_⟩
  obtain ⟨h1, h2⟩ := upload_stores user faults provider textContent fallbackAnalysis
    analysisId now db files (some file)
  rcases h2 with ⟨hne, _⟩ | ⟨record, _, _, hmeta, _, hset⟩
  · exact absurd hok (hne body)
  · obtain ⟨hn, hs, hm⟩ := hmeta file rfl
    refine ⟨.record record, ?_, hn, hs, hm⟩
    rw [h1, hset, hid]
    exact getAnalysis_record user readFaults db _ analysisId record hread hfresh
      (JSMap.get_set_self files analysisId record)

theorem upload_round_trip_witness :
    "a1" = "a1" ∧
    ∃ view,
      getAnalysis (some "u1") noFaults
        (upload (some "u1") noFaults (providerSays "Summary") (.ok "Some notes")
          "Basic analysis" "a1" 5 emptyDb [] (some notesFile)).1
        (upload (some "u1") noFaults (providerSays "Summary") (.ok "Some notes")
          "Basic analysis" "a1" 5 emptyDb [] (some notesFile)).2.1 "a1" = .ok view ∧
      view.fileName = "notes.txt" ∧ view.fileSize = 120 ∧ view.mimeType = "text/plain" :=
  upload_round_trip (some "u1") noFaults noFaults (providerSays "Summary") (.ok "Some notes")
    "Basic analysis" "a1" 5 emptyDb [] notesFile
    { analysisId := "a1", fileName := "notes.txt", fileSize := 120, analysis := "Summary"
      uploadedAt := 5, message := "File uploaded and analyzed successfully"
      isAIGenerated := none }
    rfl (fun r hr => by cases hr) (fun _ => rfl)

/-- C19, the code at the failing input: `notes.mdx` has the extension `.mdx`,
which is none of the admitted extensions, and is accepted with MIME type
`text/markdown`; `report.pdf` with the MIME type `application/pdf-fake`, which
is none of the enumerated types, is accepted as well. -/
theorem fileFilter_accepts_mdx :
    extname "notes.mdx" = ".mdx" ∧ ".mdx" ∉ admittedExtensions ∧
      fileFilter "notes.mdx" "text/markdown" = none ∧
      "application/pdf-fake" ∉ allowedMimeTypes ∧
      fileFilter "report.pdf" "application/pdf-fake" = none := by
  decide

/-- C29, the code at the failing input: with a record tagged with owner `u1`
in the in-memory map, a guest and the authenticated identity `u2` both retrieve
it by its identifier, and a delete by `u2` answers `200` and removes the record
and its file. -/
theorem ephemeral_lookup_ignores_owner :
    (taggedFiles.get "a1").map (fun r => r.userId) = some (some "u1") ∧
    (∃ r, getAnalysis none noFaults emptyDb taggedFiles "a1" = .ok (.record r)) ∧
    (∃ r, getAnalysis (some "u2") noFaults emptyDb taggedFiles "a1" = .ok (.record r)) ∧
    (deleteAnalysis (some "u2") noFaults emptyDb taggedFiles ["uploads/file-1.txt"] "a1") =
      (emptyDb, [], [], .ok { message := "File and analysis deleted successfully"
                              analysisId := some "a1" }) := by
  refine ⟨by decide, ⟨_, rfl⟩, ⟨_, rfl⟩, by decide⟩

/-! ## Conversations -/

theorem find?_map_preserved (l : List ConversationRow) (f : ConversationRow → ConversationRow)
    (id u : String) (hf : ∀ c, (f c).id = c.id ∧ (f c).userId = c.userId) :
    (l.map f).find? (fun c => decide (c.id = id ∧ c.userId = u)) =
      (l.find? (fun c => decide (c.id = id ∧ c.userId = u))).map f := by
  induction l with
  | nil => rfl
  | cons c rest ih =>
    simp only [List.map_cons, List.find?_cons, (hf c).1, (hf c).2]
    cases decide (c.id = id ∧ c.userId = u)
    · exact ih
    · rfl

theorem closeConversation_find (faults : DbFaults) (now : Nat) (db : Db) (userId : String)
    (conversation : ConversationRow) (aiResponse activityType : String) (points : Nat)
    (id u : String) (row : ConversationRow) (h : db.findConversation id u = some row) :
    ∃ row1, (closeConversation faults now db userId conversation aiResponse activityType
        points).1.findConversation id u = some row1 ∧
      row1.title = row.title ∧ row1.personality = row.personality := by
  have hupd : ∀ d : Db, d.conversations = db.conversations →
      ∃ row1, (d.updateConversation conversation.id (conversation.messageCount + 2)
          now).findConversation id u = some row1 ∧
        row1.title = row.title ∧ row1.personality = row.personality := by
    intro d hd
    unfold Db.updateConversation Db.findConversation
    simp only [hd]
    rw [find?_map_preserved]
    · unfold Db.findConversation at h
      rw [h]
      refine ⟨_, rfl, ?_, ?_⟩ <;> simp only [] <;> split_ifs <;> rfl
    · intro c
      split_ifs <;> exact ⟨rfl, rfl⟩
  unfold closeConversation
  cases faults .messageCreateAssistant with
  | some e => exact ⟨row, h, rfl, rfl⟩
  | none =>
    simp only
    cases faults .conversationUpdate with
    | some e => exact ⟨row, h, rfl, rfl⟩
    | none =>
      simp only
      cases faults .studyActivityCreate with
      | some e => exact hupd _ rfl
      | none => exact hupd _ rfl

theorem find?_append_new (rows : List ConversationRow) (row : ConversationRow)
    (hnew : ∀ c ∈ rows, c.id ≠ row.id) :
    (rows ++ [row]).find? (fun c => decide (c.id = row.id ∧ c.userId = row.userId)) =
      some row := by
  induction rows with
  | nil => simp
  | cons c rest ih =>
    have h1 : c.id ≠ row.id := hnew c (List.mem_cons_self _ _)
    simp only [List.cons_append, List.find?_cons]
    have : decide (c.id = row.id ∧ c.userId = row.userId) = false := by simp [h1]
    rw [this]
    exact ih (fun x hx => hnew x (List.mem_cons_of_mem _ hx))

theorem openConversation_creates (faults : DbFaults) (now : Nat) (db : Db)
    (userId conversationId personality text : String)
    (hfind : faults .conversationFindOne = none)
    (hcreate : faults .conversationCreate = none)
    (hnew : ∀ c ∈ db.conversations, c.id ≠ conversationId) :
    (openConversation faults now db userId conversationId personality text).1.findConversation
        conversationId userId =
      some { id := conversationId, userId := userId, title := titleOf text
             personality := personality, messageCount := 0, lastMessageAt := now } := by
  have hnone : db.findConversation conversationId userId = none := by
    unfold Db.findConversation
    rw [List.find?_eq_none]
    intro c hc
    simp [hnew c hc]
  have hany : (db.conversations.any (fun c => decide (c.id = conversationId))) = false := by
    rw [Bool.eq_false_iff]
    intro hany
    rw [List.any_eq_true] at hany
    obtain ⟨c, hc, hid⟩ := hany
    exact hnew c hc (by simpa using hid)
  have hfound := find?_append_new db.conversations
    { id := conversationId, userId := userId, title := titleOf text
      personality := personality, messageCount := 0, lastMessageAt := now } hnew
  unfold openConversation
  simp only [hfind, hcreate, hnone, Db.createConversation, hany, Bool.false_eq_true, if_false]
  cases faults .messageCreateUser with
  | some e => exact hfound
  | none =>
    simp only
    cases faults .messageFindAll with
    | some e => exact hfound
    | none => exact hfound

theorem sendMessage_created_row (u : String) (faults : DbFaults) (provider : Provider)
    (now : Nat) (db : Db) (guests : GuestStore) (req : ChatRequest)
    (hmsg : req.message ≠ "")
    (hfind : faults .conversationFindOne = none)
    (hcreate : faults .conversationCreate = none)
    (hnew : ∀ c ∈ db.conversations, c.id ≠ req.conversationId) :
    ∃ row, (sendMessage (some u) faults provider now db guests req).1.findConversation
        req.conversationId u = some row ∧
      row.title = titleOf req.message ∧
      row.personality = req.personality.getD "friendly" := by
  have hopen := openConversation_creates faults now db u req.conversationId
    (req.personality.getD "friendly") req.message hfind hcreate hnew
  unfold sendMessage
  simp only [if_neg hmsg]
  rcases hres : openConversation faults now db u req.conversationId
      (req.personality.getD "friendly") req.message with ⟨db1, r⟩
  rw [hres] at hopen
  rcases r with e | ⟨conversation, history⟩
  · exact ⟨_, hopen, rfl, rfl⟩
  · simp only
    obtain ⟨row1, h1, h2, h3⟩ := closeConversation_find faults now db1 u conversation
      (aiResponseOrFallback provider
        (fullPrompt (lookupOrFriendly personalityPrompts (req.personality.getD "friendly"))
          req.context history req.message) (req.personality.getD "friendly"))
      "chat_message" 5 req.conversationId u _ hopen
    rcases hclose : closeConversation faults now db1 u conversation
        (aiResponseOrFallback provider
          (fullPrompt (lookupOrFriendly personalityPrompts (req.personality.getD "friendly"))
            req.context history req.message) (req.personality.getD "friendly"))
        "chat_message" 5 with ⟨db2, r2⟩
    rw [hclose] at h1
    rcases r2 with _ | e
    · exact ⟨row1, h1, h2, h3⟩
    · exact ⟨row1, h1, h2, h3⟩

theorem titleOf_rule (m : String) :
    titleOf m = if (utf16 m).length ≤ 50 then utf16 m
      else (utf16 m).take 50 ++ utf16 "..." := by
  unfold titleOf
  by_cases h : (utf16 m).length ≤ 50
  · have h1 : ¬ (utf16 m).length > 50 := by omega
    rw [if_pos h, if_neg h1, List.take_of_length_le h, List.append_nil]
  · have h1 : (utf16 m).length > 50 := by omega
    rw [if_neg h, if_pos h1]

/-- C17: an authenticated `sendMessage` that creates the conversation (the
lookup and the insert are answered, the identifier is new) leaves a
conversation whose title is the message itself when it has at most 50
characters and its first 50 characters followed by `...` otherwise, a character
being a UTF-16 code unit, the unit of `length` and `substring`; the title
`listConversations` derives for a guest conversation from its first user
message follows the same rule.  A message of 24 letters and 26 emoji has 76 code
units: its title is the 24 letters, 13 emoji and `...`. -/
theorem conversation_title (u : String) (faults : DbFaults) (provider : Provider)
    (now : Nat) (db : Db) (guests : GuestStore) (req : ChatRequest)
    (clock : Nat) (convId : String) (messages : List ChatMessage) (first : ChatMessage)
    (hmsg : req.message ≠ "")
    (hfind : faults .conversationFindOne = none)
    (hcreate : faults .conversationCreate = none)
    (hnew : ∀ c ∈ db.conversations, c.id ≠ req.conversationId)
    (hfirst : (messages.filter (fun m => decide (m.role = Role.user))).head? = some first)
    (hne : first.content ≠ "") :
    (∃ row, (sendMessage (some u) faults provider now db guests req).1.findConversation
        req.conversationId u = some row ∧
      row.title = if (utf16 req.message).length ≤ 50 then utf16 req.message
        else (utf16 req.message).take 50 ++ utf16 "...") ∧
    (guestSummary clock convId messages).title =
      (if (utf16 first.content).length ≤ 50 then utf16 first.content
        else (utf16 first.content).take 50 ++ utf16 "...") ∧
    titleOf (String.mk (List.replicate 24 'a' ++ List.replicate 26 (Char.ofNat 128512))) =
      utf16 (String.mk (List.replicate 24 'a' ++ List.replicate 13 (Char.ofNat 128512))) ++
        utf16 "..." := by
  refine ⟨?_, ?_, by decide⟩
  · obtain ⟨row, h1, h2, _⟩ := sendMessage_created_row u faults provider now db guests req
      hmsg hfind hcreate hnew
    exact ⟨row, h1, by rw [h2, titleOf_rule]⟩
  · unfold guestSummary
    simp only [hfirst, if_neg hne, titleOf_rule]

theorem conversation_title_witness :
    (∃ row, (sendMessage (some "u1") noFaults (providerSays "Hi") 7 emptyDb []
        (emojiRequest none)).1.findConversation (emojiRequest none).conversationId "u1" =
          some row ∧
      row.title = if (utf16 (emojiRequest none).message).length ≤ 50
        then utf16 (emojiRequest none).message
        else (utf16 (emojiRequest none).message).take 50 ++ utf16 "...") ∧
    (guestSummary 9 "c1"
        [{ role := Role.user, content := "Hello", timestamp := 7 },
         { role := Role.assistant, content := "Hi", timestamp := 7 }]).title =
      (if (utf16 "Hello").length ≤ 50 then utf16 "Hello"
        else (utf16 "Hello").take 50 ++ utf16 "...") ∧
    titleOf (String.mk (List.replicate 24 'a' ++ List.replicate 26 (Char.ofNat 128512))) =
      utf16 (String.mk (List.replicate 24 'a' ++ List.replicate 13 (Char.ofNat 128512))) ++
        utf16 "..." :=
  conversation_title "u1" noFaults (providerSays "Hi") 7 emptyDb [] (emojiRequest none)
    9 "c1" [{ role := Role.user, content := "Hello", timestamp := 7 },
            { role := Role.assistant, content := "Hi", timestamp := 7 }]
    { role := Role.user, content := "Hello", timestamp := 7 }
    (by decide) rfl rfl (fun c hc => by cases hc) rfl (by decide)

/-- C18 as stated fails: an authenticated `sendMessage` with
`personality: "pirate"` creates a conversation whose stored personality is
`pirate`, which is none of the six tags. -/
theorem sendMessage_stores_unrecognized_personality :
    ((sendMessage (some "u1") noFaults (providerSays "Hi") 7 emptyDb []
        (helloRequest (some "pirate"))).1.findConversation "c1" "u1").map
          (fun row => row.personality) = some "pirate" ∧
      "pirate" ∉ personalityTags := by
  decide

/-- C18 amended: an authenticated `sendMessage` that creates the conversation
stores the supplied personality as it is, and `friendly` when none is supplied;
the stored value is one of the six tags exactly when the supplied value is one
of them or is missing. -/
theorem conversation_personality (u : String) (faults : DbFaults) (provider : Provider)
    (now : Nat) (db : Db) (guests : GuestStore) (req : ChatRequest)
    (hmsg : req.message ≠ "")
    (hfind : faults .conversationFindOne = none)
    (hcreate : faults .conversationCreate = none)
    (hnew : ∀ c ∈ db.conversations, c.id ≠ req.conversationId) :
    ∃ row, (sendMessage (some u) faults provider now db guests req).1.findConversation
        req.conversationId u = some row ∧
      row.personality = (match req.personality with
        | some p => p
        | none => "friendly") ∧
      (row.personality ∈ personalityTags ↔
        (req.personality = none ∨ ∃ p ∈ personalityTags, req.personality = some p)) := by
  obtain ⟨row, h1, _, h3⟩ := sendMessage_created_row u faults provider now db guests req
    hmsg hfind hcreate hnew
  refine ⟨row, h1, ?_, ?_⟩
  · rw [h3]; cases req.personality <;> rfl
  · rw [h3]
    cases req.personality with
    | none => simp [personalityTags]
    | some p => simp

theorem conversation_personality_witness :
    ∃ row, (sendMessage (some "u1") noFaults (providerSays "Hi") 7 emptyDb []
        (helloRequest (some "casual"))).1.findConversation
          (helloRequest (some "casual")).conversationId "u1" = some row ∧
      row.personality = (match (helloRequest (some "casual")).personality with
        | some p => p
        | none => "friendly") ∧
      (row.personality ∈ personalityTags ↔
        ((helloRequest (some "casual")).personality = none ∨
          ∃ p ∈ personalityTags, (helloRequest (some "casual")).personality = some p)) :=
  conversation_personality "u1" noFaults (providerSays "Hi") 7 emptyDb []
    (helloRequest (some "casual")) (by decide) rfl rfl (fun c hc => by cases hc)

/-- C30, the code at the failing input: a conversation created by a request
whose message insert was rejected has no message and is listed with
`lastMessage = "undefined"`; a guest conversation whose most recent message is
the empty answer of the provider is listed with `lastMessage = "No messages
yet"` although it holds two messages. -/
theorem listConversations_preview_undefined :
    listConversations (some "u1") noFaults 9
        (sendMessage (some "u1") (failAt .messageCreateUser "connection lost")
          (providerSays "Hi") 7 emptyDb [] (helloRequest none)).1 [] =
      .ok { conversations :=
              [{ id := "c1", title := utf16 "Hello", personality := "friendly"
                 messageCount := 0, lastMessageAt := 7, lastMessage := utf16 "undefined"
                 lastMessageRole := none }]
            total := 1 } ∧
    listConversations none noFaults 9 emptyDb
        (sendMessage none noFaults (providerSays "") 7 emptyDb [] (helloRequest none)).2.1 =
      .ok { conversations :=
              [{ id := "c1", title := utf16 "Hello", personality := "friendly", messageCount := 2
                 lastMessageAt := 7, lastMessage := utf16 "No messages yet"
                 lastMessageRole := some Role.assistant }]
            total := 1 } := by
  constructor <;> decide

/-- C28: in a guest `sendMessage` the text handed to the provider is the system
prompt, the context, the history section and then the new message as the final
`User:` line; the history section is the newline-joined rendering of the last
ten messages of the conversation (the new message included, as its last line)
in oldest-first order, each as `User: content` or `Assistant: content`. -/
theorem guest_prompt_history (faults : DbFaults) (provider : Provider) (now : Nat) (db : Db)
    (guests : GuestStore) (req : ChatRequest) (hmsg : req.message ≠ "") :
    ∃ lines : List String,
      (sendMessage none faults provider now db guests req).2.2 =
        .ok { message := aiResponseOrFallback provider
                (lookupOrFriendly personalityPrompts (req.personality.getD "friendly") ++
                  "\n\nAdditional context: " ++ req.context ++
                  "\n\nConversation history:\n" ++ "\n".intercalate lines ++
                  "\n\nUser: " ++ req.message ++ "\n\nAssistant:")
                (req.personality.getD "friendly")
              conversationId := req.conversationId, timestamp := now } ∧
      lines.length ≤ 10 ∧
      lines =
        ((((guests.get req.conversationId).getD []).map
            (fun m : ChatMessage => (m.role, m.content)) ++ [(Role.user, req.message)]).drop
          ((((guests.get req.conversationId).getD []).length + 1) - 10)).map
          (fun m => (match m.1 with
            | Role.user => "User: "
            | Role.assistant => "Assistant: ") ++ m.2) ∧
      lines.getLast? = some ("User: " ++ req.message) := by
  refine ⟨(sliceLast 10 (((guests.get req.conversationId).getD []).map
      (fun m : ChatMessage => (m.role, m.content)) ++ [(Role.user, req.message)])).map
        (fun m => historyLine m.1 m.2), ?_, ?_, ?_, ?_⟩
  · rw [sendMessage_guest faults provider now db guests req hmsg]
    rfl
  · rw [List.length_map]
    exact length_sliceLast_le 10 _
  · unfold sliceLast
    simp only [List.length_append, List.length_map, List.length_singleton]
    apply List.map_congr_left
    rintro ⟨role, content⟩ _
    cases role <;> simp [historyLine, String.append_assoc]
  · unfold sliceLast
    rw [List.drop_append_of_le_length (by
      simp only [List.length_append, List.length_map, List.length_singleton]; omega)]
    simp [historyLine, String.append_assoc]
    rw [← String.append_assoc]
    rfl

theorem guest_prompt_history_witness :
    ∃ lines : List String,
      (sendMessage none noFaults (providerSays "Hi") 7 emptyDb [] (helloRequest none)).2.2 =
        .ok { message := aiResponseOrFallback (providerSays "Hi")
                (lookupOrFriendly personalityPrompts
                    ((helloRequest none).personality.getD "friendly") ++
                  "\n\nAdditional context: " ++ (helloRequest none).context ++
                  "\n\nConversation history:\n" ++ "\n".intercalate lines ++
                  "\n\nUser: " ++ (helloRequest none).message ++ "\n\nAssistant:")
                ((helloRequest none).personality.getD "friendly")
              conversationId := (helloRequest none).conversationId, timestamp := 7 } ∧
      lines.length ≤ 10 ∧
      lines =
        ((((JSMap.get ([] : GuestStore) (helloRequest none).conversationId).getD []).map
            (fun m : ChatMessage => (m.role, m.content)) ++
              [(Role.user, (helloRequest none).message)]).drop
          ((((JSMap.get ([] : GuestStore) (helloRequest none).conversationId).getD []).length
            + 1) - 10)).map
          (fun m => (match m.1 with
            | Role.user => "User: "
            | Role.assistant => "Assistant: ") ++ m.2) ∧
      lines.getLast? = some ("User: " ++ (helloRequest none).message) :=
  guest_prompt_history noFaults (providerSays "Hi") 7 emptyDb [] (helloRequest none)
    (by decide)

/-! ## Code fences -/

theorem includesChars_iff_contiguous (sub l : List Char) :
    includesChars sub l = true ↔ sub <:+: l := by
  induction l with
  | nil =>
    simp only [includesChars, List.isEmpty_iff, List.infix_nil]
  | cons c cs ih =>
    simp only [includesChars, Bool.or_eq_true, ih, List.infix_cons_iff,
      List.isPrefixOf_iff_prefix]

theorem stripFencesChars_no_match (fuel : Nat) (c : Char) (cs : List Char)
    (h : ¬ "```".toList <+: c :: cs) :
    stripFencesChars (fuel + 1) (c :: cs) = c :: stripFencesChars fuel cs := by
  have h1 : ¬ "```json".toList <+: c :: cs := by
    intro hj
    exact h (List.IsPrefix.trans (⟨"json".toList, by decide⟩ : "```".toList <+: "```json".toList) hj)
  rw [stripFencesChars, if_neg (by rw [List.isPrefixOf_iff_prefix]; exact h1),
    if_neg (by rw [List.isPrefixOf_iff_prefix]; exact h)]

theorem stripFencesChars_backticks (k : Nat) (hk : k ≤ 3) (fuel : Nat) (l : List Char)
    (h : ¬ List.replicate k '`' <+: l) :
    ¬ List.replicate k '`' <+: stripFencesChars fuel l := by
  induction k generalizing fuel l with
  | zero => exact absurd (List.nil_prefix) h
  | succ k ih =>
    cases fuel with
    | zero => simp [stripFencesChars, List.replicate_succ]
    | succ fuel =>
      cases l with
      | nil => simp [stripFencesChars, List.replicate_succ]
      | cons c cs =>
        have hT : ¬ "```".toList <+: c :: cs := by
          intro hp
          apply h
          refine List.IsPrefix.trans ?_ hp
          have : "```".toList = List.replicate 3 '`' := by decide
          rw [this]
          exact ⟨List.replicate (3 - (k + 1)) '`', by
            rw [← List.replicate_add]; congr 1; omega⟩
        rw [stripFencesChars_no_match fuel c cs hT]
        intro hp
        rw [List.replicate_succ, List.cons_prefix_cons] at hp
        apply h
        rw [List.replicate_succ, List.cons_prefix_cons]
        refine ⟨hp.1, ?_⟩
        by_contra hn
        exact ih (by omega) fuel cs hn hp.2

theorem stripFencesChars_no_fence (fuel : Nat) (l : List Char) :
    ¬ "```".toList <:+: stripFencesChars fuel l := by
  induction fuel generalizing l with
  | zero => simp [stripFencesChars]
  | succ fuel ih =>
    cases l with
    | nil => simp [stripFencesChars]
    | cons c cs =>
      by_cases hT : "```".toList <+: c :: cs
      · rw [stripFencesChars]
        split_ifs
        · exact ih _
        · exact ih _
        · rename_i h2
          exact absurd (List.isPrefixOf_iff_prefix.mpr hT) h2
      · have h3 : ¬ List.replicate 3 '`' <+: stripFencesChars (fuel + 1) (c :: cs) :=
          stripFencesChars_backticks 3 (le_refl 3) (fuel + 1) (c :: cs) hT
        rw [stripFencesChars_no_match fuel c cs hT] at h3 ⊢
        rw [List.infix_cons_iff]
        rintro (hp | hi)
        · exact h3 hp
        · exact ih cs hi

theorem trim_within (chars : List Char) :
    ((chars.dropWhile isJsWhitespace).reverse.dropWhile isJsWhitespace).reverse <:+: chars := by
  have h1 : ((chars.dropWhile isJsWhitespace).reverse.dropWhile isJsWhitespace).reverse <+:
      chars.dropWhile isJsWhitespace := by
    rw [← List.reverse_suffix, List.reverse_reverse]
    exact List.dropWhile_suffix _
  exact List.IsInfix.trans h1.isInfix (List.dropWhile_suffix _).isInfix

theorem stripFencesChars_of_no_fence (fuel : Nat) (l : List Char) (hfuel : l.length ≤ fuel)
    (h : ¬ "```".toList <:+: l) : stripFencesChars fuel l = l := by
  induction fuel generalizing l with
  | zero =>
    have : l = [] := List.length_eq_zero.mp (by omega)
    subst this
    rfl
  | succ fuel ih =>
    cases l with
    | nil => rfl
    | cons c cs =>
      rw [List.infix_cons_iff, not_or] at h
      rw [stripFencesChars_no_match fuel c cs h.1,
        ih cs (by simp only [List.length_cons] at hfuel; omega) h.2]

/-- C27: for every provider response, the text cleaned before JSON parsing
(every match of the fence pattern removed in one pass, then trimmed) contains
no three consecutive backticks; a fenced answer loses its fences and the white
space around the payload. -/
theorem cleanResponse_no_fence (aiResponse : String) :
    includes (cleanResponse aiResponse) "```" = false ∧
      cleanResponse "```json\n[1, 2]\n```\n" = "[1, 2]" := by
  refine ⟨?_, by decide⟩
  rw [Bool.eq_false_iff]
  intro h
  unfold includes at h
  rw [includesChars_iff_contiguous] at h
  unfold cleanResponse trim stripFences at h
  exact stripFencesChars_no_fence _ _ (List.IsInfix.trans h (trim_within _))

/-! ## Quiz points, history scores, fallback bank -/

theorem completionPoints_ofNat (s : Nat) (hs : s ≤ 100) :
    completionPoints (JSNum.ofNat s) = JSNum.ofNat (max 5 ((s + 5) / 10)) := by
  have hround := mathRound_roundToDouble (s * 1) (1 * 10)
    (by have : (100 : Nat) < 2 ^ 52 := by norm_num
        omega) (by norm_num)
  have hr : roundHalfUp (s * 1) (1 * 10) = (s + 5) / 10 := by
    unfold roundHalfUp
    omega
  unfold completionPoints
  simp only [JSNum.ofNat, jsDiv]
  rw [if_neg (by norm_num), hround, hr]
  simp only [jsMax]
  by_cases h5 : 5 < (s + 5) / 10
  · rw [if_pos (by omega), max_eq_right (by omega)]
  · rw [if_neg (by omega), max_eq_left (by omega)]

/-- C22: when a submission by an authenticated user scores the integer
percentage `s` between 0 and 100 and the two inserts are accepted, `submit`
appends to the activity log one `quiz_completed` activity of that user worth
`max(5, round(s / 10))` points (halves rounded up); the points lie between 5
and 10 and, for `t ≤ s`, the points for `t` do not exceed the points for `s`. -/
theorem submit_logs_completion_points (u : String) (faults : DbFaults) (db : Db)
    (store : QuizStore) (quizId : String) (quiz : Quiz) (answers : List JSVal)
    (timeSpent : Option Nat) (resultId : String) (now : Nat) (s t : Nat)
    (hread : faults .quizFindOne = none)
    (hresult : faults .quizResultCreate = none)
    (hactivity : faults .studyActivityCreate = none)
    (hstored : locateQuiz (some u) db store quizId = some quiz)
    (hscore : (calculateResults quizId quiz answers timeSpent now).score.percentage =
      JSNum.ofNat s)
    (hs : s ≤ 100) (ht : t ≤ s) :
    (submit (some u) faults db store quizId answers timeSpent resultId now).1.activities =
        db.activities ++
          [{ userId := u, activityType := "quiz_completed"
             points := JSNum.ofNat (max 5 ((s + 5) / 10)), createdAt := now }] ∧
      completionPoints (JSNum.ofNat t) = JSNum.ofNat (max 5 ((t + 5) / 10)) ∧
      5 ≤ max 5 ((s + 5) / 10) ∧ max 5 ((s + 5) / 10) ≤ 10 ∧
      max 5 ((t + 5) / 10) ≤ max 5 ((s + 5) / 10) := by
  refine ⟨?_, completionPoints_ofNat t (by omega), le_max_left _ _,
    max_le (by norm_num) (by omega), max_le_max (le_refl 5) (by omega)⟩
  have h1 : ¬ ((some u).isSome = true ∧ (faults .quizFindOne).isSome = true) := by
    rintro ⟨_, hf⟩
    rw [hread] at hf
    simp at hf
  unfold submit
  rw [if_neg h1, hstored]
  simp only [hresult, hactivity, hscore, completionPoints_ofNat s hs]

theorem submit_logs_completion_points_witness :
    (submit (some "u1") noFaults emptyDb (storeWith (uniformQuiz "q3" 3)) "q3"
        (answersWith 2 1) none "r1" 9).1.activities =
        emptyDb.activities ++
          [{ userId := "u1", activityType := "quiz_completed"
             points := JSNum.ofNat (max 5 ((67 + 5) / 10)), createdAt := 9 }] ∧
      completionPoints (JSNum.ofNat 40) = JSNum.ofNat (max 5 ((40 + 5) / 10)) ∧
      5 ≤ max 5 ((67 + 5) / 10) ∧ max 5 ((67 + 5) / 10) ≤ 10 ∧
      max 5 ((40 + 5) / 10) ≤ max 5 ((67 + 5) / 10) :=
  submit_logs_completion_points "u1" noFaults emptyDb (storeWith (uniformQuiz "q3" 3)) "q3"
    (uniformQuiz "q3" 3) (answersWith 2 1) none "r1" 9 67 40 rfl rfl rfl (by decide)
    (by decide) (by decide) (by decide)

/-- The `averageScore` of the history route depends on the results only
through their normalised scores. -/
theorem averageScore_congr (results1 results2 : List StoredResult)
    (h : results1.map scoreValue = results2.map scoreValue) :
    averageScore results1 = averageScore results2 := by
  have hlen : results1.length = results2.length := by
    have := congrArg List.length h
    simpa using this
  have hfold : ∀ (l : List StoredResult) (init : JSNum),
      l.foldl (fun sum result => jsAdd sum (scoreValue result)) init =
        (l.map scoreValue).foldl jsAdd init := by
    intro l
    induction l with
    | nil => intro init; rfl
    | cons x xs ih => intro init; simp only [List.foldl_cons, List.map_cons, ih]
  unfold averageScore
  rw [hfold, hfold, h, hlen]

/-- C23: for every list of results, each given by its score `p`, its shape
(flat row or nested record) and the other fields of the row and of the record,
`averageScore` over the flat rows with `score = p`, over the nested records
with `score.percentage = p` and over the mixture chosen by the shapes are the
same value, namely the rounded quotient of the sum of the `p` by their number
(0 for the empty list). -/
theorem averageScore_flat_nested
    (entries : List (JSNum × Bool × QuizResultRow × QuizResult)) :
    averageScore (entries.map (fun e =>
        StoredResult.flat { e.2.2.1 with score := e.1 })) =
      (if entries.length > 0 then
        mathRound (jsDiv ((entries.map (fun e => e.1)).foldl jsAdd (JSNum.ofNat 0))
          (JSNum.ofNat entries.length))
       else JSNum.ofNat 0) ∧
    averageScore (entries.map (fun e =>
        StoredResult.nested { e.2.2.2 with score := { e.2.2.2.score with percentage := e.1 } })) =
      averageScore (entries.map (fun e =>
        StoredResult.flat { e.2.2.1 with score := e.1 })) ∧
    averageScore (entries.map (fun e =>
        if e.2.1 then StoredResult.flat { e.2.2.1 with score := e.1 }
        else StoredResult.nested
          { e.2.2.2 with score := { e.2.2.2.score with percentage := e.1 } })) =
      averageScore (entries.map (fun e =>
        StoredResult.flat { e.2.2.1 with score := e.1 })) := by
  refine ⟨?_, ?_, ?_⟩
  · unfold averageScore
    simp only [List.length_map, List.foldl_map, scoreValue]
  · apply averageScore_congr
    simp only [List.map_map]
    apply List.map_congr_left
    intro e _
    rfl
  · apply averageScore_congr
    simp only [List.map_map]
    apply List.map_congr_left
    intro e _
    simp only [Function.comp]
    split <;> rfl

/-- C21, the code at the failing input: a generation answered by the provider
logs one `quiz_generated` activity worth 10 points; with an overloaded provider
the request of an authenticated caller ends in a `ReferenceError`, without a
quiz and without an activity; and the overload branch as written, run with the
bindings it refers to, answers `200` with a fallback quiz and logs the activity
with 0 points. -/
theorem generate_fallback_awards_no_points :
    (generate (some "u1") noFaults (providerSays "json") parseSample "g1" 5 emptyDb
        (storeWith (uniformQuiz "q3" 3)) mathematicsRequest).1.activities =
      [{ userId := "u1", activityType := "quiz_generated", points := JSNum.ofNat 10
         createdAt := 5 }] ∧
    generate (some "u1") noFaults providerOverloaded parseSample "g1" 5 emptyDb
        (storeWith (uniformQuiz "q3" 3)) mathematicsRequest =
      (emptyDb, storeWith (uniformQuiz "q3" 3),
        .uncaught "ReferenceError: topic is not defined") ∧
    (∃ body, (overloadBranch (some "u1") noFaults (fun _ => 0) "g1" 5 emptyDb
        (storeWith (uniformQuiz "q3" 3)) "Mathematics" "easy" "multiple-choice" 2).2.2 =
          .ok body ∧ body.isAIGenerated = some false) ∧
    (overloadBranch (some "u1") noFaults (fun _ => 0) "g1" 5 emptyDb
        (storeWith (uniformQuiz "q3" 3)) "Mathematics" "easy" "multiple-choice" 2).1.activities =
      [{ userId := "u1", activityType := "quiz_generated", points := JSNum.ofNat 0
         createdAt := 5 }] := by
  refine ⟨by decide, by decide, ⟨_, rfl, rfl⟩, by decide⟩

/-- C24: `generateFallbackQuiz` draws from the mathematics bank exactly when the
lower-cased topic contains `math`, `arithmetic` or `number`; otherwise from the
science bank exactly when it contains `science`, `chemistry`, `physics` or
`biology`; otherwise from the general bank; topics with the same lower-case
form select the same bank. -/
theorem selectQuestionSet_spec (topic other : String)
    (hcase : toLowerCase other = toLowerCase topic) :
    (selectQuestionSet topic = fallbackQuestions.mathematics ↔
      (includes (toLowerCase topic) "math" = true ∨
        includes (toLowerCase topic) "arithmetic" = true ∨
        includes (toLowerCase topic) "number" = true)) ∧
    (selectQuestionSet topic = fallbackQuestions.science ↔
      (¬ (includes (toLowerCase topic) "math" = true ∨
          includes (toLowerCase topic) "arithmetic" = true ∨
          includes (toLowerCase topic) "number" = true) ∧
        (includes (toLowerCase topic) "science" = true ∨
          includes (toLowerCase topic) "chemistry" = true ∨
          includes (toLowerCase topic) "physics" = true ∨
          includes (toLowerCase topic) "biology" = true))) ∧
    (selectQuestionSet topic = fallbackQuestions.general ↔
      (¬ (includes (toLowerCase topic) "math" = true ∨
          includes (toLowerCase topic) "arithmetic" = true ∨
          includes (toLowerCase topic) "number" = true) ∧
        ¬ (includes (toLowerCase topic) "science" = true ∨
          includes (toLowerCase topic) "chemistry" = true ∨
          includes (toLowerCase topic) "physics" = true ∨
          includes (toLowerCase topic) "biology" = true))) ∧
    selectQuestionSet other = selectQuestionSet topic := by
  have hms : fallbackQuestions.mathematics ≠ fallbackQuestions.science := by decide
  have hmg : fallbackQuestions.mathematics ≠ fallbackQuestions.general := by decide
  have hsg : fallbackQuestions.science ≠ fallbackQuestions.general := by decide
  have hm : includesAny (toLowerCase topic) ["math", "arithmetic", "number"] = true ↔
      (includes (toLowerCase topic) "math" = true ∨
        includes (toLowerCase topic) "arithmetic" = true ∨
        includes (toLowerCase topic) "number" = true) := by
    simp [includesAny]
  have hs : includesAny (toLowerCase topic) ["science", "chemistry", "physics", "biology"]
        = true ↔
      (includes (toLowerCase topic) "science" = true ∨
        includes (toLowerCase topic) "chemistry" = true ∨
        includes (toLowerCase topic) "physics" = true ∨
        includes (toLowerCase topic) "biology" = true) := by
    simp [includesAny]
  rw [← hm, ← hs]
  refine ⟨?_, ?_, ?_, ?_⟩
  · unfold selectQuestionSet
    simp only
    split_ifs with h1 h2
    · simp [h1]
    · simp [h1, hms.symm]
    · simp [h1, hmg.symm]
  · unfold selectQuestionSet
    simp only
    split_ifs with h1 h2
    · simp [h1, hms]
    · simp [h1, h2]
    · simp [h1, h2, hsg.symm]
  · unfold selectQuestionSet
    simp only
    split_ifs with h1 h2
    · simp [h1, hmg]
    · simp [h1, h2, hsg]
    · simp [h1, h2]
  · unfold selectQuestionSet
    simp only [hcase]

theorem selectQuestionSet_spec_witness :
    (selectQuestionSet "Math and Science" = fallbackQuestions.mathematics ↔
      (includes (toLowerCase "Math and Science") "math" = true ∨
        includes (toLowerCase "Math and Science") "arithmetic" = true ∨
        includes (toLowerCase "Math and Science") "number" = true)) ∧
    (selectQuestionSet "Math and Science" = fallbackQuestions.science ↔
      (¬ (includes (toLowerCase "Math and Science") "math" = true ∨
          includes (toLowerCase "Math and Science") "arithmetic" = true ∨
          includes (toLowerCase "Math and Science") "number" = true) ∧
        (includes (toLowerCase "Math and Science") "science" = true ∨
          includes (toLowerCase "Math and Science") "chemistry" = true ∨
          includes (toLowerCase "Math and Science") "physics" = true ∨
          includes (toLowerCase "Math and Science") "biology" = true))) ∧
    (selectQuestionSet "Math and Science" = fallbackQuestions.general ↔
      (¬ (includes (toLowerCase "Math and Science") "math" = true ∨
          includes (toLowerCase "Math and Science") "arithmetic" = true ∨
          includes (toLowerCase "Math and Science") "number" = true) ∧
        ¬ (includes (toLowerCase "Math and Science") "science" = true ∨
          includes (toLowerCase "Math and Science") "chemistry" = true ∨
          includes (toLowerCase "Math and Science") "physics" = true ∨
          includes (toLowerCase "Math and Science") "biology" = true))) ∧
    selectQuestionSet "MATH AND SCIENCE" = selectQuestionSet "Math and Science" :=
  selectQuestionSet_spec "Math and Science" "MATH AND SCIENCE" (by decide)

/-- C25, the code at the failing input: with `Math.random()` below one half on
every call, topic `science` (a bank of two entries) and `questionCount = 2`
give the same question twice; `questionCount = 3` gives three questions none
of which is the second entry of the bank. -/
theorem generateFallbackQuiz_repeats_question :
    (selectQuestionSet "science").length = 2 ∧
    (generateFallbackQuiz (fun _ => 0) "science" "easy" 2).questions =
      [{ question := "What is the chemical symbol for water?"
         options := ["H2O", "CO2", "O2", "H2"]
         correct := 0
         explanation := "Water is H2O - two hydrogen atoms bonded to one oxygen atom" },
       { question := "What is the chemical symbol for water?"
         options := ["H2O", "CO2", "O2", "H2"]
         correct := 0
         explanation := "Water is H2O - two hydrogen atoms bonded to one oxygen atom" }] ∧
    ¬ (generateFallbackQuiz (fun _ => 0) "science" "easy" 2).questions.Nodup ∧
    (generateFallbackQuiz (fun _ => 0) "science" "easy" 3).questions.length = 3 ∧
    (∃ q ∈ selectQuestionSet "science",
      q ∉ (generateFallbackQuiz (fun _ => 0) "science" "easy" 3).questions) := by
  refine ⟨by decide, by decide, by decide, by decide, ?_⟩
  exact ⟨{ question := "What planet is closest to the Sun?"
           options := ["Venus", "Mercury", "Earth", "Mars"]
           correct := 1
           explanation := "Mercury is the closest planet to the Sun" }, by decide, by decide⟩

end StudyBuddy
